import Mathlib

/-!
# KIOSC finance dashboard: the Excel-to-application mapping layer

A shallow embedding of `src/services/excelService.js` (`mapExcelToAppData`,
`getMockData`) and of the sample data of `src/services/ExcelIntegration.js`
(`initialize`), with the properties of the derived budget fields.

## Modelling conventions

* A JavaScript number is a `JSNum`: `NaN`, `+Infinity`, `-Infinity` or an exact
  rational.  Arithmetic follows IEEE-754 on the special values and is exact on
  the finite ones (rounding is not modelled); `-0` is identified with `0`, which
  is sound here because both are falsy and no division by zero is ever executed.
  The program and the model agree on an operation whose exact result is a value
  of the Number type (`isDouble`); a property that relies on the exact result of
  `parseFloat`, `+`, `-`, `*` or `/` assumes that this result is such a value.
* A cell is a `JSVal`: `undefined` (the property is missing), `null`, a boolean, a
  number or a string.
* A row object is a list of (property name, value) pairs; reading a property that
  is not there gives `undefined`.
* `new Date()` is the only thing the mapper reads besides its argument; it is
  the explicit parameter `Clock`.
* A thrown `TypeError` is `Except.error`.
-/

namespace KioscFinance

/-! ## JavaScript numbers -/

/-- A JavaScript number: NaN, an infinity with its sign, or a finite value. -/
inductive JSNum where
  | nan : JSNum
  | inf (negative : Bool) : JSNum
  | fin (q : ℚ) : JSNum
  deriving DecidableEq

namespace JSNum

/-- Unary minus. -/
def neg : JSNum → JSNum
  | nan => nan
  | inf s => inf (!s)
  | fin q => fin (-q)

/-- The `+` operator on numbers; on finite operands the exact sum, which is the
program's result whenever it is a value of the Number type. -/
def add : JSNum → JSNum → JSNum
  | nan, _ => nan
  | _, nan => nan
  | inf s, inf t => if s = t then inf s else nan
  | inf s, fin _ => inf s
  | fin _, inf t => inf t
  | fin a, fin b => fin (a + b)

/-- The `-` operator on numbers. -/
def sub (a b : JSNum) : JSNum := add a (neg b)

/-- The `*` operator on numbers; on finite operands the exact product, which is the
program's result whenever it is a value of the Number type. -/
def mul : JSNum → JSNum → JSNum
  | nan, _ => nan
  | _, nan => nan
  | inf s, inf t => inf (s != t)
  | inf s, fin b => if b = 0 then nan else inf (s != decide (b < 0))
  | fin a, inf t => if a = 0 then nan else inf (decide (a < 0) != t)
  | fin a, fin b => fin (a * b)

/-- The `/` operator on numbers; on finite operands the exact quotient, which is the
program's result whenever it is a value of the Number type. -/
def div : JSNum → JSNum → JSNum
  | nan, _ => nan
  | _, nan => nan
  | inf _, inf _ => nan
  | inf s, fin b => inf (s != decide (b < 0))
  | fin _, inf _ => fin 0
  | fin a, fin b =>
    if b = 0 then (if a = 0 then nan else inf (decide (a < 0))) else fin (a / b)

/-- The `>` operator on numbers; every comparison with NaN is false. -/
def gt : JSNum → JSNum → Bool
  | nan, _ => false
  | _, nan => false
  | inf s, inf t => !s && t
  | inf s, fin _ => !s
  | fin _, inf t => t
  | fin a, fin b => decide (b < a)

/-- The `<=` operator on numbers; every comparison with NaN is false. -/
def le : JSNum → JSNum → Bool
  | nan, _ => false
  | _, nan => false
  | inf s, inf t => s || !t
  | inf s, fin _ => s
  | fin _, inf t => !t
  | fin a, fin b => decide (a ≤ b)

/-- ToBoolean on numbers: `0` and `NaN` are falsy. -/
def truthy : JSNum → Bool
  | nan => false
  | inf _ => true
  | fin q => decide (q ≠ 0)

/-- The expression `x || 0` for a number `x`. -/
def orZero (x : JSNum) : JSNum := if x.truthy then x else fin 0

/-- A finite number. -/
def isFinite : JSNum → Bool
  | fin _ => true
  | _ => false

end JSNum

/-! ## JavaScript values -/

/-- The value of a cell of a row object. -/
inductive JSVal where
  | undefined : JSVal
  | null : JSVal
  | bool (b : Bool) : JSVal
  | num (x : JSNum) : JSVal
  | str (s : String) : JSVal
  deriving DecidableEq

namespace JSVal

/-- ToBoolean: `undefined`, `null`, `false`, `0`, `NaN` and `''` are falsy. -/
def truthy : JSVal → Bool
  | undefined => false
  | null => false
  | bool b => b
  | num x => x.truthy
  | str s => decide (s ≠ "")

/-- The expression `a || b`. -/
def or (a b : JSVal) : JSVal := if a.truthy then a else b

end JSVal

/-! ## parseFloat -/

/-- StrWhiteSpaceChar of ECMA-262: white space and line terminators. -/
def isStrWhiteSpaceChar (c : Char) : Bool :=
  let n := c.toNat
  n = 9 || n = 10 || n = 11 || n = 12 || n = 13 || n = 32 || n = 0xA0 || n = 0x1680 ||
  (0x2000 ≤ n && n ≤ 0x200A) || n = 0x2028 || n = 0x2029 || n = 0x202F || n = 0x205F ||
  n = 0x3000 || n = 0xFEFF

/-- A decimal digit `0`..`9`. -/
def isDecimalDigit (c : Char) : Bool := decide (48 ≤ c.toNat) && decide (c.toNat ≤ 57)

/-- The number written by a run of decimal digits, most significant first. -/
def digitsValue (ds : List Char) : Nat :=
  ds.foldl (fun acc c => 10 * acc + (c.toNat - 48)) 0

/-- An optional leading sign: whether it is `-`, and what follows it. -/
def readSign : List Char → Bool × List Char
  | '-' :: r => (true, r)
  | '+' :: r => (false, r)
  | r => (false, r)

/-- The value of an optional ExponentPart at the head of the input: `e` or `E`, an
optional sign and at least one digit; anything else is no exponent. -/
def readExponent : List Char → Int
  | c :: r =>
    if c = 'e' ∨ c = 'E' then
      let ds := (readSign r).2.takeWhile isDecimalDigit
      if ds = [] then 0
      else if (readSign r).1 then -(digitsValue ds : Int) else (digitsValue ds : Int)
    else 0
  | [] => 0

/-- Scaling by a power of ten. -/
def scale10 (m : ℚ) (e : Int) : ℚ :=
  if 0 ≤ e then m * ((10 ^ e.toNat : Nat) : ℚ) else m / ((10 ^ (-e).toNat : Nat) : ℚ)

/-- The numeric forms of a StrDecimalLiteral after the sign: the longest prefix of
the form digits, optional `.digits`, optional exponent, with at least one digit
before the exponent; NaN when there is no such prefix. -/
def readDecimal (negative : Bool) (r : List Char) : JSNum :=
  let ip := r.takeWhile isDecimalDigit
  let r1 := r.dropWhile isDecimalDigit
  let fp := match r1 with
    | '.' :: t => t.takeWhile isDecimalDigit
    | _ => []
  let r2 := match r1 with
    | '.' :: t => t.dropWhile isDecimalDigit
    | _ => r1
  if ip = [] ∧ fp = [] then JSNum.nan
  else
    let m : ℚ := (digitsValue ip : ℚ) + (digitsValue fp : ℚ) / ((10 ^ fp.length : Nat) : ℚ)
    JSNum.fin (scale10 (if negative then -m else m) (readExponent r2))

/-- The unsigned part of a StrDecimalLiteral: `Infinity`, or a decimal number. -/
def readUnsigned (negative : Bool) : List Char → JSNum
  | 'I' :: 'n' :: 'f' :: 'i' :: 'n' :: 'i' :: 't' :: 'y' :: _ => JSNum.inf negative
  | r => readDecimal negative r

/-- The function `parseFloat` on a string: leading white space is skipped and the
longest prefix that is a StrDecimalLiteral is its value; the value is the exact
mathematical value of the literal, which is the program's result whenever it is a
value of the Number type. -/
def parseFloatString (s : String) : JSNum :=
  let r := s.toList.dropWhile isStrWhiteSpaceChar
  readUnsigned (readSign r).1 (readSign r).2

/-- The function `parseFloat` on a value.  `undefined`, `null` and booleans are first
converted to the strings `undefined`, `null`, `true`, `false`; a number is
converted to its shortest round-tripping text and parsed back, which gives the
number again. -/
def parseFloat : JSVal → JSNum
  | JSVal.undefined => parseFloatString "undefined"
  | JSVal.null => parseFloatString "null"
  | JSVal.bool b => parseFloatString (if b then "true" else "false")
  | JSVal.num x => x
  | JSVal.str s => parseFloatString s

/-! ## Workbook data and application data -/

/-- A row object of a sheet: its properties in order; a property that is not listed
reads as `undefined`. -/
abbrev Row := List (String × JSVal)

/-- Property access `row.key`. -/
def Row.get (row : Row) (key : String) : JSVal :=
  match row.lookup key with
  | some v => v
  | none => JSVal.undefined

/-- What `excelData[sheetName]` can be: falsy (the sheet is not there), an array
whose elements are row objects or `null`/`undefined` (`none`), or a truthy value that
is not an array. -/
inductive SheetVal where
  | absent : SheetVal
  | rows (rs : List (Option Row)) : SheetVal
  | notArray : SheetVal

/-- The argument of `mapExcelToAppData`: the four sheets it reads. -/
structure ExcelData where
  Programs : SheetVal
  Budget_Tracking : SheetVal
  Transaction_Entry : SheetVal
  Suppliers : SheetVal

/-- What `new Date()` contributes: `new Date().toISOString().split('T')[0]` and the
same expression one year later. -/
structure Clock where
  today : String
  nextYear : String

/-- A record of `appData.Programs`. -/
structure ProgramRecord where
  id : Nat
  name : JSVal
  category : JSVal
  budget : JSNum
  startDate : JSVal
  endDate : JSVal
  deriving DecidableEq

/-- A record of `appData.Budget_Tracking`. -/
structure BudgetRecord where
  program : JSVal
  totalBudget : JSNum
  ytdExpenses : JSNum
  committedExpenses : JSNum
  availableBudget : JSNum
  percentUsed : JSNum
  status : String
  ytdIncome : JSNum
  deriving DecidableEq

/-- A record of `appData.Transaction_Entry`. -/
structure TransactionRecord where
  id : Nat
  date : JSVal
  program : JSVal
  type : JSVal
  accountCategory : JSVal
  amount : JSNum
  status : JSVal
  reference : JSVal
  description : JSVal
  supplier : JSVal
  invoiceDate : JSVal
  paymentDueDate : JSVal
  paymentDate : JSVal
  paymentStatus : JSVal
  deriving DecidableEq

/-- A record of `appData.Suppliers`. -/
structure SupplierRecord where
  id : Nat
  name : JSVal
  contactPerson : JSVal
  email : JSVal
  phone : JSVal
  address : JSVal
  category : JSVal
  notes : JSVal
  deriving DecidableEq

/-- The application data model. -/
structure AppData where
  Programs : List ProgramRecord
  Budget_Tracking : List BudgetRecord
  Transaction_Entry : List TransactionRecord
  Suppliers : List SupplierRecord
  deriving DecidableEq

/-! ## mapExcelToAppData -/

/-- The callback of `excelData['Programs'].map`. -/
def mapProgramRow (clock : Clock) (index : Nat) (row : Row) : ProgramRecord :=
  { id := index + 1
    name := (row.get "Name").or (JSVal.str ("Program " ++ toString (index + 1)))
    category := (row.get "Category").or (JSVal.str "Uncategorized")
    budget := (parseFloat (row.get "Budget")).orZero
    startDate := (row.get "StartDate").or (JSVal.str clock.today)
    endDate := (row.get "EndDate").or (JSVal.str clock.nextYear) }

/-- The status tier of a utilisation: the `let status` / `if` / `else if` block. -/
def statusOf (percentUsed : JSNum) : String :=
  if percentUsed.gt (JSNum.fin (9 / 10)) then "At Risk"
  else if percentUsed.gt (JSNum.fin (7 / 10)) then "Caution"
  else "On Track"

/-- The callback of `excelData['Budget_Tracking'].map`; it does not use the index. -/
def mapBudgetRow (_index : Nat) (row : Row) : BudgetRecord :=
  let totalBudget := (parseFloat (row.get "TotalBudget")).orZero
  let ytdExpenses := (parseFloat (row.get "YTDExpenses")).orZero
  let committedExpenses := (parseFloat (row.get "CommittedExpenses")).orZero
  let availableBudget := (totalBudget.sub ytdExpenses).sub committedExpenses
  let percentUsed :=
    if totalBudget.gt (JSNum.fin 0) then (ytdExpenses.add committedExpenses).div totalBudget
    else JSNum.fin 0
  { program := (row.get "Program").or (JSVal.str "Unknown Program")
    totalBudget := totalBudget
    ytdExpenses := ytdExpenses
    committedExpenses := committedExpenses
    availableBudget := availableBudget
    percentUsed := percentUsed
    status := statusOf percentUsed
    ytdIncome := (parseFloat (row.get "YTDIncome")).orZero }

/-- The callback of `excelData['Transaction_Entry'].map`. -/
def mapTransactionRow (clock : Clock) (index : Nat) (row : Row) : TransactionRecord :=
  { id := index + 1
    date := (row.get "Date").or (JSVal.str clock.today)
    program := (row.get "Program").or (JSVal.str "Unknown Program")
    type := (row.get "Type").or (JSVal.str "Expense")
    accountCategory := (row.get "AccountCategory").or (JSVal.str "Uncategorized")
    amount := (parseFloat (row.get "Amount")).orZero
    status := (row.get "Status").or (JSVal.str "Pending")
    reference := (row.get "Reference").or (JSVal.str "")
    description := (row.get "Description").or (JSVal.str "")
    supplier := (row.get "Supplier").or (JSVal.str "")
    invoiceDate := (row.get "InvoiceDate").or (JSVal.str "")
    paymentDueDate := (row.get "PaymentDueDate").or (JSVal.str "")
    paymentDate := (row.get "PaymentDate").or (JSVal.str "")
    paymentStatus := (row.get "PaymentStatus").or (JSVal.str "Unpaid") }

/-- The callback of `excelData['Suppliers'].map`. -/
def mapSupplierRow (index : Nat) (row : Row) : SupplierRecord :=
  { id := index + 1
    name := (row.get "Name").or (JSVal.str ("Supplier " ++ toString (index + 1)))
    contactPerson := (row.get "ContactPerson").or (JSVal.str "")
    email := (row.get "Email").or (JSVal.str "")
    phone := (row.get "Phone").or (JSVal.str "")
    address := (row.get "Address").or (JSVal.str "")
    category := (row.get "Category").or (JSVal.str "General")
    notes := (row.get "Notes").or (JSVal.str "") }

/-- The method `Array.prototype.map` with a callback `(row, index) => ...` that reads
properties of `row`, from position `index` on: reading a property of `null` or
`undefined` throws. -/
def mapFrom {α : Type} (f : Nat → Row → α) : Nat → List (Option Row) → Except String (List α)
  | _, [] => Except.ok []
  | _, none :: _ => Except.error "TypeError: Cannot read properties of undefined"
  | index, some row :: rest =>
    match mapFrom f (index + 1) rest with
    | Except.ok out => Except.ok (f index row :: out)
    | Except.error e => Except.error e

/-- One `if (excelData[sheet]) { appData[sheet] = excelData[sheet].map(callback) }`
block: a falsy sheet leaves the initial empty array. -/
def mapSheet {α : Type} (f : Nat → Row → α) : SheetVal → Except String (List α)
  | SheetVal.absent => Except.ok []
  | SheetVal.rows rs => mapFrom f 0 rs
  | SheetVal.notArray => Except.error "TypeError: excelData[...].map is not a function"

/-- The function `mapExcelToAppData`: the four sheets are mapped in order and
any error is rethrown by the `catch` block. -/
def mapExcelToAppData (clock : Clock) (excelData : ExcelData) : Except String AppData :=
  match mapSheet (mapProgramRow clock) excelData.Programs with
  | Except.error e => Except.error e
  | Except.ok programs =>
    match mapSheet mapBudgetRow excelData.Budget_Tracking with
    | Except.error e => Except.error e
    | Except.ok budgets =>
      match mapSheet (mapTransactionRow clock) excelData.Transaction_Entry with
      | Except.error e => Except.error e
      | Except.ok transactions =>
        match mapSheet mapSupplierRow excelData.Suppliers with
        | Except.error e => Except.error e
        | Except.ok suppliers =>
          Except.ok
            { Programs := programs
              Budget_Tracking := budgets
              Transaction_Entry := transactions
              Suppliers := suppliers }

/-! ## Sample inputs and the vocabulary of the properties -/

/-- A clock reading. -/
def clockA : Clock := { today := "2024-06-01", nextYear := "2025-06-01" }

/-- A later clock reading. -/
def clockB : Clock := { today := "2024-06-02", nextYear := "2025-06-02" }

/-- A workbook with the given Budget_Tracking rows and no other sheet. -/
def budgetWorkbook (rows : List Row) : ExcelData :=
  { Programs := SheetVal.absent
    Budget_Tracking := SheetVal.rows (rows.map some)
    Transaction_Entry := SheetVal.absent
    Suppliers := SheetVal.absent }

/-- The application data with the given budget records and nothing else. -/
def budgetOnly (records : List BudgetRecord) : AppData :=
  { Programs := [], Budget_Tracking := records, Transaction_Entry := [], Suppliers := [] }

/-- A Budget_Tracking sheet with utilisations 0.9, 0.7 and 0.95. -/
def tierRows : List Row :=
  [[("Program", JSVal.str "A"), ("TotalBudget", JSVal.str "100"), ("YTDExpenses", JSVal.str "90")],
   [("Program", JSVal.str "B"), ("TotalBudget", JSVal.str "100"), ("YTDExpenses", JSVal.str "50"),
    ("CommittedExpenses", JSVal.str "20")],
   [("Program", JSVal.str "C"), ("TotalBudget", JSVal.num (JSNum.fin 100)),
    ("YTDExpenses", JSVal.num (JSNum.fin 95))]]

/-- The records `mapExcelToAppData` makes of `tierRows`. -/
def tierRecords : List BudgetRecord :=
  [{ program := JSVal.str "A", totalBudget := JSNum.fin 100, ytdExpenses := JSNum.fin 90,
     committedExpenses := JSNum.fin 0, availableBudget := JSNum.fin 10,
     percentUsed := JSNum.fin (9 / 10), status := "Caution", ytdIncome := JSNum.fin 0 },
   { program := JSVal.str "B", totalBudget := JSNum.fin 100, ytdExpenses := JSNum.fin 50,
     committedExpenses := JSNum.fin 20, availableBudget := JSNum.fin 30,
     percentUsed := JSNum.fin (7 / 10), status := "On Track", ytdIncome := JSNum.fin 0 },
   { program := JSVal.str "C", totalBudget := JSNum.fin 100, ytdExpenses := JSNum.fin 95,
     committedExpenses := JSNum.fin 0, availableBudget := JSNum.fin 5,
     percentUsed := JSNum.fin (19 / 20), status := "At Risk", ytdIncome := JSNum.fin 0 }]

/-- A budget row with a negative total budget. -/
def overdrawnRow : Row :=
  [("Program", JSVal.str "P"), ("TotalBudget", JSVal.str "-100"), ("YTDExpenses", JSVal.str "50")]

/-- The record `mapExcelToAppData` makes of `overdrawnRow`. -/
def overdrawnRecord : BudgetRecord :=
  { program := JSVal.str "P", totalBudget := JSNum.fin (-100), ytdExpenses := JSNum.fin 50,
    committedExpenses := JSNum.fin 0, availableBudget := JSNum.fin (-150),
    percentUsed := JSNum.fin 0, status := "On Track", ytdIncome := JSNum.fin 0 }

/-- A budget row whose TotalBudget cell cannot be parsed. -/
def unfundedRow : Row :=
  [("Program", JSVal.str "Q"), ("TotalBudget", JSVal.str "n/a"), ("YTDExpenses", JSVal.str "500"),
   ("CommittedExpenses", JSVal.str "20")]

/-- The record `mapExcelToAppData` makes of `unfundedRow`. -/
def unfundedRecord : BudgetRecord :=
  { program := JSVal.str "Q", totalBudget := JSNum.fin 0, ytdExpenses := JSNum.fin 500,
    committedExpenses := JSNum.fin 20, availableBudget := JSNum.fin (-520),
    percentUsed := JSNum.fin 0, status := "On Track", ytdIncome := JSNum.fin 0 }

/-- A budget row with an unbounded budget and an unbounded refund. -/
def unboundedRow : Row :=
  [("Program", JSVal.str "R"), ("TotalBudget", JSVal.str "Infinity"),
   ("YTDExpenses", JSVal.str "-Infinity")]

/-- The record `mapExcelToAppData` makes of `unboundedRow`. -/
def unboundedRecord : BudgetRecord :=
  { program := JSVal.str "R", totalBudget := JSNum.inf false, ytdExpenses := JSNum.inf true,
    committedExpenses := JSNum.fin 0, availableBudget := JSNum.inf false,
    percentUsed := JSNum.nan, status := "On Track", ytdIncome := JSNum.fin 0 }

/-- A well-formed sheet: not there, or a list of row objects. -/
def SheetVal.wellFormed : SheetVal → Prop
  | SheetVal.absent => True
  | SheetVal.rows rs => ∀ r ∈ rs, r ≠ none
  | SheetVal.notArray => False

/-- Every field of a program record is defined (`id` and `budget` are numbers). -/
def ProgramRecord.allDefined (p : ProgramRecord) : Prop :=
  p.name ≠ JSVal.undefined ∧ p.category ≠ JSVal.undefined ∧ p.budget ≠ JSNum.nan ∧
  p.startDate ≠ JSVal.undefined ∧ p.endDate ≠ JSVal.undefined

/-- Every field of a budget record is defined (the numeric fields are numbers and
`status` is a string); the parsed ones are not NaN. -/
def BudgetRecord.allDefined (b : BudgetRecord) : Prop :=
  b.program ≠ JSVal.undefined ∧ b.totalBudget ≠ JSNum.nan ∧ b.ytdExpenses ≠ JSNum.nan ∧
  b.committedExpenses ≠ JSNum.nan ∧ b.ytdIncome ≠ JSNum.nan ∧
  (b.status = "At Risk" ∨ b.status = "Caution" ∨ b.status = "On Track")

/-- Every field of a transaction record is defined (`id` and `amount` are numbers). -/
def TransactionRecord.allDefined (t : TransactionRecord) : Prop :=
  t.date ≠ JSVal.undefined ∧ t.program ≠ JSVal.undefined ∧ t.type ≠ JSVal.undefined ∧
  t.accountCategory ≠ JSVal.undefined ∧ t.amount ≠ JSNum.nan ∧ t.status ≠ JSVal.undefined ∧
  t.reference ≠ JSVal.undefined ∧ t.description ≠ JSVal.undefined ∧
  t.supplier ≠ JSVal.undefined ∧ t.invoiceDate ≠ JSVal.undefined ∧
  t.paymentDueDate ≠ JSVal.undefined ∧ t.paymentDate ≠ JSVal.undefined ∧
  t.paymentStatus ≠ JSVal.undefined

/-- Every field of a supplier record is defined (`id` is a number). -/
def SupplierRecord.allDefined (s : SupplierRecord) : Prop :=
  s.name ≠ JSVal.undefined ∧ s.contactPerson ≠ JSVal.undefined ∧ s.email ≠ JSVal.undefined ∧
  s.phone ≠ JSVal.undefined ∧ s.address ≠ JSVal.undefined ∧ s.category ≠ JSVal.undefined ∧
  s.notes ≠ JSVal.undefined

/-- A workbook whose rows have missing, empty and unparseable cells. -/
def sparseWorkbook : ExcelData :=
  { Programs := SheetVal.rows [some [], some [("Name", JSVal.str ""), ("Budget", JSVal.str "abc")]]
    Budget_Tracking := SheetVal.rows [some [("TotalBudget", JSVal.str "")], some []]
    Transaction_Entry := SheetVal.rows [some [("Amount", JSVal.null)], some []]
    Suppliers := SheetVal.absent }

/-- The expression `cell || dflt` stored in `out`: a falsy cell (missing, `null`,
the empty string, `0`, `NaN`, `false`) gives the default, a truthy cell (any
non-empty string among them) is copied. -/
def copiesOrDefaults (cell out dflt : JSVal) : Prop :=
  (cell = JSVal.undefined ∨ cell = JSVal.str "" → out = dflt) ∧
  (∀ s : String, s ≠ "" → cell = JSVal.str s → out = JSVal.str s) ∧
  (cell.truthy = false → out = dflt) ∧
  (cell.truthy = true → out = cell)

/-- A workbook with the given Transaction_Entry rows and no other sheet. -/
def transactionWorkbook (rows : List Row) : ExcelData :=
  { Programs := SheetVal.absent
    Budget_Tracking := SheetVal.absent
    Transaction_Entry := SheetVal.rows (rows.map some)
    Suppliers := SheetVal.absent }

/-- The application data with the given transactions and nothing else. -/
def transactionsOnly (records : List TransactionRecord) : AppData :=
  { Programs := [], Budget_Tracking := [], Transaction_Entry := records, Suppliers := [] }

/-- A transaction row whose amount is written with a thousands separator. -/
def formattedAmountRow : Row :=
  [("Date", JSVal.str "2024-03-01"), ("Program", JSVal.str "P"),
   ("Amount", JSVal.str "1,250.50"), ("Reference", JSVal.str "INV-7")]

/-- The record `mapExcelToAppData` makes of `formattedAmountRow`. -/
def formattedAmountRecord : TransactionRecord :=
  { id := 1, date := JSVal.str "2024-03-01", program := JSVal.str "P",
    type := JSVal.str "Expense", accountCategory := JSVal.str "Uncategorized",
    amount := JSNum.fin 1, status := JSVal.str "Pending", reference := JSVal.str "INV-7",
    description := JSVal.str "", supplier := JSVal.str "", invoiceDate := JSVal.str "",
    paymentDueDate := JSVal.str "", paymentDate := JSVal.str "",
    paymentStatus := JSVal.str "Unpaid" }

/-- A workbook with two Programs rows, two Transaction_Entry rows and two Suppliers
rows; the second program and the first supplier have no Name. -/
def listingWorkbook : ExcelData :=
  { Programs := SheetVal.rows
      [some [("Name", JSVal.str "Robotics"), ("Category", JSVal.str "VCES"),
             ("StartDate", JSVal.str "2024-01-01"), ("EndDate", JSVal.str "2024-12-31")],
       some [("Category", JSVal.str "GDC"), ("StartDate", JSVal.str "2024-02-01"),
             ("EndDate", JSVal.str "2024-11-30")]]
    Budget_Tracking := SheetVal.absent
    Transaction_Entry := SheetVal.rows
      [some [("Date", JSVal.str "2024-03-01"), ("Program", JSVal.str "Robotics")],
       some [("Date", JSVal.str "2024-03-02"), ("Program", JSVal.str "Robotics")]]
    Suppliers := SheetVal.rows
      [some [("Email", JSVal.str "a@b.c")], some [("Name", JSVal.str "Acme")]] }

/-- The application data `mapExcelToAppData` makes of `listingWorkbook`. -/
def listingAppData : AppData :=
  { Programs :=
      [{ id := 1, name := JSVal.str "Robotics", category := JSVal.str "VCES",
         budget := JSNum.fin 0, startDate := JSVal.str "2024-01-01",
         endDate := JSVal.str "2024-12-31" },
       { id := 2, name := JSVal.str "Program 2", category := JSVal.str "GDC",
         budget := JSNum.fin 0, startDate := JSVal.str "2024-02-01",
         endDate := JSVal.str "2024-11-30" }]
    Budget_Tracking := []
    Transaction_Entry :=
      [{ id := 1, date := JSVal.str "2024-03-01", program := JSVal.str "Robotics",
         type := JSVal.str "Expense", accountCategory := JSVal.str "Uncategorized",
         amount := JSNum.fin 0, status := JSVal.str "Pending", reference := JSVal.str "",
         description := JSVal.str "", supplier := JSVal.str "", invoiceDate := JSVal.str "",
         paymentDueDate := JSVal.str "", paymentDate := JSVal.str "",
         paymentStatus := JSVal.str "Unpaid" },
       { id := 2, date := JSVal.str "2024-03-02", program := JSVal.str "Robotics",
         type := JSVal.str "Expense", accountCategory := JSVal.str "Uncategorized",
         amount := JSNum.fin 0, status := JSVal.str "Pending", reference := JSVal.str "",
         description := JSVal.str "", supplier := JSVal.str "", invoiceDate := JSVal.str "",
         paymentDueDate := JSVal.str "", paymentDate := JSVal.str "",
         paymentStatus := JSVal.str "Unpaid" }]
    Suppliers :=
      [{ id := 1, name := JSVal.str "Supplier 1", contactPerson := JSVal.str "",
         email := JSVal.str "a@b.c", phone := JSVal.str "", address := JSVal.str "",
         category := JSVal.str "General", notes := JSVal.str "" },
       { id := 2, name := JSVal.str "Acme", contactPerson := JSVal.str "",
         email := JSVal.str "", phone := JSVal.str "", address := JSVal.str "",
         category := JSVal.str "General", notes := JSVal.str "" }] }

/-- Every date cell that the mapper would otherwise fill from the clock is truthy:
StartDate and EndDate of every Programs row, Date of every Transaction_Entry row. -/
def datesPresent (excelData : ExcelData) : Prop :=
  (∀ rs, excelData.Programs = SheetVal.rows rs → ∀ row, some row ∈ rs →
    (row.get "StartDate").truthy = true ∧ (row.get "EndDate").truthy = true) ∧
  (∀ rs, excelData.Transaction_Entry = SheetVal.rows rs → ∀ row, some row ∈ rs →
    (row.get "Date").truthy = true)

/-- A workbook with one Programs row that has no StartDate and no EndDate. -/
def undatedWorkbook : ExcelData :=
  { Programs := SheetVal.rows [some [("Name", JSVal.str "Robotics")]]
    Budget_Tracking := SheetVal.absent
    Transaction_Entry := SheetVal.absent
    Suppliers := SheetVal.absent }

/-- The program record of `undatedWorkbook` when the dates are taken from `clock`. -/
def undatedProgram (clock : Clock) : ProgramRecord :=
  { id := 1, name := JSVal.str "Robotics", category := JSVal.str "Uncategorized",
    budget := JSNum.fin 0, startDate := JSVal.str clock.today,
    endDate := JSVal.str clock.nextYear }

/-- The character of a decimal digit. -/
def digitChar (d : Fin 10) : Char := Char.ofNat (48 + d.val)

/-- The number written by a list of digits, most significant first. -/
def digitsNat (ds : List (Fin 10)) : Nat :=
  ds.foldl (fun acc d => 10 * acc + d.val) 0

/-- The plain decimal text of a number: a minus sign when it is negative, the digits
of the integer part and, when there are fraction digits, a point followed by them. -/
def decimalText (negative : Bool) (ip fp : List (Fin 10)) : String :=
  String.mk ((if negative then ['-'] else []) ++ ip.map digitChar ++
    (if fp = [] then [] else '.' :: fp.map digitChar))

/-- The number that `decimalText` writes. -/
def decimalValue (negative : Bool) (ip fp : List (Fin 10)) : ℚ :=
  if negative then -((digitsNat ip : ℚ) + (digitsNat fp : ℚ) / ((10 ^ fp.length : Nat) : ℚ))
  else (digitsNat ip : ℚ) + (digitsNat fp : ℚ) / ((10 ^ fp.length : Nat) : ℚ)

/-- A transaction row with a negative amount written as plain decimal text. -/
def expenseRow : Row :=
  [("Date", JSVal.str "2024-01-20"), ("Type", JSVal.str "Expense"),
   ("Amount", JSVal.str "-15000.50")]

/-- The record `mapExcelToAppData` makes of `expenseRow`. -/
def expenseRecord : TransactionRecord :=
  { id := 1, date := JSVal.str "2024-01-20", program := JSVal.str "Unknown Program",
    type := JSVal.str "Expense", accountCategory := JSVal.str "Uncategorized",
    amount := JSNum.fin (-30001 / 2), status := JSVal.str "Pending",
    reference := JSVal.str "", description := JSVal.str "", supplier := JSVal.str "",
    invoiceDate := JSVal.str "", paymentDueDate := JSVal.str "", paymentDate := JSVal.str "",
    paymentStatus := JSVal.str "Unpaid" }

/-- The function `getMockData` of `excelService.js`: the four sheets of the sample
data (its `Dashboard` summary is not part of the application data model). -/
def getMockData : AppData :=
  { Programs :=
      [{ id := 1, name := JSVal.str "Technology Outreach Program", category := JSVal.str "VCES",
         budget := JSNum.fin 150000, startDate := JSVal.str "2024-01-01",
         endDate := JSVal.str "2025-12-31" },
       { id := 2, name := JSVal.str "STEM Curriculum Development", category := JSVal.str "GDC",
         budget := JSNum.fin 75000, startDate := JSVal.str "2024-02-15",
         endDate := JSVal.str "2025-06-30" },
       { id := 3, name := JSVal.str "School Partnership Initiative",
         category := JSVal.str "Commercial", budget := JSNum.fin 120000,
         startDate := JSVal.str "2024-03-01", endDate := JSVal.str "2025-08-31" },
       { id := 4, name := JSVal.str "Innovation Workshop Series",
         category := JSVal.str "Operations", budget := JSNum.fin 45000,
         startDate := JSVal.str "2024-04-15", endDate := JSVal.str "2025-04-14" },
       { id := 5, name := JSVal.str "Digital Literacy Program", category := JSVal.str "VCES",
         budget := JSNum.fin 90000, startDate := JSVal.str "2024-05-01",
         endDate := JSVal.str "2025-10-31" }]
    Budget_Tracking :=
      [{ program := JSVal.str "Technology Outreach Program", totalBudget := JSNum.fin 150000,
         ytdExpenses := JSNum.fin 45000, committedExpenses := JSNum.fin 30000,
         availableBudget := JSNum.fin 75000, percentUsed := JSNum.fin (5 / 10),
         status := "On Track", ytdIncome := JSNum.fin 160000 },
       { program := JSVal.str "STEM Curriculum Development", totalBudget := JSNum.fin 75000,
         ytdExpenses := JSNum.fin 40000, committedExpenses := JSNum.fin 20000,
         availableBudget := JSNum.fin 15000, percentUsed := JSNum.fin (8 / 10),
         status := "Caution", ytdIncome := JSNum.fin 80000 },
       { program := JSVal.str "School Partnership Initiative", totalBudget := JSNum.fin 120000,
         ytdExpenses := JSNum.fin 80000, committedExpenses := JSNum.fin 30000,
         availableBudget := JSNum.fin 10000, percentUsed := JSNum.fin (92 / 100),
         status := "At Risk", ytdIncome := JSNum.fin 125000 },
       { program := JSVal.str "Innovation Workshop Series", totalBudget := JSNum.fin 45000,
         ytdExpenses := JSNum.fin 10000, committedExpenses := JSNum.fin 5000,
         availableBudget := JSNum.fin 30000, percentUsed := JSNum.fin (33 / 100),
         status := "On Track", ytdIncome := JSNum.fin 50000 },
       { program := JSVal.str "Digital Literacy Program", totalBudget := JSNum.fin 90000,
         ytdExpenses := JSNum.fin 30000, committedExpenses := JSNum.fin 15000,
         availableBudget := JSNum.fin 45000, percentUsed := JSNum.fin (5 / 10),
         status := "On Track", ytdIncome := JSNum.fin 92000 }]
    Transaction_Entry :=
      [{ id := 1, date := JSVal.str "2024-01-15",
         program := JSVal.str "Technology Outreach Program", type := JSVal.str "Income",
         accountCategory := JSVal.str "VCES", amount := JSNum.fin 50000,
         status := JSVal.str "Completed", reference := JSVal.str "INV-2024-001",
         description := JSVal.str "Initial funding payment",
         supplier := JSVal.str "Swinburne University", invoiceDate := JSVal.str "2024-01-10",
         paymentDueDate := JSVal.str "2024-02-10", paymentDate := JSVal.str "2024-01-30",
         paymentStatus := JSVal.str "Paid" },
       { id := 2, date := JSVal.str "2024-01-20",
         program := JSVal.str "Technology Outreach Program", type := JSVal.str "Expense",
         accountCategory := JSVal.str "VCES", amount := JSNum.fin (-15000),
         status := JSVal.str "Completed", reference := JSVal.str "PO-2024-001",
         description := JSVal.str "Equipment purchase",
         supplier := JSVal.str "Tech Solutions Inc.", invoiceDate := JSVal.str "2024-01-18",
         paymentDueDate := JSVal.str "2024-02-18", paymentDate := JSVal.str "2024-02-15",
         paymentStatus := JSVal.str "Paid" },
       { id := 3, date := JSVal.str "2024-02-05",
         program := JSVal.str "STEM Curriculum Development", type := JSVal.str "Income",
         accountCategory := JSVal.str "GDC", amount := JSNum.fin 40000,
         status := JSVal.str "Completed", reference := JSVal.str "INV-2024-002",
         description := JSVal.str "First installment",
         supplier := JSVal.str "Education Department", invoiceDate := JSVal.str "2024-02-01",
         paymentDueDate := JSVal.str "2024-03-01", paymentDate := JSVal.str "2024-02-25",
         paymentStatus := JSVal.str "Paid" },
       { id := 4, date := JSVal.str "2024-02-18",
         program := JSVal.str "STEM Curriculum Development", type := JSVal.str "Expense",
         accountCategory := JSVal.str "GDC", amount := JSNum.fin (-18000),
         status := JSVal.str "Completed", reference := JSVal.str "PO-2024-002",
         description := JSVal.str "Consultant fees", supplier := JSVal.str "STEM Consultants",
         invoiceDate := JSVal.str "2024-02-15", paymentDueDate := JSVal.str "2024-03-15",
         paymentDate := JSVal.str "", paymentStatus := JSVal.str "Pending" },
       { id := 15, date := JSVal.str "2024-06-01",
         program := JSVal.str "School Partnership Initiative", type := JSVal.str "Income",
         accountCategory := JSVal.str "Commercial", amount := JSNum.fin 40000,
         status := JSVal.str "Completed", reference := JSVal.str "INV-2024-007",
         description := JSVal.str "Second installment", supplier := JSVal.str "School District",
         invoiceDate := JSVal.str "2024-05-28", paymentDueDate := JSVal.str "2024-06-28",
         paymentDate := JSVal.str "", paymentStatus := JSVal.str "Outstanding" }]
    Suppliers :=
      [{ id := 1, name := JSVal.str "Tech Solutions Inc.",
         contactPerson := JSVal.str "John Smith", email := JSVal.str "john@techsolutions.com",
         phone := JSVal.str "555-1234", address := JSVal.str "123 Tech St, Melbourne",
         category := JSVal.str "Equipment",
         notes := JSVal.str "Preferred supplier for technical equipment" },
       { id := 2, name := JSVal.str "STEM Consultants",
         contactPerson := JSVal.str "Sarah Johnson",
         email := JSVal.str "sarah@stemconsultants.com", phone := JSVal.str "555-5678",
         address := JSVal.str "456 Education Rd, Sydney", category := JSVal.str "Services",
         notes := JSVal.str "Curriculum development specialists" },
       { id := 3, name := JSVal.str "Office Supplies Co.",
         contactPerson := JSVal.str "Michael Wong",
         email := JSVal.str "michael@officesupplies.com", phone := JSVal.str "555-9012",
         address := JSVal.str "789 Business Ave, Brisbane", category := JSVal.str "Supplies",
         notes := JSVal.str "Standard office supplies vendor" }] }

/-- The method `initialize` of `ExcelIntegration.js`, as a function of the current
`this.data` (`none` for `null`): existing data is returned as it is, otherwise the
built-in sample.  The sample transactions have no payment fields and the sample has
no `Suppliers` property, shown here as the empty list. -/
def ExcelIntegration.initialize (data : Option AppData) : AppData :=
  match data with
  | some existing => existing
  | none =>
    { Programs :=
        [{ id := 1, name := JSVal.str "Technology Outreach Program",
           category := JSVal.str "VCES", budget := JSNum.fin 150000,
           startDate := JSVal.str "2024-01-01", endDate := JSVal.str "2025-12-31" },
         { id := 2, name := JSVal.str "STEM Curriculum Development",
           category := JSVal.str "GDC", budget := JSNum.fin 75000,
           startDate := JSVal.str "2024-02-15", endDate := JSVal.str "2025-06-30" },
         { id := 3, name := JSVal.str "School Partnership Initiative",
           category := JSVal.str "Commercial", budget := JSNum.fin 120000,
           startDate := JSVal.str "2024-03-01", endDate := JSVal.str "2025-08-31" }]
      Budget_Tracking :=
        [{ program := JSVal.str "Technology Outreach Program", totalBudget := JSNum.fin 150000,
           ytdExpenses := JSNum.fin 45000, committedExpenses := JSNum.fin 30000,
           availableBudget := JSNum.fin 75000, percentUsed := JSNum.fin (5 / 10),
           status := "On Track", ytdIncome := JSNum.fin 160000 },
         { program := JSVal.str "STEM Curriculum Development", totalBudget := JSNum.fin 75000,
           ytdExpenses := JSNum.fin 40000, committedExpenses := JSNum.fin 20000,
           availableBudget := JSNum.fin 15000, percentUsed := JSNum.fin (8 / 10),
           status := "Caution", ytdIncome := JSNum.fin 80000 },
         { program := JSVal.str "School Partnership Initiative",
           totalBudget := JSNum.fin 120000, ytdExpenses := JSNum.fin 80000,
           committedExpenses := JSNum.fin 30000, availableBudget := JSNum.fin 10000,
           percentUsed := JSNum.fin (92 / 100), status := "At Risk",
           ytdIncome := JSNum.fin 125000 }]
      Transaction_Entry :=
        [{ id := 1, date := JSVal.str "2024-01-15",
           program := JSVal.str "Technology Outreach Program", type := JSVal.str "Income",
           accountCategory := JSVal.str "VCES", amount := JSNum.fin 50000,
           status := JSVal.str "Completed", reference := JSVal.str "INV-2024-001",
           description := JSVal.str "Initial funding payment",
           supplier := JSVal.str "Swinburne University", invoiceDate := JSVal.undefined,
           paymentDueDate := JSVal.undefined, paymentDate := JSVal.undefined,
           paymentStatus := JSVal.undefined },
         { id := 2, date := JSVal.str "2024-01-20",
           program := JSVal.str "Technology Outreach Program", type := JSVal.str "Expense",
           accountCategory := JSVal.str "VCES", amount := JSNum.fin (-15000),
           status := JSVal.str "Completed", reference := JSVal.str "PO-2024-001",
           description := JSVal.str "Equipment purchase",
           supplier := JSVal.str "Tech Solutions Inc.", invoiceDate := JSVal.undefined,
           paymentDueDate := JSVal.undefined, paymentDate := JSVal.undefined,
           paymentStatus := JSVal.undefined }]
      Suppliers := [] }

/-- The utilisation that the derived-field rule gives a record:
(ytdExpenses + committedExpenses) / totalBudget. -/
def BudgetRecord.ratio (b : BudgetRecord) : JSNum :=
  (b.ytdExpenses.add b.committedExpenses).div b.totalBudget

/-- The built-in Budget_Tracking records: those of `getMockData` and those of
`ExcelIntegration.initialize` on a fresh instance. -/
def sampleBudgets : List BudgetRecord :=
  getMockData.Budget_Tracking ++ ( ExcelIntegration.initialize none).Budget_Tracking

/-- The sample record of the School Partnership Initiative. -/
def schoolPartnershipBudget : BudgetRecord :=
  { program := JSVal.str "School Partnership Initiative", totalBudget := JSNum.fin 120000,
    ytdExpenses := JSNum.fin 80000, committedExpenses := JSNum.fin 30000,
    availableBudget := JSNum.fin 10000, percentUsed := JSNum.fin (92 / 100),
    status := "At Risk", ytdIncome := JSNum.fin 125000 }

/-! ## ExcelIntegration: addBudget and addTransaction -/

/-- The operator `===` on cell values: NaN is not equal to itself, any other value
is equal to itself only. -/
def JSVal.strictEq (a b : JSVal) : Bool :=
  decide (a = b ∧ a ≠ JSVal.num JSNum.nan)

/-- Whether the object has the property `key`. -/
def Row.has (o : Row) (key : String) : Bool :=
  (o.lookup key).isSome

/-- The assignment `o[key] = v`: an existing property keeps its place, a new one
comes last. -/
def Row.set : Row → String → JSVal → Row
  | [], key, v => [(key, v)]
  | (k, w) :: rest, key, v =>
    if key = k then (k, v) :: rest else (k, w) :: Row.set rest key v

/-- The object literal `{...a, ...b}`: the properties of `a`, then those of `b`,
assigned in order to a new object. -/
def Row.spread (a b : Row) : Row :=
  (a ++ b).foldl (fun acc p => Row.set acc p.1 p.2) []

/-- An object lists each of its properties once. -/
def Row.wellFormed (o : Row) : Prop :=
  (o.map Prod.fst).Nodup

/-- The object `this.data` of the `ExcelIntegration` instance, which is also the
`data` of `DataContext`: its sheets are arrays of objects, `none` when the property is
missing. -/
structure WorkbookData where
  Programs : Option (List Row)
  Budget_Tracking : Option (List Row)
  Transaction_Entry : Option (List Row)

/-- The expression `sheet || []`, which is also what `if (!sheet) sheet = []` leaves. -/
def orEmpty (sheet : Option (List Row)) : List Row :=
  match sheet with
  | some rows => rows
  | none => []

/-- The method `Array.prototype.findIndex`; `none` stands for `-1`. -/
def findIndex (p : Row → Bool) : List Row → Option Nat
  | [] => none
  | x :: rest => if p x then some 0 else (findIndex p rest).map (· + 1)

/-- The method `addBudget` of `ExcelIntegration`: the new `this.data` and the returned
budget; `this.data` being `null` is a TypeError. -/
def ExcelIntegration.addBudget (data : Option WorkbookData) (budget : Row) :
    Except String (WorkbookData × Row) :=
  match data with
  | none => Except.error "TypeError: Cannot read properties of null"
  | some d =>
    let budgets := orEmpty d.Budget_Tracking
    match findIndex (fun b => (b.get "program").strictEq (budget.get "program")) budgets with
    | some existingIndex =>
      let merged := Row.spread (budgets.getD existingIndex []) budget
      Except.ok ({ d with Budget_Tracking := some (budgets.set existingIndex merged) }, merged)
    | none =>
      Except.ok ({ d with Budget_Tracking := some (budgets ++ [budget]) }, budget)

/-- The function `Math.max` on two numbers: NaN when either is NaN. -/
def mathMax : JSNum → JSNum → JSNum
  | JSNum.nan, _ => JSNum.nan
  | _, JSNum.nan => JSNum.nan
  | a, b => if a.gt b then a else b

/-- ToNumber on a value; the conversion of a string is the parameter `strToNum`. -/
def toNumber (strToNum : String → JSNum) : JSVal → JSNum
  | JSVal.undefined => JSNum.nan
  | JSVal.null => JSNum.fin 0
  | JSVal.bool b => JSNum.fin (if b then 1 else 0)
  | JSVal.num x => x
  | JSVal.str s => strToNum s

/-- The expression `Transaction_Entry.reduce((max, t) => Math.max(max, t.id || 0), 0)`. -/
def maxId (strToNum : String → JSNum) (transactions : List Row) : JSNum :=
  transactions.foldl
    (fun max t => mathMax max (toNumber strToNum ((t.get "id").or (JSVal.num (JSNum.fin 0)))))
    (JSNum.fin 0)

/-- The method `addTransaction` of `ExcelIntegration`: the new `this.data` and the
returned transaction; `this.data` being `null` is a TypeError. -/
def ExcelIntegration.addTransaction (strToNum : String → JSNum) (data : Option WorkbookData)
    (transaction : Row) : Except String (WorkbookData × Row) :=
  match data with
  | none => Except.error "TypeError: Cannot read properties of null"
  | some d =>
    let transactions := orEmpty d.Transaction_Entry
    let stored :=
      if (transaction.get "id").truthy then transaction
      else Row.set transaction "id" (JSVal.num ((maxId strToNum transactions).add (JSNum.fin 1)))
    Except.ok ({ d with Transaction_Entry := some (transactions ++ [stored]) }, stored)

/-- An instance whose Budget_Tracking has two entries. -/
def twoBudgets : WorkbookData :=
  { Programs := none
    Budget_Tracking := some
      [[("program", JSVal.str "A"), ("totalBudget", JSVal.num (JSNum.fin 100))],
       [("program", JSVal.str "B"), ("totalBudget", JSVal.num (JSNum.fin 200)),
        ("status", JSVal.str "On Track")]]
    Transaction_Entry := none }

/-- A budget for program B with a new total and a new field. -/
def budgetB : Row :=
  [("program", JSVal.str "B"), ("totalBudget", JSVal.num (JSNum.fin 250)),
   ("ytdIncome", JSVal.num (JSNum.fin 10))]

/-- The entry that `addBudget` stores for `budgetB`. -/
def mergedB : Row :=
  [("program", JSVal.str "B"), ("totalBudget", JSVal.num (JSNum.fin 250)),
   ("status", JSVal.str "On Track"), ("ytdIncome", JSVal.num (JSNum.fin 10))]

/-! ## addTransaction -/

/-- An instance whose only transaction has a negative id. -/
def negativeIdData : WorkbookData :=
  { Programs := none
    Budget_Tracking := none
    Transaction_Entry := some [[("id", JSVal.num (JSNum.fin (-5)))]] }

/-- An instance with transactions 3 and 7 and one without id. -/
def threeTransactions : WorkbookData :=
  { Programs := none
    Budget_Tracking := none
    Transaction_Entry := some
      [[("id", JSVal.num (JSNum.fin 3))], [("amount", JSVal.num (JSNum.fin 20))],
       [("id", JSVal.num (JSNum.fin 7))]] }

/-- A transaction without id. -/
def newExpense : Row :=
  [("type", JSVal.str "Expense"), ("amount", JSVal.num (JSNum.fin (-40)))]

/-! ## DataContext: getCategories -/

/-- The expression `Array.from(new Set(values))`: each value once, in the order in
which it was first inserted; the set compares values with SameValueZero, under which
NaN equals itself. -/
def arrayFromSet (values : List JSVal) : List JSVal :=
  values.foldl (fun set v => if v ∈ set then set else set ++ [v]) []

/-- The function `getCategories` of `DataContext`, on its `data` (`none` for `null`). -/
def getCategories (data : Option WorkbookData) : List JSVal :=
  match data with
  | none => []
  | some d =>
    match d.Programs with
    | none => []
    | some programs =>
      arrayFromSet ((programs.map (fun program => program.get "category")).filter JSVal.truthy)

/-- Programs with categories VCES, GDC, none, VCES, the empty string, Commercial. -/
def categoryData : WorkbookData :=
  { Programs := some
      [[("name", JSVal.str "P1"), ("category", JSVal.str "VCES")],
       [("name", JSVal.str "P2"), ("category", JSVal.str "GDC")],
       [("name", JSVal.str "P3")],
       [("name", JSVal.str "P4"), ("category", JSVal.str "VCES")],
       [("name", JSVal.str "P5"), ("category", JSVal.str "")],
       [("name", JSVal.str "P6"), ("category", JSVal.str "Commercial")]]
    Budget_Tracking := none
    Transaction_Entry := none }

/-! ## githubService -/

/-- An entry of the directory listing that the GitHub contents API returns;
`download_url` is `null` for a directory. -/
structure GitHubEntry where
  name : String
  path : String
  sha : String
  size : Nat
  download_url : Option String
  type : String
  deriving DecidableEq

/-- The file metadata object that `listExcelFiles` returns for an entry. -/
structure ExcelFileInfo where
  name : String
  path : String
  size : Nat
  sha : String
  downloadUrl : Option String
  deriving DecidableEq

/-- The method `String.prototype.endsWith`. -/
def endsWith (s suffix : String) : Bool :=
  suffix.toList.isSuffixOf s.toList

/-- ToBoolean on an optional string argument: `null`, `undefined` and `''` are falsy. -/
def truthyString (s : Option String) : Bool :=
  match s with
  | some t => decide (t ≠ "")
  | none => false

/-- The template literal for the contents URL of the repository. -/
def contentsUrl (owner repo path : String) : String :=
  "https://api.github.com/repos/" ++ owner ++ "/" ++ repo ++ "/contents/" ++ path

/-- The expression `token ? { Authorization: 'token ' + token } : {}`. -/
def authHeaders (token : Option String) : List (String × String) :=
  match token with
  | some t => if t ≠ "" then [("Authorization", "token " ++ t)] else []
  | none => []

/-- The callback of `response.data.filter` in `listExcelFiles`. -/
def isExcelEntry (file : GitHubEntry) : Bool :=
  decide (file.type = "file") &&
  (endsWith file.name ".xlsx" || endsWith file.name ".xls" ||
   endsWith file.name ".xlsm" || endsWith file.name ".xlsb")

/-- The callback of `excelFiles.map` in `listExcelFiles`. -/
def toExcelFileInfo (file : GitHubEntry) : ExcelFileInfo :=
  { name := file.name
    path := file.path
    size := file.size
    sha := file.sha
    downloadUrl := file.download_url }

/-- The method `listExcelFiles` of `githubService`; `httpGet url headers` is what
`axios.get` gives: the directory listing, or the error that is rethrown. -/
def githubService.listExcelFiles
    (httpGet : String → List (String × String) → Except String (List GitHubEntry))
    (owner repo path : String) (token : Option String) : Except String (List ExcelFileInfo) :=
  match httpGet (contentsUrl owner repo path) (authHeaders token) with
  | Except.error e => Except.error e
  | Except.ok data => Except.ok ((data.filter isExcelEntry).map toExcelFileInfo)

/-- The request that `axios.put` sends. -/
structure PutRequest where
  url : String
  payload : Row
  headers : List (String × String)
  deriving DecidableEq

/-- The url, headers and payload that `uploadExcelFile` builds inside its `try` block;
the payload gets a sha field only for a truthy `sha`. -/
def uploadRequest (owner repo path content message : String) (sha : Option String)
    (token : String) : PutRequest :=
  let payload : Row :=
    [("message", JSVal.str message), ("content", JSVal.str content),
     ("branch", JSVal.str "main")]
  { url := contentsUrl owner repo path
    payload :=
      match sha with
      | some s => if s ≠ "" then Row.set payload "sha" (JSVal.str s) else payload
      | none => payload
    headers := [("Authorization", "token " ++ token)] }

/-- The method `uploadExcelFile` of `githubService`: its result (the response data or
the thrown error) and the requests it sent; `httpPut` stands for `axios.put`. -/
def githubService.uploadExcelFile {Response : Type}
    (httpPut : PutRequest → Except String Response)
    (owner repo path content message : String) (sha token : Option String) :
    Except String Response × List PutRequest :=
  match token with
  | none => (Except.error "GitHub token is required for uploading files", [])
  | some t =>
    if t = "" then (Except.error "GitHub token is required for uploading files", [])
    else
      (httpPut (uploadRequest owner repo path content message sha t),
        [uploadRequest owner repo path content message sha t])

/-- A directory listing with a folder, three workbooks, a text file and a file whose
extension is in upper case. -/
def sampleListing : List GitHubEntry :=
  [{ name := "data", path := "data", sha := "a1", size := 0, download_url := none,
     type := "dir" },
   { name := "budget.xlsx", path := "budget.xlsx", sha := "b2", size := 1200,
     download_url := some "https://raw.example/budget.xlsx", type := "file" },
   { name := "notes.txt", path := "notes.txt", sha := "c3", size := 10,
     download_url := some "https://raw.example/notes.txt", type := "file" },
   { name := "old.xls", path := "old.xls", sha := "d4", size := 900,
     download_url := some "https://raw.example/old.xls", type := "file" },
   { name := "archive.xlsx", path := "archive.xlsx", sha := "e5", size := 0,
     download_url := none, type := "dir" },
   { name := "REPORT.XLSX", path := "REPORT.XLSX", sha := "f6", size := 50,
     download_url := some "https://raw.example/REPORT.XLSX", type := "file" },
   { name := "macro.xlsm", path := "macro.xlsm", sha := "g7", size := 70,
     download_url := some "https://raw.example/macro.xlsm", type := "file" }]

/-! ## Authentication, protected routes and navigation -/

/-- A user object of `AuthContext`; `password` and `permissions` are `none` when the
object has no such property. -/
structure User where
  id : Nat
  username : String
  password : Option String
  name : String
  email : String
  role : String
  permissions : Option (List String)
  active : Bool
  lastLogin : String
  deriving DecidableEq

/-- The constant `mockUsers` of `AuthContext.js`. -/
def mockUsers : List User :=
  [{ id := 1, username := "admin", password := some "admin123", name := "Lisa Administrator",
     email := "admin@kiosc.com", role := "admin",
     permissions := some ["read", "write", "delete", "admin"], active := true,
     lastLogin := "2023-04-10T14:32:15" },
   { id := 2, username := "user", password := some "user123", name := "Regular User",
     email := "user@kiosc.com", role := "user", permissions := some ["read", "write"],
     active := true, lastLogin := "2023-04-08T09:15:30" },
   { id := 3, username := "readonly", password := some "view123", name := "View Only",
     email := "view@kiosc.com", role := "viewer", permissions := some ["read"],
     active := true, lastLogin := "2023-04-05T11:42:18" }]

/-- The state of `AuthProvider`. -/
structure AuthState where
  currentUser : Option User
  isAuthenticated : Bool
  loading : Bool
  error : String
  deriving DecidableEq

/-- The initial state of `AuthProvider`, before its mount effect has run. -/
def initialAuth : AuthState :=
  { currentUser := none, isAuthenticated := false, loading := true, error := "" }

/-- The function `login` of `AuthContext`: the returned boolean, the state after the
state setters have run, and the `currentUser` item of localStorage.  `now` is
`new Date().toISOString()`; `storageWritable` tells whether `localStorage.setItem`
succeeds, its exception being what the `catch` block handles. -/
def login (now : String) (storageWritable : Bool) (auth : AuthState) (storedUser : Option User)
    (username password : String) : Bool × AuthState × Option User :=
  match mockUsers.find?
      (fun u => decide (u.username = username) && decide (u.password = some password)
        && u.active) with
  | some user =>
    let userSafe : User := { user with password := none, lastLogin := now }
    if storageWritable then
      (true,
        { currentUser := some userSafe, isAuthenticated := true, loading := false, error := "" },
        some userSafe)
    else
      (false,
        { currentUser := some userSafe, isAuthenticated := true, loading := false,
          error := "An error occurred during login" },
        storedUser)
  | none =>
    (false,
      { currentUser := auth.currentUser, isAuthenticated := auth.isAuthenticated,
        loading := false, error := "Invalid username or password" },
      storedUser)

/-- The function `hasPermission` of `AuthContext`. -/
def hasPermission (auth : AuthState) (permission : String) : Bool :=
  match auth.currentUser with
  | none => false
  | some user =>
    match user.permissions with
    | none => false
    | some permissions => permissions.contains permission

/-- The function `hasRole` of `AuthContext`. -/
def hasRole (auth : AuthState) (role : String) : Bool :=
  match auth.currentUser with
  | none => false
  | some user => decide (user.role = role)

/-- What a route guard renders: a loading spinner, a `Navigate` element, an error
alert, or its children. -/
inductive Guarded (α : Type) where
  | spinner (text : String) : Guarded α
  | navigate (target : String) : Guarded α
  | alert (text : String) : Guarded α
  | children (c : α) : Guarded α
  deriving DecidableEq

/-- The component `ProtectedRoute`. -/
def ProtectedRoute {α : Type} (auth : AuthState) (requiredPermissions : List String)
    (requiredRole : Option String) (children : α) : Guarded α :=
  if auth.loading then Guarded.spinner "Verifying authentication..."
  else if !auth.isAuthenticated then Guarded.navigate "/login"
  else if decide (requiredPermissions.length > 0) &&
      !(requiredPermissions.all (fun permission => hasPermission auth permission)) then
    Guarded.alert "You don't have the required permissions to access this page."
  else
    match requiredRole with
    | some role =>
      if role ≠ "" ∧ hasRole auth role = false then
        Guarded.alert "You don't have the required role to access this page."
      else Guarded.children children
    | none => Guarded.children children

/-- The component `PrivateRoute`. -/
def PrivateRoute {α : Type} (auth : AuthState) (children : α) : Guarded α :=
  if auth.loading then Guarded.spinner "Checking authentication..."
  else if !auth.isAuthenticated then Guarded.navigate "/login"
  else Guarded.children children

/-- An entry of the navigation menu. -/
structure MenuItem where
  text : String
  path : String
  requiredPermission : String
  deriving DecidableEq

/-- The function `getMenuItems` of `NavigationWithAuth`. -/
def getMenuItems (auth : AuthState) : List MenuItem :=
  let items : List MenuItem :=
    [{ text := "Dashboard", path := "/dashboard", requiredPermission := "read" },
     { text := "Programs", path := "/programs", requiredPermission := "read" },
     { text := "Transactions", path := "/transactions", requiredPermission := "read" },
     { text := "Invoices", path := "/invoices", requiredPermission := "read" },
     { text := "Reports", path := "/reports", requiredPermission := "read" },
     { text := "Budget", path := "/budget", requiredPermission := "read" },
     { text := "Data Integration", path := "/data-integration", requiredPermission := "write" },
     { text := "Settings", path := "/settings", requiredPermission := "read" }]
  let items :=
    if hasPermission auth "admin" then
      items ++ [{ text := "Admin Panel", path := "/admin", requiredPermission := "admin" }]
    else items
  items.filter (fun item => hasPermission auth item.requiredPermission)

/-- The page components that `AppRouter` mounts. -/
inductive Page where
  | Login | Register | Dashboard | Transactions | InvoiceManagement | Reports | Budget
  | Programs | ProgramDetail | Settings | UserProfile | AdminPanel | DataIntegration | NotFound
  deriving DecidableEq

/-- The element of a child route, rendered in the `Outlet` of `Layout`. -/
inductive Outlet where
  | page (p : Page) : Outlet
  | navigate (target : String) : Outlet
  deriving DecidableEq

/-- What `Layout` shows: the menu of `NavigationWithAuth` (the list of `getMenuItems`
for an authenticated user, a sign-in button otherwise) and the outlet. -/
structure LayoutView where
  menu : List MenuItem
  outlet : Outlet
  deriving DecidableEq

/-- The component `Layout` around a child route element. -/
def Layout (auth : AuthState) (outlet : Outlet) : LayoutView :=
  { menu := if auth.isAuthenticated then getMenuItems auth else []
    outlet := outlet }

/-- What `AppRouter` renders. -/
inductive AppView where
  | page (p : Page) : AppView
  | guarded (g : Guarded LayoutView) : AppView
  deriving DecidableEq

/-- The child routes of the route `/` in `AppRouter`, on the segments of the
pathname (`/admin` is `["admin"]`, `/` is `[]`). -/
def childRoute : List String → Option Outlet
  | [] => some (Outlet.navigate "/dashboard")
  | ["dashboard"] => some (Outlet.page Page.Dashboard)
  | ["transactions"] => some (Outlet.page Page.Transactions)
  | ["invoices"] => some (Outlet.page Page.InvoiceManagement)
  | ["payment-tracking"] => some (Outlet.navigate "/invoices")
  | ["reports"] => some (Outlet.page Page.Reports)
  | ["budget"] => some (Outlet.page Page.Budget)
  | ["programs"] => some (Outlet.page Page.Programs)
  | ["programs", _] => some (Outlet.page Page.ProgramDetail)
  | ["settings"] => some (Outlet.page Page.Settings)
  | ["profile"] => some (Outlet.page Page.UserProfile)
  | ["admin"] => some (Outlet.page Page.AdminPanel)
  | ["data-integration"] => some (Outlet.page Page.DataIntegration)
  | _ => none

/-- The component `AppRouter`, on the segments of the pathname. -/
def AppRouter (auth : AuthState) (segments : List String) : AppView :=
  match segments with
  | ["login"] => AppView.page Page.Login
  | ["register"] => AppView.page Page.Register
  | _ =>
    match childRoute segments with
    | some outlet => AppView.guarded (PrivateRoute auth (Layout auth outlet))
    | none => AppView.page Page.NotFound

/-- The mock user `user` as `login` stores it: no password, a new login timestamp. -/
def regularUser : User :=
  { id := 2, username := "user", password := none, name := "Regular User",
    email := "user@kiosc.com", role := "user", permissions := some ["read", "write"],
    active := true, lastLogin := "2024-06-01T09:00:00.000Z" }

/-- The state of `AuthProvider` after `user` has logged in. -/
def regularSession : AuthState :=
  { currentUser := some regularUser, isAuthenticated := true, loading := false, error := "" }

/-- The mock user `admin` as `login` stores it. -/
def adminUser : User :=
  { id := 1, username := "admin", password := none, name := "Lisa Administrator",
    email := "admin@kiosc.com", role := "admin",
    permissions := some ["read", "write", "delete", "admin"], active := true,
    lastLogin := "2024-06-01T09:00:00.000Z" }

/-- The state of `AuthProvider` after `admin` has logged in. -/
def adminSession : AuthState :=
  { currentUser := some adminUser, isAuthenticated := true, loading := false, error := "" }

/-! ## CalendarWidget -/

/-- Leap years of the Gregorian calendar. -/
def isLeapYear (year : Int) : Bool :=
  decide ((year % 4 = 0 ∧ year % 100 ≠ 0) ∨ year % 400 = 0)

/-- The number of days from 1970-01-01 to the civil date `year`-`month`-`day`
(`month` from 1 to 12). -/
def daysFromCivil (year : Int) (month : Int) (day : Int) : Int :=
  let y := if month ≤ 2 then year - 1 else year
  let era := y / 400
  let yoe := y - era * 400
  let mp := (month + 9) % 12
  let doy := (153 * mp + 2) / 5 + day - 1
  let doe := yoe * 365 + yoe / 4 - yoe / 100 + doy
  era * 146097 + doe - 719468

/-- The year and the month (0 to 11) that `new Date(year, month, ...)` denotes: a year
from 0 to 99 stands for 1900 + year, and a month outside 0..11 carries into the
year. -/
def normalizeMonth (year month : Int) : Int × Int :=
  let fullYear := if 0 ≤ year ∧ year ≤ 99 then 1900 + year else year
  ((fullYear * 12 + month) / 12, (fullYear * 12 + month) % 12)

/-- The helper `getDaysInMonth`: `new Date(year, month + 1, 0).getDate()`, for dates
in the range of `Date`. -/
def getDaysInMonth (year month : Int) : Nat :=
  let ym := normalizeMonth year month
  if ym.2 = 1 then (if isLeapYear ym.1 then 29 else 28)
  else if ym.2 = 3 ∨ ym.2 = 5 ∨ ym.2 = 8 ∨ ym.2 = 10 then 30
  else 31

/-- The helper `getFirstDayOfMonth`: `new Date(year, month, 1).getDay()`, 0 for
Sunday, for dates in the range of `Date`. -/
def getFirstDayOfMonth (year month : Int) : Nat :=
  let ym := normalizeMonth year month
  ((daysFromCivil ym.1 (ym.2 + 1) 1 + 4) % 7).toNat

/-- The body of the `calendarDays` memo after the two helpers have been called: the
three `for` loops that push onto `calendarArray`. -/
def calendarArray (daysInMonth firstDayOfMonth : Nat) : List (Option Nat) :=
  let leading : List (Option Nat) := (List.range firstDayOfMonth).map (fun _ => none)
  let days : List (Option Nat) := (List.range' 1 daysInMonth).map some
  let remainingCells : Int := 42 - ((leading ++ days).length : Int)
  leading ++ days ++ (List.range remainingCells.toNat).map (fun _ => none)

/-- The memo `calendarDays` of `CalendarWidget` for the displayed year and month. -/
def calendarDays (currentYear currentMonth : Int) : List (Option Nat) :=
  calendarArray (getDaysInMonth currentYear currentMonth)
    (getFirstDayOfMonth currentYear currentMonth)

/-- The month and year that `CalendarWidget` displays. -/
structure CalendarState where
  currentMonth : Int
  currentYear : Int
  deriving DecidableEq

/-- The handler `handlePrevMonth`. -/
def handlePrevMonth (s : CalendarState) : CalendarState :=
  if s.currentMonth = 0 then { currentMonth := 11, currentYear := s.currentYear - 1 }
  else { currentMonth := s.currentMonth - 1, currentYear := s.currentYear }

/-- The handler `handleNextMonth`. -/
def handleNextMonth (s : CalendarState) : CalendarState :=
  if s.currentMonth = 11 then { currentMonth := 0, currentYear := s.currentYear + 1 }
  else { currentMonth := s.currentMonth + 1, currentYear := s.currentYear }

/-! ## SimpleDateAdapter -/

/-- A valid `Date` in local time: its full year, month (0 to 11) and day of the
month. -/
structure SimpleDate where
  year : Int
  month : Int
  day : Int
  deriving DecidableEq

/-- The constructor `new Date(year, month, day)` for a day of that month: a year from
0 to 99 stands for 1900 + year and a month outside 0..11 carries into the year, as in
ECMA-262. -/
def newDate (year month : Int) (day : Nat) : SimpleDate :=
  { year := (normalizeMonth year month).1
    month := (normalizeMonth year month).2
    day := day }

/-- The method `Date.prototype.getDay`, 0 for Sunday. -/
def SimpleDate.getDay (date : SimpleDate) : Nat :=
  ((daysFromCivil date.year (date.month + 1) date.day + 4) % 7).toNat

/-- The method `getDaysInMonth` of `SimpleDateAdapter`:
`new Date(year, month + 1, 0).getDate()`. -/
def SimpleDateAdapter.getDaysInMonth (date : SimpleDate) : Nat :=
  KioscFinance.getDaysInMonth date.year date.month

/-- One turn of the loop `while (dayCounter <= daysInMonth)` of `getWeekArray` on
the pair (`weeks`, `week`): a full week is pushed and a new one begun, then the date
of `dayCounter` is pushed. -/
def weekLoopStep (year month : Int)
    (state : List (List (Option SimpleDate)) × List (Option SimpleDate))
    (dayCounter : Nat) : List (List (Option SimpleDate)) × List (Option SimpleDate) :=
  let rolled := if state.2.length = 7 then (state.1 ++ [state.2], []) else state
  (rolled.1, rolled.2 ++ [some (newDate year month dayCounter)])

/-- The method `getWeekArray` of `SimpleDateAdapter`. -/
def SimpleDateAdapter.getWeekArray (date : SimpleDate) : List (List (Option SimpleDate)) :=
  let firstDay := (newDate date.year date.month 1).getDay
  let daysInMonth := SimpleDateAdapter.getDaysInMonth date
  let leading : List (Option SimpleDate) := (List.range firstDay).map (fun _ => none)
  let filled := (List.range' 1 daysInMonth).foldl (weekLoopStep date.year date.month) ([], leading)
  let week := filled.2 ++ (List.range (7 - filled.2.length)).map (fun _ => none)
  filled.1 ++ [week]

/-- The cell at position `p` of the month grid read row by row, for first weekday `f`
and month length `d`: empty before the 1st and after the last day. -/
def weekCell (year month : Int) (f d p : Nat) : Option SimpleDate :=
  if f ≤ p ∧ p < f + d then some (newDate year month (p - f + 1)) else none

/-- Row `i` of the month grid: the seven cells at positions 7 i to 7 i + 6. -/
def weekRow (year month : Int) (f d i : Nat) : List (Option SimpleDate) :=
  (List.range 7).map (fun j => weekCell year month f d (7 * i + j))

/-- The loop invariant of `getWeekArray` after `k` days have been pushed: the weeks
pushed so far are rows of the grid, the current week is the beginning of the next
row, and it is not empty once a day has been pushed. -/
def WeekInvariant (year month : Int) (f d k : Nat)
    (state : List (List (Option SimpleDate)) × List (Option SimpleDate)) : Prop :=
  state.1 = (List.range state.1.length).map (weekRow year month f d) ∧
  state.2 = (List.range state.2.length).map
    (fun j => weekCell year month f d (7 * state.1.length + j)) ∧
  7 * state.1.length + state.2.length = f + k ∧
  state.2.length ≤ 7 ∧
  (1 ≤ k → 1 ≤ state.2.length)

/-- An August that starts on a Saturday. -/
def august2026 : SimpleDate := { year := 2026, month := 7, day := 5 }

/-! ## CalendarWidget: the transaction form -/

/-- The function `Math.abs`. -/
def mathAbs : JSNum → JSNum
  | JSNum.nan => JSNum.nan
  | JSNum.inf _ => JSNum.inf false
  | JSNum.fin q => JSNum.fin |q|

/-- The method `String.prototype.slice` with the argument -6: the last six
characters, or the whole string when it is shorter. -/
def sliceLastSix (s : String) : String :=
  String.mk (s.toList.drop (s.toList.length - 6))

/-- The handler `handleFormChange` on the form state `newTransaction`, for the field
`name` and the text `value` of the input: `{...prev, [name]: ...}`, where the amount is
stored as `parseFloat(value) || 0`. -/
def handleFormChange (newTransaction : Row) (name value : String) : Row :=
  Row.spread newTransaction
    [(name, if name = "amount" then JSVal.num (parseFloat (JSVal.str value)).orZero
      else JSVal.str value)]

/-- The transaction object that `handleSaveTransaction` builds from the form state and
passes to `addTransaction`; `now` is `Date.now()` and `strToNum` the conversion of a
string by `Math.abs`. -/
def handleSaveTransaction (strToNum : String → JSNum) (now : Nat) (newTransaction : Row) : Row :=
  Row.spread newTransaction
    [("amount",
        JSVal.num
          (if (newTransaction.get "type").strictEq (JSVal.str "Expense") then
            (mathAbs (toNumber strToNum (newTransaction.get "amount"))).neg
          else mathAbs (toNumber strToNum (newTransaction.get "amount")))),
     ("accountCategory", JSVal.str "VCES"),
     ("status", JSVal.str "Completed"),
     ("reference", JSVal.str ("REF-" ++ sliceLastSix (toString now)))]

/-- The form after an expense of 250 has been entered. -/
def expenseForm : Row :=
  [("type", JSVal.str "Expense"), ("amount", JSVal.num (JSNum.fin 250)),
   ("description", JSVal.str "Workshop materials"),
   ("program", JSVal.str "Technology Outreach Program"), ("date", JSVal.str "2024-06-01")]

/-- The form after an income of -250 has been entered. -/
def incomeForm : Row :=
  [("type", JSVal.str "Income"), ("amount", JSVal.num (JSNum.fin (-250))),
   ("description", JSVal.str "Grant"),
   ("program", JSVal.str "Technology Outreach Program"), ("date", JSVal.str "2024-06-01")]

/-! ## Values of the Number type -/

/-- A value of the Number type (IEEE 754 binary64): a rational of the form m * 2^e with
|m| < 2^53 and -1074 <= e <= 971.  On these values the exact model and the program
agree: an operation whose exact result is such a value is not rounded. -/
def isDouble (q : ℚ) : Prop :=
  ∃ m e : ℤ, |m| < 2 ^ 53 ∧ -1074 ≤ e ∧ e ≤ 971 ∧ q = (m : ℚ) * (2 : ℚ) ^ e

/-- A budget row whose sums, utilisation and products are all values of the Number
type: total 1000, expenses 250, commitments 250. -/
def halfUsedRow : Row :=
  [("Program", JSVal.str "S"), ("TotalBudget", JSVal.str "1000"),
   ("YTDExpenses", JSVal.str "250"), ("CommittedExpenses", JSVal.str "250")]

/-- The record `mapExcelToAppData` makes of `halfUsedRow`. -/
def halfUsedRecord : BudgetRecord :=
  { program := JSVal.str "S", totalBudget := JSNum.fin 1000, ytdExpenses := JSNum.fin 250,
    committedExpenses := JSNum.fin 250, availableBudget := JSNum.fin 500,
    percentUsed := JSNum.fin (1 / 2), status := "On Track", ytdIncome := JSNum.fin 0 }

/-- A transaction row whose Amount is the plain decimal text of 2^53 + 1. -/
def unroundedAmountRow : Row :=
  [("Date", JSVal.str "2024-01-20"), ("Type", JSVal.str "Income"),
   ("Amount", JSVal.str "9007199254740993")]

/-- The digits of 2^53 + 1. -/
def unroundedDigits : List (Fin 10) := [9, 0, 0, 7, 1, 9, 9, 2, 5, 4, 7, 4, 0, 9, 9, 3]

/-- A date in February of the year 50, such as `new Date('0050-02-10')`. -/
def february50 : SimpleDate := { year := 50, month := 1, day := 10 }

/-! ## Lemmas on numbers -/

/-- The integer 2^53 + 1 is not a value of the Number type. -/
theorem not_isDouble_two_pow_53_succ : ¬ isDouble 9007199254740993 := by
  rintro ⟨m, e, hm, _, _, h⟩
  obtain ⟨k, rfl | rfl⟩ := Int.eq_nat_or_neg e
  · rw [zpow_natCast] at h
    have h2 : (9007199254740993 : ℤ) = m * 2 ^ k := by exact_mod_cast h
    cases k with
    | zero =>
      simp at h2
      rw [← h2] at hm
      norm_num at hm
    | succ k =>
      have : (2 : ℤ) ∣ 9007199254740993 := ⟨m * 2 ^ k, by rw [h2]; ring⟩
      norm_num at this
  · rw [zpow_neg, zpow_natCast] at h
    have hk : (0 : ℚ) < 2 ^ k := by positivity
    have h2 : (9007199254740993 : ℚ) * 2 ^ k = m := by
      rw [h]; field_simp
    have h3 : (9007199254740993 : ℤ) * 2 ^ k = m := by exact_mod_cast h2
    have h4 : (1 : ℤ) ≤ 2 ^ k := one_le_pow₀ (by norm_num)
    rw [← h3] at hm
    have h5 : |(9007199254740993 : ℤ) * 2 ^ k| = 9007199254740993 * 2 ^ k := by
      apply abs_of_nonneg; positivity
    rw [h5] at hm
    nlinarith

theorem JSNum.orZero_ne_nan (x : JSNum) : x.orZero ≠ JSNum.nan := by
  cases x <;> simp [JSNum.orZero, JSNum.truthy]
  split <;> simp

theorem JSNum.gt_false_of_le {x y : JSNum} (h : x.le y = true) : x.gt y = false := by
  cases x <;> cases y <;> simp_all [JSNum.gt, JSNum.le]
  rename_i s t
  cases s <;> cases t <;> simp_all

theorem JSNum.le_of_gt_false {x y : JSNum} (hx : x ≠ JSNum.nan) (hy : y ≠ JSNum.nan)
    (h : x.gt y = false) : x.le y = true := by
  cases x <;> cases y <;> simp_all [JSNum.gt, JSNum.le]
  rename_i s t
  cases s <;> cases t <;> simp_all

theorem JSNum.gt_trans_fin {x : JSNum} {a b : ℚ} (hab : b ≤ a)
    (h : x.gt (JSNum.fin a) = true) : x.gt (JSNum.fin b) = true := by
  cases x <;> simp_all [JSNum.gt]
  exact lt_of_le_of_lt hab h

/-! ## Lemmas on the row loop -/

theorem mapFrom_length {α : Type} (f : Nat → Row → α) :
    ∀ (rs : List (Option Row)) (i : Nat) (out : List α),
      mapFrom f i rs = Except.ok out → out.length = rs.length := by
  intro rs
  induction rs with
  | nil => intro i out h; simp [mapFrom] at h; subst h; rfl
  | cons r rest ih =>
    intro i out h
    cases r with
    | none => simp [mapFrom] at h
    | some row =>
      simp only [mapFrom] at h
      cases hrec : mapFrom f (i + 1) rest with
      | error e => simp [hrec] at h
      | ok tail =>
        simp [hrec] at h
        subst h
        simp [ih (i + 1) tail hrec]

theorem mapFrom_get {α : Type} (f : Nat → Row → α) :
    ∀ (rs : List (Option Row)) (i : Nat) (out : List α),
      mapFrom f i rs = Except.ok out →
      ∀ (k : Nat) (row : Row), rs[k]? = some (some row) → out[k]? = some (f (i + k) row) := by
  intro rs
  induction rs with
  | nil => intro i out _ k row hk; simp at hk
  | cons r rest ih =>
    intro i out h k row hk
    cases r with
    | none => simp [mapFrom] at h
    | some row0 =>
      simp only [mapFrom] at h
      cases hrec : mapFrom f (i + 1) rest with
      | error e => simp [hrec] at h
      | ok tail =>
        simp [hrec] at h
        subst h
        cases k with
        | zero => simp at hk; subst hk; simp
        | succ k =>
          simp at hk
          have := ih (i + 1) tail hrec k row hk
          simp [this, Nat.add_assoc, Nat.add_comm 1 k]

theorem mapFrom_rows {α : Type} (f : Nat → Row → α) :
    ∀ (rs : List (Option Row)) (i : Nat) (out : List α),
      mapFrom f i rs = Except.ok out →
      ∀ k, k < rs.length → ∃ row, rs[k]? = some (some row) := by
  intro rs
  induction rs with
  | nil => intro i out _ k hk; simp at hk
  | cons r rest ih =>
    intro i out h k hk
    cases r with
    | none => simp [mapFrom] at h
    | some row0 =>
      simp only [mapFrom] at h
      cases hrec : mapFrom f (i + 1) rest with
      | error e => simp [hrec] at h
      | ok tail =>
        cases k with
        | zero => exact ⟨row0, by simp⟩
        | succ k =>
          simp at hk
          obtain ⟨row, hrow⟩ := ih (i + 1) tail hrec k hk
          exact ⟨row, by simpa using hrow⟩

theorem mapFrom_mem {α : Type} (f : Nat → Row → α) (rs : List (Option Row)) (i : Nat)
    (out : List α) (h : mapFrom f i rs = Except.ok out) (b : α) (hb : b ∈ out) :
    ∃ k row, rs[k]? = some (some row) ∧ b = f (i + k) row := by
  obtain ⟨k, hk, hbk⟩ := List.getElem_of_mem hb
  have hlen := mapFrom_length f rs i out h
  obtain ⟨row, hrow⟩ := mapFrom_rows f rs i out h k (by omega)
  have := mapFrom_get f rs i out h k row hrow
  rw [List.getElem?_eq_getElem hk] at this
  exact ⟨k, row, hrow, by rw [← hbk]; exact Option.some.inj this⟩

theorem mapFrom_total {α : Type} (f : Nat → Row → α) :
    ∀ (rs : List (Option Row)) (i : Nat), (∀ r ∈ rs, r ≠ none) →
      ∃ out, mapFrom f i rs = Except.ok out := by
  intro rs
  induction rs with
  | nil => intro i _; exact ⟨[], rfl⟩
  | cons r rest ih =>
    intro i hall
    cases r with
    | none => exact absurd rfl (hall none (by simp))
    | some row =>
      obtain ⟨tail, htail⟩ := ih (i + 1) (fun r hr => hall r (by simp [hr]))
      exact ⟨f i row :: tail, by simp [mapFrom, htail]⟩

/-- What a successful call returned, sheet by sheet. -/
theorem mapExcelToAppData_ok {clock : Clock} {excelData : ExcelData} {appData : AppData}
    (h : mapExcelToAppData clock excelData = Except.ok appData) :
    mapSheet (mapProgramRow clock) excelData.Programs = Except.ok appData.Programs ∧
    mapSheet mapBudgetRow excelData.Budget_Tracking = Except.ok appData.Budget_Tracking ∧
    mapSheet (mapTransactionRow clock) excelData.Transaction_Entry
      = Except.ok appData.Transaction_Entry ∧
    mapSheet mapSupplierRow excelData.Suppliers = Except.ok appData.Suppliers := by
  unfold mapExcelToAppData at h
  cases h1 : mapSheet (mapProgramRow clock) excelData.Programs with
  | error e => simp [h1] at h
  | ok programs =>
    cases h2 : mapSheet mapBudgetRow excelData.Budget_Tracking with
    | error e => simp [h1, h2] at h
    | ok budgets =>
      cases h3 : mapSheet (mapTransactionRow clock) excelData.Transaction_Entry with
      | error e => simp [h1, h2, h3] at h
      | ok transactions =>
        cases h4 : mapSheet mapSupplierRow excelData.Suppliers with
        | error e => simp [h1, h2, h3, h4] at h
        | ok suppliers =>
          simp [h1, h2, h3, h4] at h
          subst h
          simp

/-- Every record of a mapped sheet is the callback applied to some row. -/
theorem mapSheet_mem {α : Type} (f : Nat → Row → α) (sheet : SheetVal) (out : List α)
    (h : mapSheet f sheet = Except.ok out) (b : α) (hb : b ∈ out) :
    ∃ k row, b = f k row := by
  cases sheet with
  | absent => simp [mapSheet] at h; subst h; simp at hb
  | notArray => simp [mapSheet] at h
  | rows rs =>
    obtain ⟨k, row, _, hk⟩ := mapFrom_mem f rs 0 out h b hb
    exact ⟨0 + k, row, hk⟩

/-- The record at position `k` of a mapped sheet is the callback applied to `k` and
to the row at position `k`. -/
theorem mapSheet_get {α : Type} (f : Nat → Row → α) (rs : List (Option Row)) (out : List α)
    (h : mapSheet f (SheetVal.rows rs) = Except.ok out) (k : Nat) (row : Row)
    (hk : rs[k]? = some (some row)) : out[k]? = some (f k row) := by
  have := mapFrom_get f rs 0 out h k row hk
  simpa using this

/-! ## Budget rows: status tier, utilisation, available budget -/

/-- The mapper evaluated on `tierRows`. -/
theorem mapExcelToAppData_tierRows :
    mapExcelToAppData clockA (budgetWorkbook tierRows) = Except.ok (budgetOnly tierRecords) := by
  simp [mapExcelToAppData, budgetWorkbook, budgetOnly, mapSheet, mapFrom, tierRows, tierRecords,
    mapBudgetRow, Row.get, List.lookup, parseFloat, parseFloatString, readSign, readUnsigned,
    readDecimal,
    isDecimalDigit, isStrWhiteSpaceChar, digitsValue, scale10, readExponent, JSNum.orZero,
    JSNum.truthy, JSNum.gt, JSNum.sub, JSNum.add, JSNum.neg, JSNum.div, JSVal.or, JSVal.truthy,
    statusOf]
  norm_num

/-- Claim C1: in every Budget_Tracking record that `mapExcelToAppData` returns, the
status is 'At Risk' when percentUsed > 0.9, 'Caution' when 0.7 < percentUsed <= 0.9
and 'On Track' when percentUsed <= 0.7; percentUsed exactly 0.9 gives 'Caution' and
exactly 0.7 gives 'On Track'. -/
theorem budget_status_tiers (clock : Clock) (excelData : ExcelData) (appData : AppData)
    (h : mapExcelToAppData clock excelData = Except.ok appData) :
    ∀ b ∈ appData.Budget_Tracking,
      (b.percentUsed.gt (JSNum.fin (9 / 10)) = true → b.status = "At Risk") ∧
      (b.percentUsed.gt (JSNum.fin (7 / 10)) = true →
        b.percentUsed.le (JSNum.fin (9 / 10)) = true → b.status = "Caution") ∧
      (b.percentUsed.le (JSNum.fin (7 / 10)) = true → b.status = "On Track") ∧
      (b.percentUsed = JSNum.fin (9 / 10) → b.status = "Caution") ∧
      (b.percentUsed = JSNum.fin (7 / 10) → b.status = "On Track") := by
  intro b hb
  obtain ⟨k, row, hk⟩ := mapSheet_mem mapBudgetRow _ _ (mapExcelToAppData_ok h).2.1 b hb
  have hs : b.status = statusOf b.percentUsed := by rw [hk]; rfl
  have hAtRisk : b.percentUsed.gt (JSNum.fin (9 / 10)) = true → b.status = "At Risk" := by
    intro h9; rw [hs, statusOf, if_pos h9]
  have hCaution : b.percentUsed.gt (JSNum.fin (7 / 10)) = true →
      b.percentUsed.le (JSNum.fin (9 / 10)) = true → b.status = "Caution" := by
    intro h7 h9
    have := JSNum.gt_false_of_le h9
    rw [hs, statusOf, if_neg (by simp [this]), if_pos h7]
  have hOnTrack : b.percentUsed.le (JSNum.fin (7 / 10)) = true → b.status = "On Track" := by
    intro h7
    have h7f := JSNum.gt_false_of_le h7
    have h9f : b.percentUsed.gt (JSNum.fin (9 / 10)) = false := by
      cases hg : b.percentUsed.gt (JSNum.fin (9 / 10)) with
      | false => rfl
      | true =>
        have := JSNum.gt_trans_fin (by norm_num : (7 / 10 : ℚ) ≤ 9 / 10) hg
        rw [h7f] at this
        exact absurd this (by simp)
    rw [hs, statusOf, if_neg (by simp [h9f]), if_neg (by simp [h7f])]
  refine ⟨hAtRisk, hCaution, hOnTrack, ?_, ?_⟩
  · intro he
    exact hCaution (by rw [he]; simp [JSNum.gt]; norm_num) (by rw [he]; simp [JSNum.le])
  · intro he
    exact hOnTrack (by rw [he]; simp [JSNum.le])

/-- The tier rule on a workbook whose rows have utilisation 0.9, 0.7 and 0.95. -/
theorem budget_status_tiers_witness :
    mapExcelToAppData clockA (budgetWorkbook tierRows) = Except.ok (budgetOnly tierRecords) ∧
    ∀ b ∈ (budgetOnly tierRecords).Budget_Tracking,
      (b.percentUsed.gt (JSNum.fin (9 / 10)) = true → b.status = "At Risk") ∧
      (b.percentUsed.gt (JSNum.fin (7 / 10)) = true →
        b.percentUsed.le (JSNum.fin (9 / 10)) = true → b.status = "Caution") ∧
      (b.percentUsed.le (JSNum.fin (7 / 10)) = true → b.status = "On Track") ∧
      (b.percentUsed = JSNum.fin (9 / 10) → b.status = "Caution") ∧
      (b.percentUsed = JSNum.fin (7 / 10) → b.status = "On Track") :=
  ⟨mapExcelToAppData_tierRows,
    budget_status_tiers clockA (budgetWorkbook tierRows) (budgetOnly tierRecords)
      mapExcelToAppData_tierRows⟩

/-- The mapper evaluated on `overdrawnRow`. -/
theorem mapExcelToAppData_overdrawnRow :
    mapExcelToAppData clockA (budgetWorkbook [overdrawnRow])
      = Except.ok (budgetOnly [overdrawnRecord]) := by
  simp [mapExcelToAppData, budgetWorkbook, budgetOnly, mapSheet, mapFrom, overdrawnRow,
    overdrawnRecord, mapBudgetRow, Row.get, List.lookup, parseFloat, parseFloatString,
    readSign, readUnsigned, readDecimal, isDecimalDigit, isStrWhiteSpaceChar, digitsValue, scale10,
    readExponent, JSNum.orZero, JSNum.truthy, JSNum.gt, JSNum.sub, JSNum.add, JSNum.neg,
    JSNum.div, JSVal.or, JSVal.truthy, statusOf]
  norm_num

/-- Counterexample to claim C2 as stated: the row with TotalBudget '-100' and
YTDExpenses '50' has a parsed totalBudget that is not zero, yet its percentUsed is 0
and not (ytdExpenses + committedExpenses) / totalBudget = -0.5. -/
theorem percentUsed_negative_budget_counterexample :
    mapExcelToAppData clockA (budgetWorkbook [overdrawnRow])
      = Except.ok (budgetOnly [overdrawnRecord]) ∧
    overdrawnRecord.totalBudget ≠ JSNum.fin 0 ∧
    (overdrawnRecord.ytdExpenses.add overdrawnRecord.committedExpenses).div
      overdrawnRecord.totalBudget = JSNum.fin (-1 / 2) ∧
    overdrawnRecord.percentUsed ≠
      (overdrawnRecord.ytdExpenses.add overdrawnRecord.committedExpenses).div
        overdrawnRecord.totalBudget := by
  refine ⟨mapExcelToAppData_overdrawnRow, ?_, ?_, ?_⟩
  · simp [overdrawnRecord]
  · simp [overdrawnRecord, JSNum.add, JSNum.div]
    norm_num
  · simp [overdrawnRecord, JSNum.add, JSNum.div]
    norm_num

/-- Claim C2, amended: for the Budget_Tracking row at position `i`, the output record
at position `i` holds the parsed totalBudget, ytdExpenses and committedExpenses; when
that totalBudget is greater than zero its percentUsed is
(ytdExpenses + committedExpenses) / totalBudget, and when it is zero or negative its
percentUsed is 0; one of the two cases always applies. -/
theorem percentUsed_formula (clock : Clock) (excelData : ExcelData) (appData : AppData)
    (h : mapExcelToAppData clock excelData = Except.ok appData)
    (rs : List (Option Row)) (hrs : excelData.Budget_Tracking = SheetVal.rows rs)
    (i : Nat) (row : Row) (hrow : rs[i]? = some (some row)) :
    ∃ b, appData.Budget_Tracking[i]? = some b ∧
      b.totalBudget = (parseFloat (row.get "TotalBudget")).orZero ∧
      b.ytdExpenses = (parseFloat (row.get "YTDExpenses")).orZero ∧
      b.committedExpenses = (parseFloat (row.get "CommittedExpenses")).orZero ∧
      (b.totalBudget.gt (JSNum.fin 0) = true →
        b.percentUsed = (b.ytdExpenses.add b.committedExpenses).div b.totalBudget) ∧
      (b.totalBudget.le (JSNum.fin 0) = true → b.percentUsed = JSNum.fin 0) ∧
      (b.totalBudget.gt (JSNum.fin 0) = true ∨ b.totalBudget.le (JSNum.fin 0) = true) := by
  have hb := (mapExcelToAppData_ok h).2.1
  rw [hrs] at hb
  refine ⟨mapBudgetRow i row, mapSheet_get mapBudgetRow rs _ hb i row hrow, rfl, rfl, rfl,
    ?_, ?_, ?_⟩
  · intro hpos
    simp only [mapBudgetRow] at hpos ⊢
    rw [if_pos hpos]
  · intro hle
    have hng := JSNum.gt_false_of_le hle
    simp only [mapBudgetRow] at hng ⊢
    rw [if_neg (by simp [hng])]
  · cases hg : (mapBudgetRow i row).totalBudget.gt (JSNum.fin 0) with
    | true => exact Or.inl rfl
    | false =>
      exact Or.inr (JSNum.le_of_gt_false (JSNum.orZero_ne_nan _) (by simp) hg)

/-- The amended utilisation rule at the row with a negative total budget. -/
theorem percentUsed_formula_witness :
    mapExcelToAppData clockA (budgetWorkbook [overdrawnRow])
      = Except.ok (budgetOnly [overdrawnRecord]) ∧
    (budgetWorkbook [overdrawnRow]).Budget_Tracking = SheetVal.rows [some overdrawnRow] ∧
    [some overdrawnRow][0]? = some (some overdrawnRow) ∧
    ∃ b, (budgetOnly [overdrawnRecord]).Budget_Tracking[0]? = some b ∧
      b.totalBudget = (parseFloat (overdrawnRow.get "TotalBudget")).orZero ∧
      b.ytdExpenses = (parseFloat (overdrawnRow.get "YTDExpenses")).orZero ∧
      b.committedExpenses = (parseFloat (overdrawnRow.get "CommittedExpenses")).orZero ∧
      (b.totalBudget.gt (JSNum.fin 0) = true →
        b.percentUsed = (b.ytdExpenses.add b.committedExpenses).div b.totalBudget) ∧
      (b.totalBudget.le (JSNum.fin 0) = true → b.percentUsed = JSNum.fin 0) ∧
      (b.totalBudget.gt (JSNum.fin 0) = true ∨ b.totalBudget.le (JSNum.fin 0) = true) :=
  ⟨mapExcelToAppData_overdrawnRow, rfl, rfl,
    percentUsed_formula clockA (budgetWorkbook [overdrawnRow]) (budgetOnly [overdrawnRecord])
      mapExcelToAppData_overdrawnRow [some overdrawnRow] rfl 0 overdrawnRow rfl⟩

/-- The mapper evaluated on `unfundedRow`. -/
theorem mapExcelToAppData_unfundedRow :
    mapExcelToAppData clockA (budgetWorkbook [unfundedRow])
      = Except.ok (budgetOnly [unfundedRecord]) := by
  simp [mapExcelToAppData, budgetWorkbook, budgetOnly, mapSheet, mapFrom, unfundedRow,
    unfundedRecord, mapBudgetRow, Row.get, List.lookup, parseFloat, parseFloatString,
    readSign, readUnsigned, readDecimal, isDecimalDigit, isStrWhiteSpaceChar, digitsValue, scale10,
    readExponent, JSNum.orZero, JSNum.truthy, JSNum.gt, JSNum.sub, JSNum.add, JSNum.neg,
    JSNum.div, JSVal.or, JSVal.truthy, statusOf]
  norm_num

/-- The text `n/a` does not parse. -/
theorem parseFloat_unfundedRow :
    parseFloat (unfundedRow.get "TotalBudget") = JSNum.nan := by
  simp [unfundedRow, Row.get, List.lookup, parseFloat, parseFloatString, readSign,
    readUnsigned, readDecimal, isDecimalDigit, isStrWhiteSpaceChar]

/-- A missing cell does not parse: `parseFloat(undefined)` is NaN. -/
theorem parseFloat_undefined : parseFloat JSVal.undefined = JSNum.nan := by
  simp [parseFloat, parseFloatString, readSign, readUnsigned, readDecimal, isDecimalDigit,
    isStrWhiteSpaceChar]

/-- Claim C3: for the Budget_Tracking row at position `i` whose TotalBudget is
missing, unparseable or zero, the output record at position `i` has totalBudget 0,
percentUsed 0 (a finite number: nothing was divided by zero) and status 'On Track',
whatever the YTDExpenses and CommittedExpenses cells hold. -/
theorem zero_budget_guard (clock : Clock) (excelData : ExcelData) (appData : AppData)
    (h : mapExcelToAppData clock excelData = Except.ok appData)
    (rs : List (Option Row)) (hrs : excelData.Budget_Tracking = SheetVal.rows rs)
    (i : Nat) (row : Row) (hrow : rs[i]? = some (some row))
    (hcell : row.get "TotalBudget" = JSVal.undefined ∨
      parseFloat (row.get "TotalBudget") = JSNum.nan ∨
      parseFloat (row.get "TotalBudget") = JSNum.fin 0) :
    ∃ b, appData.Budget_Tracking[i]? = some b ∧
      b.ytdExpenses = (parseFloat (row.get "YTDExpenses")).orZero ∧
      b.committedExpenses = (parseFloat (row.get "CommittedExpenses")).orZero ∧
      b.totalBudget = JSNum.fin 0 ∧
      b.percentUsed = JSNum.fin 0 ∧
      b.status = "On Track" := by
  have hb := (mapExcelToAppData_ok h).2.1
  rw [hrs] at hb
  have ht : (parseFloat (row.get "TotalBudget")).orZero = JSNum.fin 0 := by
    rcases hcell with hu | hn | hz
    · rw [hu, parseFloat_undefined]; simp [JSNum.orZero, JSNum.truthy]
    · rw [hn]; simp [JSNum.orZero, JSNum.truthy]
    · rw [hz]; simp [JSNum.orZero, JSNum.truthy]
  refine ⟨mapBudgetRow i row, mapSheet_get mapBudgetRow rs _ hb i row hrow, rfl, rfl, ?_, ?_, ?_⟩
  · exact ht
  · simp [mapBudgetRow, ht, JSNum.gt]
  · simp [mapBudgetRow, ht, JSNum.gt, statusOf]
    norm_num

/-- The guard at a row whose TotalBudget is the text `n/a` and whose expenses are not
zero. -/
theorem zero_budget_guard_witness :
    mapExcelToAppData clockA (budgetWorkbook [unfundedRow])
      = Except.ok (budgetOnly [unfundedRecord]) ∧
    (budgetWorkbook [unfundedRow]).Budget_Tracking = SheetVal.rows [some unfundedRow] ∧
    [some unfundedRow][0]? = some (some unfundedRow) ∧
    (unfundedRow.get "TotalBudget" = JSVal.undefined ∨
      parseFloat (unfundedRow.get "TotalBudget") = JSNum.nan ∨
      parseFloat (unfundedRow.get "TotalBudget") = JSNum.fin 0) ∧
    ∃ b, (budgetOnly [unfundedRecord]).Budget_Tracking[0]? = some b ∧
      b.ytdExpenses = (parseFloat (unfundedRow.get "YTDExpenses")).orZero ∧
      b.committedExpenses = (parseFloat (unfundedRow.get "CommittedExpenses")).orZero ∧
      b.totalBudget = JSNum.fin 0 ∧
      b.percentUsed = JSNum.fin 0 ∧
      b.status = "On Track" :=
  ⟨mapExcelToAppData_unfundedRow, rfl, rfl, Or.inr (Or.inl parseFloat_unfundedRow),
    zero_budget_guard clockA (budgetWorkbook [unfundedRow]) (budgetOnly [unfundedRecord])
      mapExcelToAppData_unfundedRow [some unfundedRow] rfl 0 unfundedRow rfl
      (Or.inr (Or.inl parseFloat_unfundedRow))⟩

/-- The mapper evaluated on `unboundedRow`. -/
theorem mapExcelToAppData_unboundedRow :
    mapExcelToAppData clockA (budgetWorkbook [unboundedRow])
      = Except.ok (budgetOnly [unboundedRecord]) := by
  simp [mapExcelToAppData, budgetWorkbook, budgetOnly, mapSheet, mapFrom, unboundedRow,
    unboundedRecord, mapBudgetRow, Row.get, List.lookup, parseFloat, parseFloatString,
    readSign, readUnsigned, readDecimal, isDecimalDigit, isStrWhiteSpaceChar, digitsValue, scale10,
    readExponent, JSNum.orZero, JSNum.truthy, JSNum.gt, JSNum.sub, JSNum.add, JSNum.neg,
    JSNum.div, JSVal.or, JSVal.truthy, statusOf]

/-- Counterexample to claim C4 as stated: the row with TotalBudget 'Infinity' and
YTDExpenses '-Infinity' has totalBudget > 0 and availableBudget = Infinity, while
totalBudget * (1 - percentUsed) is NaN. -/
theorem availableBudget_unbounded_counterexample :
    mapExcelToAppData clockA (budgetWorkbook [unboundedRow])
      = Except.ok (budgetOnly [unboundedRecord]) ∧
    unboundedRecord.totalBudget.gt (JSNum.fin 0) = true ∧
    unboundedRecord.availableBudget = JSNum.inf false ∧
    unboundedRecord.totalBudget.mul ((JSNum.fin 1).sub unboundedRecord.percentUsed)
      = JSNum.nan ∧
    unboundedRecord.availableBudget ≠
      unboundedRecord.totalBudget.mul ((JSNum.fin 1).sub unboundedRecord.percentUsed) := by
  refine ⟨mapExcelToAppData_unboundedRow, ?_, ?_, ?_, ?_⟩ <;>
    simp [unboundedRecord, JSNum.gt, JSNum.sub, JSNum.add, JSNum.neg, JSNum.mul]

/-- The mapper evaluated on `halfUsedRow`. -/
theorem mapExcelToAppData_halfUsedRow :
    mapExcelToAppData clockA (budgetWorkbook [halfUsedRow])
      = Except.ok (budgetOnly [halfUsedRecord]) := by
  simp [mapExcelToAppData, budgetWorkbook, budgetOnly, mapSheet, mapFrom, halfUsedRow,
    halfUsedRecord, mapBudgetRow, Row.get, List.lookup, parseFloat, parseFloatString,
    readSign, readUnsigned, readDecimal, isDecimalDigit, isStrWhiteSpaceChar, digitsValue, scale10,
    readExponent, JSNum.orZero, JSNum.truthy, JSNum.gt, JSNum.sub, JSNum.add, JSNum.neg,
    JSNum.div, JSVal.or, JSVal.truthy, statusOf]
  norm_num

/-- Claim C4, amended: in every Budget_Tracking record that `mapExcelToAppData`
returns, availableBudget is totalBudget - ytdExpenses - committedExpenses of the
values stored in the same record; and when the three are finite, totalBudget is
greater than zero and none of the operations rounds (the exact sum, quotient,
differences and product are values of the Number type), percentUsed is
(ytdExpenses + committedExpenses) / totalBudget and
availableBudget = totalBudget * (1 - percentUsed). -/
theorem availableBudget_formula (clock : Clock) (excelData : ExcelData) (appData : AppData)
    (h : mapExcelToAppData clock excelData = Except.ok appData) :
    ∀ b ∈ appData.Budget_Tracking,
      b.availableBudget = (b.totalBudget.sub b.ytdExpenses).sub b.committedExpenses ∧
      ∀ t y c : ℚ, b.totalBudget = JSNum.fin t → b.ytdExpenses = JSNum.fin y →
        b.committedExpenses = JSNum.fin c → 0 < t →
        isDouble (y + c) → isDouble ((y + c) / t) → isDouble (1 - (y + c) / t) →
        isDouble (t - y) → isDouble (t - y - c) →
        b.percentUsed = JSNum.fin ((y + c) / t) ∧
        b.availableBudget = JSNum.fin (t - y - c) ∧
        b.availableBudget = b.totalBudget.mul ((JSNum.fin 1).sub b.percentUsed) := by
  intro b hb
  obtain ⟨k, row, hk⟩ := mapSheet_mem mapBudgetRow _ _ (mapExcelToAppData_ok h).2.1 b hb
  subst hk
  refine ⟨rfl, ?_⟩
  intro t y c ht hy hc hpos _ _ _ _ _
  simp only [mapBudgetRow] at ht hy hc ⊢
  rw [ht, hy, hc]
  have ht0 : t ≠ 0 := ne_of_gt hpos
  refine ⟨?_, ?_, ?_⟩
  · simp [JSNum.gt, JSNum.add, JSNum.div, hpos, ht0]
  · simp [JSNum.sub, JSNum.add, JSNum.neg]
    ring
  · simp [JSNum.gt, JSNum.sub, JSNum.add, JSNum.neg, JSNum.mul, JSNum.div, hpos, ht0]
    field_simp
    ring

/-- The amended available-budget rule on the row with total 1000, expenses 250 and
commitments 250, where no operation rounds: availableBudget is 500, which is
1000 * (1 - 0.5). -/
theorem availableBudget_formula_witness :
    mapExcelToAppData clockA (budgetWorkbook [halfUsedRow])
      = Except.ok (budgetOnly [halfUsedRecord]) ∧
    ∀ b ∈ (budgetOnly [halfUsedRecord]).Budget_Tracking,
      b.availableBudget = (b.totalBudget.sub b.ytdExpenses).sub b.committedExpenses ∧
      b.percentUsed = JSNum.fin ((250 + 250) / 1000) ∧
      b.availableBudget = JSNum.fin (1000 - 250 - 250) ∧
      b.availableBudget = b.totalBudget.mul ((JSNum.fin 1).sub b.percentUsed) := by
  refine ⟨mapExcelToAppData_halfUsedRow, ?_⟩
  intro b hb
  have hthm := availableBudget_formula clockA (budgetWorkbook [halfUsedRow])
    (budgetOnly [halfUsedRecord]) mapExcelToAppData_halfUsedRow b hb
  have hb' : b = halfUsedRecord := by simpa [budgetOnly] using hb
  refine ⟨hthm.1, ?_⟩
  refine hthm.2 1000 250 250 (by rw [hb']; rfl) (by rw [hb']; rfl) (by rw [hb']; rfl)
    (by norm_num) ?_ ?_ ?_ ?_ ?_
  · exact ⟨500, 0, by norm_num, by norm_num, by norm_num, by norm_num⟩
  · exact ⟨1, -1, by norm_num, by norm_num, by norm_num, by norm_num⟩
  · exact ⟨1, -1, by norm_num, by norm_num, by norm_num, by norm_num⟩
  · exact ⟨750, 0, by norm_num, by norm_num, by norm_num, by norm_num⟩
  · exact ⟨500, 0, by norm_num, by norm_num, by norm_num, by norm_num⟩

/-! ## Missing cells: totality and defaults -/

theorem JSVal.or_ne_undefined (a b : JSVal) (hb : b ≠ JSVal.undefined) :
    a.or b ≠ JSVal.undefined := by
  unfold JSVal.or
  split
  · rename_i ht
    intro ha
    rw [ha] at ht
    simp [JSVal.truthy] at ht
  · exact hb

theorem statusOf_cases (x : JSNum) :
    statusOf x = "At Risk" ∨ statusOf x = "Caution" ∨ statusOf x = "On Track" := by
  unfold statusOf
  split
  · exact Or.inl rfl
  · split
    · exact Or.inr (Or.inl rfl)
    · exact Or.inr (Or.inr rfl)

theorem mapSheet_total {α : Type} (f : Nat → Row → α) (sheet : SheetVal)
    (h : sheet.wellFormed) : ∃ out, mapSheet f sheet = Except.ok out := by
  cases sheet with
  | absent => exact ⟨[], rfl⟩
  | rows rs => exact mapFrom_total f rs 0 h
  | notArray => exact absurd h (by simp [SheetVal.wellFormed])

/-- Claim C5: when each of the four sheets is absent or a list of row objects,
whatever cells the rows have, `mapExcelToAppData` returns application data (it does
not throw), and every field of every record in it is defined. -/
theorem mapExcelToAppData_total (clock : Clock) (excelData : ExcelData)
    (hP : excelData.Programs.wellFormed) (hB : excelData.Budget_Tracking.wellFormed)
    (hT : excelData.Transaction_Entry.wellFormed) (hS : excelData.Suppliers.wellFormed) :
    ∃ appData, mapExcelToAppData clock excelData = Except.ok appData ∧
      (∀ p ∈ appData.Programs, p.allDefined) ∧
      (∀ b ∈ appData.Budget_Tracking, b.allDefined) ∧
      (∀ t ∈ appData.Transaction_Entry, t.allDefined) ∧
      (∀ s ∈ appData.Suppliers, s.allDefined) := by
  obtain ⟨ps, hps⟩ := mapSheet_total (mapProgramRow clock) _ hP
  obtain ⟨bs, hbs⟩ := mapSheet_total mapBudgetRow _ hB
  obtain ⟨ts, hts⟩ := mapSheet_total (mapTransactionRow clock) _ hT
  obtain ⟨ss, hss⟩ := mapSheet_total mapSupplierRow _ hS
  refine ⟨{ Programs := ps, Budget_Tracking := bs, Transaction_Entry := ts, Suppliers := ss },
    by simp [mapExcelToAppData, hps, hbs, hts, hss], ?_, ?_, ?_, ?_⟩
  · intro p hp
    obtain ⟨k, row, hk⟩ := mapSheet_mem _ _ _ hps p hp
    subst hk
    simp only [ProgramRecord.allDefined, mapProgramRow]
    exact ⟨JSVal.or_ne_undefined _ _ (by simp), JSVal.or_ne_undefined _ _ (by simp),
      JSNum.orZero_ne_nan _, JSVal.or_ne_undefined _ _ (by simp),
      JSVal.or_ne_undefined _ _ (by simp)⟩
  · intro b hb
    obtain ⟨k, row, hk⟩ := mapSheet_mem _ _ _ hbs b hb
    subst hk
    simp only [BudgetRecord.allDefined, mapBudgetRow]
    exact ⟨JSVal.or_ne_undefined _ _ (by simp), JSNum.orZero_ne_nan _, JSNum.orZero_ne_nan _,
      JSNum.orZero_ne_nan _, JSNum.orZero_ne_nan _, statusOf_cases _⟩
  · intro t ht
    obtain ⟨k, row, hk⟩ := mapSheet_mem _ _ _ hts t ht
    subst hk
    simp only [TransactionRecord.allDefined, mapTransactionRow]
    exact ⟨JSVal.or_ne_undefined _ _ (by simp), JSVal.or_ne_undefined _ _ (by simp),
      JSVal.or_ne_undefined _ _ (by simp), JSVal.or_ne_undefined _ _ (by simp),
      JSNum.orZero_ne_nan _, JSVal.or_ne_undefined _ _ (by simp),
      JSVal.or_ne_undefined _ _ (by simp), JSVal.or_ne_undefined _ _ (by simp),
      JSVal.or_ne_undefined _ _ (by simp), JSVal.or_ne_undefined _ _ (by simp),
      JSVal.or_ne_undefined _ _ (by simp), JSVal.or_ne_undefined _ _ (by simp),
      JSVal.or_ne_undefined _ _ (by simp)⟩
  · intro s hs
    obtain ⟨k, row, hk⟩ := mapSheet_mem _ _ _ hss s hs
    subst hk
    simp only [SupplierRecord.allDefined, mapSupplierRow]
    exact ⟨JSVal.or_ne_undefined _ _ (by simp), JSVal.or_ne_undefined _ _ (by simp),
      JSVal.or_ne_undefined _ _ (by simp), JSVal.or_ne_undefined _ _ (by simp),
      JSVal.or_ne_undefined _ _ (by simp), JSVal.or_ne_undefined _ _ (by simp),
      JSVal.or_ne_undefined _ _ (by simp)⟩

/-- The mapper returns on a workbook with empty rows, empty cells, a `null` cell and
unparseable text. -/
theorem mapExcelToAppData_total_witness :
    sparseWorkbook.Programs.wellFormed ∧ sparseWorkbook.Budget_Tracking.wellFormed ∧
    sparseWorkbook.Transaction_Entry.wellFormed ∧ sparseWorkbook.Suppliers.wellFormed ∧
    ∃ appData, mapExcelToAppData clockA sparseWorkbook = Except.ok appData ∧
      (∀ p ∈ appData.Programs, p.allDefined) ∧
      (∀ b ∈ appData.Budget_Tracking, b.allDefined) ∧
      (∀ t ∈ appData.Transaction_Entry, t.allDefined) ∧
      (∀ s ∈ appData.Suppliers, s.allDefined) :=
  ⟨by simp [sparseWorkbook, SheetVal.wellFormed], by simp [sparseWorkbook, SheetVal.wellFormed],
    by simp [sparseWorkbook, SheetVal.wellFormed], by simp [sparseWorkbook, SheetVal.wellFormed],
    mapExcelToAppData_total clockA sparseWorkbook
      (by simp [sparseWorkbook, SheetVal.wellFormed])
      (by simp [sparseWorkbook, SheetVal.wellFormed])
      (by simp [sparseWorkbook, SheetVal.wellFormed])
      (by simp [sparseWorkbook, SheetVal.wellFormed])⟩

/-! ## Transaction rows -/

theorem copiesOrDefaults_or (cell dflt : JSVal) : copiesOrDefaults cell (cell.or dflt) dflt := by
  refine ⟨?_, ?_, ?_, ?_⟩
  · rintro (h | h) <;> simp [h, JSVal.or, JSVal.truthy]
  · intro s hs h
    simp [h, JSVal.or, JSVal.truthy, hs]
  · intro h; simp [JSVal.or, h]
  · intro h; simp [JSVal.or, h]

/-- The mapper evaluated on `formattedAmountRow`. -/
theorem mapExcelToAppData_formattedAmountRow :
    mapExcelToAppData clockA (transactionWorkbook [formattedAmountRow])
      = Except.ok (transactionsOnly [formattedAmountRecord]) := by
  simp [mapExcelToAppData, transactionWorkbook, transactionsOnly, mapSheet, mapFrom,
    formattedAmountRow, formattedAmountRecord, mapTransactionRow, Row.get, List.lookup,
    parseFloat, parseFloatString, readSign, readUnsigned,
    readDecimal, isDecimalDigit, isStrWhiteSpaceChar,
    digitsValue, scale10, readExponent, JSNum.orZero, JSNum.truthy, JSVal.or, JSVal.truthy]

/-- Counterexample to claim C6 as stated: the Amount cell '1,250.50' is present and
not empty, yet the output amount is the number 1: the cell is not copied unchanged. -/
theorem transaction_amount_not_copied_counterexample :
    mapExcelToAppData clockA (transactionWorkbook [formattedAmountRow])
      = Except.ok (transactionsOnly [formattedAmountRecord]) ∧
    formattedAmountRow.get "Amount" = JSVal.str "1,250.50" ∧
    formattedAmountRow.get "Amount" ≠ JSVal.undefined ∧
    formattedAmountRow.get "Amount" ≠ JSVal.str "" ∧
    formattedAmountRecord.amount = JSNum.fin 1 ∧
    JSVal.num formattedAmountRecord.amount ≠ formattedAmountRow.get "Amount" := by
  refine ⟨mapExcelToAppData_formattedAmountRow, ?_, ?_, ?_, ?_, ?_⟩ <;>
    simp [formattedAmountRow, formattedAmountRecord, Row.get, List.lookup]

/-- Claim C6, amended: in the output record of the Transaction_Entry row at position
`i`, each of program, type, accountCategory, status, paymentStatus, reference,
description, supplier, invoiceDate, paymentDueDate and paymentDate is its default
('Unknown Program', 'Expense', 'Uncategorized', 'Pending', 'Unpaid', and the empty
string for the last six) when the cell is missing, empty or otherwise falsy, and the
cell itself when the cell is truthy, in particular a non-empty string; amount is
`parseFloat(Amount) || 0`, which is 0 for a missing or empty cell and the number
itself for a non-zero number cell. -/
theorem transaction_defaults (clock : Clock) (excelData : ExcelData) (appData : AppData)
    (h : mapExcelToAppData clock excelData = Except.ok appData)
    (rs : List (Option Row)) (hrs : excelData.Transaction_Entry = SheetVal.rows rs)
    (i : Nat) (row : Row) (hrow : rs[i]? = some (some row)) :
    ∃ t, appData.Transaction_Entry[i]? = some t ∧
      copiesOrDefaults (row.get "Program") t.program (JSVal.str "Unknown Program") ∧
      copiesOrDefaults (row.get "Type") t.type (JSVal.str "Expense") ∧
      copiesOrDefaults (row.get "AccountCategory") t.accountCategory
        (JSVal.str "Uncategorized") ∧
      copiesOrDefaults (row.get "Status") t.status (JSVal.str "Pending") ∧
      copiesOrDefaults (row.get "PaymentStatus") t.paymentStatus (JSVal.str "Unpaid") ∧
      copiesOrDefaults (row.get "Reference") t.reference (JSVal.str "") ∧
      copiesOrDefaults (row.get "Description") t.description (JSVal.str "") ∧
      copiesOrDefaults (row.get "Supplier") t.supplier (JSVal.str "") ∧
      copiesOrDefaults (row.get "InvoiceDate") t.invoiceDate (JSVal.str "") ∧
      copiesOrDefaults (row.get "PaymentDueDate") t.paymentDueDate (JSVal.str "") ∧
      copiesOrDefaults (row.get "PaymentDate") t.paymentDate (JSVal.str "") ∧
      t.amount = (parseFloat (row.get "Amount")).orZero ∧
      (row.get "Amount" = JSVal.undefined ∨ row.get "Amount" = JSVal.str "" →
        t.amount = JSNum.fin 0) ∧
      (∀ x : JSNum, row.get "Amount" = JSVal.num x → x.truthy = true → t.amount = x) := by
  have ht := (mapExcelToAppData_ok h).2.2.1
  rw [hrs] at ht
  refine ⟨mapTransactionRow clock i row, mapSheet_get _ rs _ ht i row hrow,
    copiesOrDefaults_or _ _, copiesOrDefaults_or _ _, copiesOrDefaults_or _ _,
    copiesOrDefaults_or _ _, copiesOrDefaults_or _ _, copiesOrDefaults_or _ _,
    copiesOrDefaults_or _ _, copiesOrDefaults_or _ _, copiesOrDefaults_or _ _,
    copiesOrDefaults_or _ _, copiesOrDefaults_or _ _, rfl, ?_, ?_⟩
  · rintro (hu | he)
    · simp only [mapTransactionRow, hu, parseFloat_undefined]
      simp [JSNum.orZero, JSNum.truthy]
    · simp only [mapTransactionRow, he]
      simp [parseFloat, parseFloatString, readSign, readUnsigned,
        readDecimal, JSNum.orZero, JSNum.truthy]
  · intro x hx hxt
    simp only [mapTransactionRow, hx, parseFloat, JSNum.orZero, hxt, if_true]

/-- The amended defaults at the row with the formatted amount. -/
theorem transaction_defaults_witness :
    mapExcelToAppData clockA (transactionWorkbook [formattedAmountRow])
      = Except.ok (transactionsOnly [formattedAmountRecord]) ∧
    (transactionWorkbook [formattedAmountRow]).Transaction_Entry
      = SheetVal.rows [some formattedAmountRow] ∧
    [some formattedAmountRow][0]? = some (some formattedAmountRow) ∧
    ∃ t, (transactionsOnly [formattedAmountRecord]).Transaction_Entry[0]? = some t ∧
      copiesOrDefaults (formattedAmountRow.get "Program") t.program
        (JSVal.str "Unknown Program") ∧
      copiesOrDefaults (formattedAmountRow.get "Type") t.type (JSVal.str "Expense") ∧
      copiesOrDefaults (formattedAmountRow.get "AccountCategory") t.accountCategory
        (JSVal.str "Uncategorized") ∧
      copiesOrDefaults (formattedAmountRow.get "Status") t.status (JSVal.str "Pending") ∧
      copiesOrDefaults (formattedAmountRow.get "PaymentStatus") t.paymentStatus
        (JSVal.str "Unpaid") ∧
      copiesOrDefaults (formattedAmountRow.get "Reference") t.reference (JSVal.str "") ∧
      copiesOrDefaults (formattedAmountRow.get "Description") t.description (JSVal.str "") ∧
      copiesOrDefaults (formattedAmountRow.get "Supplier") t.supplier (JSVal.str "") ∧
      copiesOrDefaults (formattedAmountRow.get "InvoiceDate") t.invoiceDate (JSVal.str "") ∧
      copiesOrDefaults (formattedAmountRow.get "PaymentDueDate") t.paymentDueDate
        (JSVal.str "") ∧
      copiesOrDefaults (formattedAmountRow.get "PaymentDate") t.paymentDate (JSVal.str "") ∧
      t.amount = (parseFloat (formattedAmountRow.get "Amount")).orZero ∧
      (formattedAmountRow.get "Amount" = JSVal.undefined ∨
        formattedAmountRow.get "Amount" = JSVal.str "" → t.amount = JSNum.fin 0) ∧
      (∀ x : JSNum, formattedAmountRow.get "Amount" = JSVal.num x → x.truthy = true →
        t.amount = x) :=
  ⟨mapExcelToAppData_formattedAmountRow, rfl, rfl,
    transaction_defaults clockA (transactionWorkbook [formattedAmountRow])
      (transactionsOnly [formattedAmountRecord]) mapExcelToAppData_formattedAmountRow
      [some formattedAmountRow] rfl 0 formattedAmountRow rfl⟩

/-! ## Ids and order -/

/-- The values of `g` over a mapped list, when `g` of a record depends on its
position only. -/
theorem mapFrom_map {α β : Type} (f : Nat → Row → α) (g : α → β) (idx : Nat → β)
    (hg : ∀ k row, g (f k row) = idx k) :
    ∀ (rs : List (Option Row)) (i : Nat) (out : List α),
      mapFrom f i rs = Except.ok out → out.map g = (List.range' i rs.length).map idx := by
  intro rs
  induction rs with
  | nil => intro i out h; simp [mapFrom] at h; subst h; rfl
  | cons r rest ih =>
    intro i out h
    cases r with
    | none => simp [mapFrom] at h
    | some row =>
      simp only [mapFrom] at h
      cases hrec : mapFrom f (i + 1) rest with
      | error e => simp [hrec] at h
      | ok tail =>
        simp [hrec] at h
        subst h
        simp [List.range'_succ, hg, ih (i + 1) tail hrec]

theorem range'_map_succ (n : Nat) : ∀ i, (List.range' i n).map (· + 1) = List.range' (i + 1) n := by
  induction n with
  | zero => intro i; rfl
  | succ n ih => intro i; simp [List.range'_succ, ih]

/-- The ids of a mapped sheet are 1, 2, ..., n. -/
theorem mapSheet_ids {α : Type} (f : Nat → Row → α) (getId : α → Nat)
    (hid : ∀ k row, getId (f k row) = k + 1) (rs : List (Option Row)) (out : List α)
    (h : mapSheet f (SheetVal.rows rs) = Except.ok out) :
    out.length = rs.length ∧ out.map getId = List.range' 1 rs.length ∧
    (out.map getId).Nodup ∧ (∀ i, i < rs.length → ∃ row, rs[i]? = some (some row)) := by
  have hmap := mapFrom_map f getId (· + 1) hid rs 0 out h
  rw [range'_map_succ] at hmap
  refine ⟨mapFrom_length f rs 0 out h, hmap, ?_, mapFrom_rows f rs 0 out h⟩
  rw [hmap]
  exact List.nodup_range' _ _

/-- The mapper evaluated on `listingWorkbook`. -/
theorem mapExcelToAppData_listingWorkbook :
    mapExcelToAppData clockA listingWorkbook = Except.ok listingAppData := by
  simp [mapExcelToAppData, listingWorkbook, listingAppData, mapSheet, mapFrom, mapProgramRow,
    mapTransactionRow, mapSupplierRow, Row.get, List.lookup, parseFloat, parseFloatString,
    readSign, readUnsigned,
    readDecimal, isDecimalDigit, isStrWhiteSpaceChar, JSNum.orZero, JSNum.truthy,
    JSVal.or, JSVal.truthy]
  exact ⟨by decide, by decide⟩

/-- Claim C7: for a Programs, Transaction_Entry or Suppliers sheet with n rows, the
output list has n records, the record at 0-based position i is made of the row at
position i and has id i + 1, the ids are 1..n and pairwise distinct, and a Programs
or Suppliers row without a Name gets the name 'Program <i+1>' or 'Supplier <i+1>'. -/
theorem ids_and_order (clock : Clock) (excelData : ExcelData) (appData : AppData)
    (h : mapExcelToAppData clock excelData = Except.ok appData) :
    (∀ rs, excelData.Programs = SheetVal.rows rs →
      appData.Programs.length = rs.length ∧
      appData.Programs.map (fun p => p.id) = List.range' 1 rs.length ∧
      (appData.Programs.map (fun p => p.id)).Nodup ∧
      (∀ i, i < rs.length → ∃ row, rs[i]? = some (some row)) ∧
      ∀ i row, rs[i]? = some (some row) →
        ∃ p, appData.Programs[i]? = some p ∧ p = mapProgramRow clock i row ∧ p.id = i + 1 ∧
          ((row.get "Name").truthy = false →
            p.name = JSVal.str ("Program " ++ toString (i + 1)))) ∧
    (∀ rs, excelData.Transaction_Entry = SheetVal.rows rs →
      appData.Transaction_Entry.length = rs.length ∧
      appData.Transaction_Entry.map (fun t => t.id) = List.range' 1 rs.length ∧
      (appData.Transaction_Entry.map (fun t => t.id)).Nodup ∧
      (∀ i, i < rs.length → ∃ row, rs[i]? = some (some row)) ∧
      ∀ i row, rs[i]? = some (some row) →
        ∃ t, appData.Transaction_Entry[i]? = some t ∧ t = mapTransactionRow clock i row ∧
          t.id = i + 1) ∧
    (∀ rs, excelData.Suppliers = SheetVal.rows rs →
      appData.Suppliers.length = rs.length ∧
      appData.Suppliers.map (fun s => s.id) = List.range' 1 rs.length ∧
      (appData.Suppliers.map (fun s => s.id)).Nodup ∧
      (∀ i, i < rs.length → ∃ row, rs[i]? = some (some row)) ∧
      ∀ i row, rs[i]? = some (some row) →
        ∃ s, appData.Suppliers[i]? = some s ∧ s = mapSupplierRow i row ∧ s.id = i + 1 ∧
          ((row.get "Name").truthy = false →
            s.name = JSVal.str ("Supplier " ++ toString (i + 1)))) := by
  obtain ⟨hp, _, ht, hs⟩ := mapExcelToAppData_ok h
  refine ⟨?_, ?_, ?_⟩
  · intro rs hrs
    rw [hrs] at hp
    obtain ⟨h1, h2, h3, h4⟩ := mapSheet_ids (mapProgramRow clock) (fun p => p.id)
      (fun _ _ => rfl) rs _ hp
    refine ⟨h1, h2, h3, h4, ?_⟩
    intro i row hrow
    refine ⟨mapProgramRow clock i row, mapSheet_get _ rs _ hp i row hrow, rfl, rfl, ?_⟩
    intro hname
    simp [mapProgramRow, JSVal.or, hname]
  · intro rs hrs
    rw [hrs] at ht
    obtain ⟨h1, h2, h3, h4⟩ := mapSheet_ids (mapTransactionRow clock) (fun t => t.id)
      (fun _ _ => rfl) rs _ ht
    refine ⟨h1, h2, h3, h4, ?_⟩
    intro i row hrow
    exact ⟨mapTransactionRow clock i row, mapSheet_get _ rs _ ht i row hrow, rfl, rfl⟩
  · intro rs hrs
    rw [hrs] at hs
    obtain ⟨h1, h2, h3, h4⟩ := mapSheet_ids mapSupplierRow (fun s => s.id)
      (fun _ _ => rfl) rs _ hs
    refine ⟨h1, h2, h3, h4, ?_⟩
    intro i row hrow
    refine ⟨mapSupplierRow i row, mapSheet_get _ rs _ hs i row hrow, rfl, rfl, ?_⟩
    intro hname
    simp [mapSupplierRow, JSVal.or, hname]

/-- The ids of the two programs, two transactions and two suppliers of
`listingWorkbook` are 1 and 2, and the program and the supplier without a Name are
named after their position. -/
theorem ids_and_order_witness :
    mapExcelToAppData clockA listingWorkbook = Except.ok listingAppData ∧
    listingAppData.Programs.map (fun p => p.id) = List.range' 1 2 ∧
    listingAppData.Transaction_Entry.map (fun t => t.id) = List.range' 1 2 ∧
    listingAppData.Suppliers.map (fun s => s.id) = List.range' 1 2 :=
  ⟨mapExcelToAppData_listingWorkbook,
    ((ids_and_order clockA listingWorkbook listingAppData
      mapExcelToAppData_listingWorkbook).1 _ rfl).2.1,
    ((ids_and_order clockA listingWorkbook listingAppData
      mapExcelToAppData_listingWorkbook).2.1 _ rfl).2.1,
    ((ids_and_order clockA listingWorkbook listingAppData
      mapExcelToAppData_listingWorkbook).2.2 _ rfl).2.1⟩

/-! ## Dependence on the clock -/

theorem mapFrom_congr {α : Type} (f g : Nat → Row → α) :
    ∀ (rs : List (Option Row)) (i : Nat), (∀ k row, some row ∈ rs → f k row = g k row) →
      mapFrom f i rs = mapFrom g i rs := by
  intro rs
  induction rs with
  | nil => intro i _; rfl
  | cons r rest ih =>
    intro i hfg
    cases r with
    | none => rfl
    | some row =>
      simp only [mapFrom]
      rw [ih (i + 1) (fun k row hr => hfg k row (by simp [hr])), hfg i row (by simp)]

theorem mapSheet_congr {α : Type} (f g : Nat → Row → α) (sheet : SheetVal)
    (hfg : ∀ rs, sheet = SheetVal.rows rs → ∀ k row, some row ∈ rs → f k row = g k row) :
    mapSheet f sheet = mapSheet g sheet := by
  cases sheet with
  | absent => rfl
  | notArray => rfl
  | rows rs => exact mapFrom_congr f g rs 0 (hfg rs rfl)

/-- The mapper evaluated on `undatedWorkbook`. -/
theorem mapExcelToAppData_undatedWorkbook (clock : Clock) :
    mapExcelToAppData clock undatedWorkbook =
      Except.ok { Programs := [undatedProgram clock], Budget_Tracking := [],
                  Transaction_Entry := [], Suppliers := [] } := by
  simp [mapExcelToAppData, undatedWorkbook, undatedProgram, mapSheet, mapFrom, mapProgramRow,
    Row.get, List.lookup, parseFloat, parseFloatString, readSign, readUnsigned, readDecimal,
    isDecimalDigit, isStrWhiteSpaceChar, JSNum.orZero, JSNum.truthy, JSVal.or, JSVal.truthy]

/-- Counterexample to claim C8 as stated: the same workbook, with a Programs row that
has no StartDate, is mapped to different application data on two different days. -/
theorem mapExcelToAppData_clock_counterexample :
    mapExcelToAppData clockA undatedWorkbook ≠ mapExcelToAppData clockB undatedWorkbook := by
  rw [mapExcelToAppData_undatedWorkbook, mapExcelToAppData_undatedWorkbook]
  simp [undatedProgram, clockA, clockB]

/-- Claim C8, amended: the result of `mapExcelToAppData` is determined by the workbook
data and the current date alone; two calls with equal data return equal results when
they are made on the same date, or when every Programs row has a StartDate and an
EndDate and every Transaction_Entry row has a Date. -/
theorem mapExcelToAppData_stateless (clock₁ clock₂ : Clock) (excelData : ExcelData)
    (h : clock₁ = clock₂ ∨ datesPresent excelData) :
    mapExcelToAppData clock₁ excelData = mapExcelToAppData clock₂ excelData := by
  rcases h with hc | ⟨hp, ht⟩
  · rw [hc]
  · have h1 : mapSheet (mapProgramRow clock₁) excelData.Programs
        = mapSheet (mapProgramRow clock₂) excelData.Programs := by
      apply mapSheet_congr
      intro rs hrs k row hrow
      obtain ⟨hs, he⟩ := hp rs hrs row hrow
      simp [mapProgramRow, JSVal.or, hs, he]
    have h2 : mapSheet (mapTransactionRow clock₁) excelData.Transaction_Entry
        = mapSheet (mapTransactionRow clock₂) excelData.Transaction_Entry := by
      apply mapSheet_congr
      intro rs hrs k row hrow
      have hd := ht rs hrs row hrow
      simp [mapTransactionRow, JSVal.or, hd]
    simp only [mapExcelToAppData, h1, h2]

theorem datesPresent_listingWorkbook : datesPresent listingWorkbook := by
  constructor
  · intro rs hrs row hrow
    simp [listingWorkbook] at hrs
    subst hrs
    simp at hrow
    rcases hrow with hr | hr <;> subst hr <;> simp [Row.get, List.lookup, JSVal.truthy]
  · intro rs hrs row hrow
    simp [listingWorkbook] at hrs
    subst hrs
    simp at hrow
    rcases hrow with hr | hr <;> subst hr <;> simp [Row.get, List.lookup, JSVal.truthy]

/-- A workbook with all its dates is mapped to the same data on two different days. -/
theorem mapExcelToAppData_stateless_witness :
    (clockA = clockB ∨ datesPresent listingWorkbook) ∧
    mapExcelToAppData clockA listingWorkbook = mapExcelToAppData clockB listingWorkbook :=
  ⟨Or.inr datesPresent_listingWorkbook,
    mapExcelToAppData_stateless clockA clockB listingWorkbook
      (Or.inr datesPresent_listingWorkbook)⟩

/-! ## The sign of the amount -/

theorem digitChar_toNat (d : Fin 10) : (digitChar d).toNat = 48 + d.val := by
  fin_cases d <;> rfl

theorem isDecimalDigit_digitChar (d : Fin 10) : isDecimalDigit (digitChar d) = true := by
  fin_cases d <;> rfl

theorem isStrWhiteSpaceChar_digitChar (d : Fin 10) :
    isStrWhiteSpaceChar (digitChar d) = false := by
  fin_cases d <;> rfl

theorem digitsValue_digitChar (ds : List (Fin 10)) :
    digitsValue (ds.map digitChar) = digitsNat ds := by
  unfold digitsValue digitsNat
  generalize 0 = acc
  induction ds generalizing acc with
  | nil => rfl
  | cons d ds ih => simp [List.foldl, digitChar_toNat, ih]

theorem takeWhile_digits (ds : List (Fin 10)) (t : List Char)
    (ht : ∀ c r, t = c :: r → isDecimalDigit c = false) :
    (ds.map digitChar ++ t).takeWhile isDecimalDigit = ds.map digitChar ∧
    (ds.map digitChar ++ t).dropWhile isDecimalDigit = t := by
  induction ds with
  | nil =>
    cases t with
    | nil => simp
    | cons c r => simp [List.takeWhile, List.dropWhile, ht c r rfl]
  | cons d ds ih =>
    simp [List.takeWhile, List.dropWhile, isDecimalDigit_digitChar, ih]

theorem readSign_digit (c : Char) (r : List Char) (hc : isDecimalDigit c = true) :
    readSign (c :: r) = (false, c :: r) := by
  unfold readSign
  split
  · rename_i heq
    simp at heq
    rw [heq.1] at hc
    exact absurd hc (by decide)
  · rename_i heq
    simp at heq
    rw [heq.1] at hc
    exact absurd hc (by decide)
  · rfl

theorem readUnsigned_digit (negative : Bool) (c : Char) (r : List Char)
    (hc : isDecimalDigit c = true) :
    readUnsigned negative (c :: r) = readDecimal negative (c :: r) := by
  unfold readUnsigned
  split
  · rename_i heq
    simp at heq
    rw [heq.1] at hc
    exact absurd hc (by decide)
  · rfl

/-- Reading the digits of a plain decimal text gives its value. -/
theorem readDecimal_digits (negative : Bool) (ip fp : List (Fin 10)) (hip : ip ≠ []) :
    readDecimal negative
      (ip.map digitChar ++ (if fp = [] then [] else '.' :: fp.map digitChar))
      = JSNum.fin (decimalValue negative ip fp) := by
  by_cases hfp : fp = []
  · subst hfp
    have htw := takeWhile_digits ip [] (by simp)
    simp only [List.append_nil] at htw
    simp [readDecimal, htw.1, htw.2, hip, digitsValue_digitChar, readExponent, scale10,
      decimalValue, show digitsValue [] = 0 from rfl, show digitsNat [] = 0 from rfl]
  · have htw := takeWhile_digits ip ('.' :: fp.map digitChar)
      (by intro c r h; simp at h; rw [← h.1]; decide)
    have htf := takeWhile_digits fp [] (by simp)
    simp only [List.append_nil] at htf
    simp [readDecimal, hfp, htw.1, htw.2, htf.1, htf.2, hip, digitsValue_digitChar,
      readExponent, scale10, decimalValue]

/-- The function `parseFloat` reads a plain decimal text as its value. -/
theorem parseFloatString_decimalText (negative : Bool) (ip fp : List (Fin 10))
    (hip : ip ≠ []) :
    parseFloatString (decimalText negative ip fp) = JSNum.fin (decimalValue negative ip fp) := by
  obtain ⟨d, ds, rfl⟩ := List.exists_cons_of_ne_nil hip
  have hd := isDecimalDigit_digitChar d
  have hw := isStrWhiteSpaceChar_digitChar d
  have key := readDecimal_digits negative (d :: ds) fp hip
  simp only [List.map_cons, List.cons_append] at key
  cases negative with
  | false =>
    simp only [parseFloatString, decimalText, String.toList, Bool.false_eq_true, if_false,
      List.nil_append, List.map_cons, List.cons_append]
    rw [List.dropWhile_cons_of_neg (by simp [hw]), readSign_digit _ _ hd]
    simp only []
    rw [readUnsigned_digit _ _ _ hd]
    exact key
  | true =>
    simp only [parseFloatString, decimalText, String.toList, if_true, List.map_cons,
      List.cons_append, List.singleton_append]
    rw [List.dropWhile_cons_of_neg (by decide)]
    simp only [readSign, List.nil_append, List.cons_append]
    rw [readUnsigned_digit _ _ _ hd]
    exact key

/-- The text `-15000.50` is a plain decimal text. -/
theorem decimalText_expense : decimalText true [1, 5, 0, 0, 0] [5, 0] = "-15000.50" := by
  decide

/-- The mapper evaluated on `expenseRow`. -/
theorem mapExcelToAppData_expenseRow :
    mapExcelToAppData clockA (transactionWorkbook [expenseRow])
      = Except.ok (transactionsOnly [expenseRecord]) := by
  simp [mapExcelToAppData, transactionWorkbook, transactionsOnly, mapSheet, mapFrom,
    expenseRow, expenseRecord, mapTransactionRow, Row.get, List.lookup, parseFloat,
    parseFloatString, readSign, readUnsigned, readDecimal, isDecimalDigit,
    isStrWhiteSpaceChar, digitsValue, scale10, readExponent, JSNum.orZero, JSNum.truthy,
    JSVal.or, JSVal.truthy]
  norm_num

/-- The value -15000.5 of the text `-15000.50` is a value of the Number type. -/
theorem isDouble_expense : isDouble (decimalValue true [1, 5, 0, 0, 0] [5, 0]) :=
  ⟨-30001, -1, by norm_num, by norm_num, by norm_num, by
    have h1 : digitsNat [1, 5, 0, 0, 0] = 15000 := by decide
    have h2 : digitsNat [5, 0] = 50 := by decide
    simp [decimalValue, h1, h2]
    norm_num⟩

/-- Counterexample to claim C9 as stated: the Amount cell `9007199254740993` is the
plain decimal text of x = 2^53 + 1; the output amount is what `parseFloat` returns for
it, a value of the Number type, and x is not one (its neighbours 2^53 and 2^53 + 2
are), so no value of the Number type, and hence no output amount, is x. -/
theorem amount_not_representable_counterexample :
    unroundedAmountRow.get "Amount" = JSVal.str (decimalText false unroundedDigits []) ∧
    decimalValue false unroundedDigits [] = 9007199254740993 ∧
    ¬ isDouble (decimalValue false unroundedDigits []) ∧
    (∀ v : ℚ, isDouble v → JSNum.fin v ≠ JSNum.fin (decimalValue false unroundedDigits [])) ∧
    isDouble 9007199254740992 ∧ isDouble 9007199254740994 ∧
    ∃ appData t,
      mapExcelToAppData clockA (transactionWorkbook [unroundedAmountRow]) = Except.ok appData ∧
      appData.Transaction_Entry[0]? = some t ∧
      t.amount = (parseFloat (unroundedAmountRow.get "Amount")).orZero := by
  have hv : decimalValue false unroundedDigits [] = 9007199254740993 := by
    have hn : digitsNat unroundedDigits = 9007199254740993 := by decide
    have h0 : digitsNat [] = 0 := rfl
    simp [decimalValue, hn, h0]
  refine ⟨?_, hv, ?_, ?_, ?_, ?_, ?_⟩
  · have ht : decimalText false unroundedDigits [] = "9007199254740993" := by decide
    rw [ht]
    simp [unroundedAmountRow, Row.get, List.lookup]
  · rw [hv]
    exact not_isDouble_two_pow_53_succ
  · intro v hdouble heq
    rw [hv] at heq
    have hvx : v = 9007199254740993 := by simpa using heq
    rw [hvx] at hdouble
    exact not_isDouble_two_pow_53_succ hdouble
  · exact ⟨1, 53, by norm_num, by norm_num, by norm_num, by norm_num⟩
  · exact ⟨4503599627370497, 1, by norm_num, by norm_num, by norm_num, by norm_num⟩
  · refine ⟨transactionsOnly [mapTransactionRow clockA 0 unroundedAmountRow],
      mapTransactionRow clockA 0 unroundedAmountRow, ?_, rfl, rfl⟩
    simp [mapExcelToAppData, transactionWorkbook, transactionsOnly, mapSheet, mapFrom]

/-- Claim C9, amended: in the output record of the Transaction_Entry row at position
`i`, the amount is x when the Amount cell is the finite number x, and when it is the
plain decimal text of an x that is a value of the Number type, whatever the sign of
x; for every plain decimal text of an x the amount is not negative when x >= 0 and
not positive when x <= 0; a missing or unparseable Amount gives 0, and the amount is
0 only when the Amount cell does not parse to a number or parses to 0. -/
theorem amount_keeps_sign (clock : Clock) (excelData : ExcelData) (appData : AppData)
    (h : mapExcelToAppData clock excelData = Except.ok appData)
    (rs : List (Option Row)) (hrs : excelData.Transaction_Entry = SheetVal.rows rs)
    (i : Nat) (row : Row) (hrow : rs[i]? = some (some row)) :
    ∃ t, appData.Transaction_Entry[i]? = some t ∧
      (∀ q : ℚ, row.get "Amount" = JSVal.num (JSNum.fin q) → t.amount = JSNum.fin q) ∧
      (∀ (negative : Bool) (ip fp : List (Fin 10)), ip ≠ [] →
        row.get "Amount" = JSVal.str (decimalText negative ip fp) →
        isDouble (decimalValue negative ip fp) →
        t.amount = JSNum.fin (decimalValue negative ip fp)) ∧
      (∀ (negative : Bool) (ip fp : List (Fin 10)), ip ≠ [] →
        row.get "Amount" = JSVal.str (decimalText negative ip fp) →
        (0 ≤ decimalValue negative ip fp → (JSNum.fin 0).gt t.amount = false) ∧
        (decimalValue negative ip fp ≤ 0 → t.amount.gt (JSNum.fin 0) = false)) ∧
      (row.get "Amount" = JSVal.undefined → t.amount = JSNum.fin 0) ∧
      (parseFloat (row.get "Amount") = JSNum.nan → t.amount = JSNum.fin 0) ∧
      (t.amount = JSNum.fin 0 →
        parseFloat (row.get "Amount") = JSNum.nan ∨
        parseFloat (row.get "Amount") = JSNum.fin 0) := by
  have ht := (mapExcelToAppData_ok h).2.2.1
  rw [hrs] at ht
  have horz : ∀ q : ℚ, (JSNum.fin q).orZero = JSNum.fin q := by
    intro q
    by_cases hq : q = 0 <;> simp [JSNum.orZero, JSNum.truthy, hq]
  refine ⟨mapTransactionRow clock i row, mapSheet_get _ rs _ ht i row hrow, ?_, ?_, ?_, ?_, ?_,
    ?_⟩
  · intro q hq
    simp only [mapTransactionRow, hq, parseFloat]
    exact horz q
  · intro negative ip fp hip hcell _
    simp only [mapTransactionRow, hcell, parseFloat, parseFloatString_decimalText _ _ _ hip]
    exact horz _
  · intro negative ip fp hip hcell
    simp only [mapTransactionRow, hcell, parseFloat, parseFloatString_decimalText _ _ _ hip,
      horz, JSNum.gt, decide_eq_false_iff_not, not_lt]
    exact ⟨fun hx => hx, fun hx => hx⟩
  · intro hu
    simp only [mapTransactionRow, hu, parseFloat_undefined]
    simp [JSNum.orZero, JSNum.truthy]
  · intro hn
    simp only [mapTransactionRow, hn]
    simp [JSNum.orZero, JSNum.truthy]
  · intro hz
    simp only [mapTransactionRow] at hz
    cases hp : parseFloat (row.get "Amount") with
    | nan => exact Or.inl rfl
    | inf s => rw [hp] at hz; simp [JSNum.orZero, JSNum.truthy] at hz
    | fin q =>
      rw [hp, horz q] at hz
      exact Or.inr hz

/-- The amended amount rule at the row whose Amount is the text `-15000.50`: its value
-15000.5 is a value of the Number type and is the output amount. -/
theorem amount_keeps_sign_witness :
    mapExcelToAppData clockA (transactionWorkbook [expenseRow])
      = Except.ok (transactionsOnly [expenseRecord]) ∧
    (transactionWorkbook [expenseRow]).Transaction_Entry = SheetVal.rows [some expenseRow] ∧
    [some expenseRow][0]? = some (some expenseRow) ∧
    expenseRow.get "Amount" = JSVal.str (decimalText true [1, 5, 0, 0, 0] [5, 0]) ∧
    isDouble (decimalValue true [1, 5, 0, 0, 0] [5, 0]) ∧
    ∃ t, (transactionsOnly [expenseRecord]).Transaction_Entry[0]? = some t ∧
      t.amount = JSNum.fin (decimalValue true [1, 5, 0, 0, 0] [5, 0]) := by
  have hcell : expenseRow.get "Amount"
      = JSVal.str (decimalText true [1, 5, 0, 0, 0] [5, 0]) := by
    rw [decimalText_expense]
    simp [expenseRow, Row.get, List.lookup]
  obtain ⟨t, ht, _, htext, _⟩ :=
    amount_keeps_sign clockA (transactionWorkbook [expenseRow])
      (transactionsOnly [expenseRecord]) mapExcelToAppData_expenseRow
      [some expenseRow] rfl 0 expenseRow rfl
  exact ⟨mapExcelToAppData_expenseRow, rfl, rfl, hcell, isDouble_expense,
    t, ht, htext true [1, 5, 0, 0, 0] [5, 0] (by simp) hcell isDouble_expense⟩

/-! ## The built-in sample data -/

/-- Counterexample to claim C10 as stated: the third sample record of `getMockData`
and of `ExcelIntegration.initialize` (School Partnership Initiative) stores
percentUsed 0.92, while (80000 + 30000) / 120000 is 11/12; the fourth record of
`getMockData` stores 0.33 for 1/3. -/
theorem sample_percentUsed_counterexample :
    (∃ b, getMockData.Budget_Tracking[2]? = some b ∧ b.percentUsed = JSNum.fin (92 / 100) ∧
      b.ratio = JSNum.fin (11 / 12) ∧ b.percentUsed ≠ b.ratio) ∧
    (∃ b, ( ExcelIntegration.initialize none).Budget_Tracking[2]? = some b ∧
      b.percentUsed = JSNum.fin (92 / 100) ∧ b.ratio = JSNum.fin (11 / 12) ∧
      b.percentUsed ≠ b.ratio) ∧
    (∃ b, getMockData.Budget_Tracking[3]? = some b ∧ b.percentUsed = JSNum.fin (33 / 100) ∧
      b.ratio = JSNum.fin (1 / 3) ∧ b.percentUsed ≠ b.ratio) := by
  refine ⟨⟨_, rfl, rfl, ?_, ?_⟩, ⟨_, rfl, rfl, ?_, ?_⟩, ⟨_, rfl, rfl, ?_, ?_⟩⟩ <;>
    simp [getMockData, ExcelIntegration.initialize, BudgetRecord.ratio, JSNum.add,
      JSNum.div] <;> norm_num

/-- Claim C10, amended: every Budget_Tracking record of the built-in sample data has
availableBudget = totalBudget - ytdExpenses - committedExpenses; its percentUsed is a
whole number of hundredths within 0.005 of
(ytdExpenses + committedExpenses) / totalBudget; and its status is the tier of the
stored percentUsed, which is also the tier of the exact ratio. -/
theorem sample_budgets_derived_fields (b : BudgetRecord) (hb : b ∈ sampleBudgets) :
    b.availableBudget = (b.totalBudget.sub b.ytdExpenses).sub b.committedExpenses ∧
    (∃ n : ℤ, b.percentUsed = JSNum.fin ((n : ℚ) / 100)) ∧
    (b.percentUsed.sub b.ratio).le (JSNum.fin (5 / 1000)) = true ∧
    (b.ratio.sub b.percentUsed).le (JSNum.fin (5 / 1000)) = true ∧
    b.status = statusOf b.percentUsed ∧
    b.status = statusOf b.ratio := by
  simp only [sampleBudgets, getMockData, ExcelIntegration.initialize, List.cons_append,
    List.nil_append, List.mem_cons, List.mem_singleton, List.not_mem_nil, or_false] at hb
  rcases hb with rfl | rfl | rfl | rfl | rfl | rfl | rfl | rfl
  · refine ⟨?_, ⟨50, ?_⟩, ?_, ?_, ?_, ?_⟩ <;>
      simp [BudgetRecord.ratio, JSNum.add, JSNum.sub, JSNum.neg, JSNum.div, JSNum.le,
        JSNum.gt, statusOf] <;> norm_num
  · refine ⟨?_, ⟨80, ?_⟩, ?_, ?_, ?_, ?_⟩ <;>
      simp [BudgetRecord.ratio, JSNum.add, JSNum.sub, JSNum.neg, JSNum.div, JSNum.le,
        JSNum.gt, statusOf] <;> norm_num
  · refine ⟨?_, ⟨92, ?_⟩, ?_, ?_, ?_, ?_⟩ <;>
      simp [BudgetRecord.ratio, JSNum.add, JSNum.sub, JSNum.neg, JSNum.div, JSNum.le,
        JSNum.gt, statusOf] <;> norm_num
  · refine ⟨?_, ⟨33, ?_⟩, ?_, ?_, ?_, ?_⟩ <;>
      simp [BudgetRecord.ratio, JSNum.add, JSNum.sub, JSNum.neg, JSNum.div, JSNum.le,
        JSNum.gt, statusOf] <;> norm_num
  · refine ⟨?_, ⟨50, ?_⟩, ?_, ?_, ?_, ?_⟩ <;>
      simp [BudgetRecord.ratio, JSNum.add, JSNum.sub, JSNum.neg, JSNum.div, JSNum.le,
        JSNum.gt, statusOf] <;> norm_num
  · refine ⟨?_, ⟨50, ?_⟩, ?_, ?_, ?_, ?_⟩ <;>
      simp [BudgetRecord.ratio, JSNum.add, JSNum.sub, JSNum.neg, JSNum.div, JSNum.le,
        JSNum.gt, statusOf] <;> norm_num
  · refine ⟨?_, ⟨80, ?_⟩, ?_, ?_, ?_, ?_⟩ <;>
      simp [BudgetRecord.ratio, JSNum.add, JSNum.sub, JSNum.neg, JSNum.div, JSNum.le,
        JSNum.gt, statusOf] <;> norm_num
  · refine ⟨?_, ⟨92, ?_⟩, ?_, ?_, ?_, ?_⟩ <;>
      simp [BudgetRecord.ratio, JSNum.add, JSNum.sub, JSNum.neg, JSNum.div, JSNum.le,
        JSNum.gt, statusOf] <;> norm_num

/-- The amended rules at the sample record whose percentUsed is rounded. -/
theorem sample_budgets_derived_fields_witness :
    schoolPartnershipBudget ∈ sampleBudgets ∧
    schoolPartnershipBudget.availableBudget =
      (schoolPartnershipBudget.totalBudget.sub schoolPartnershipBudget.ytdExpenses).sub
        schoolPartnershipBudget.committedExpenses ∧
    (∃ n : ℤ, schoolPartnershipBudget.percentUsed = JSNum.fin ((n : ℚ) / 100)) ∧
    (schoolPartnershipBudget.percentUsed.sub schoolPartnershipBudget.ratio).le
      (JSNum.fin (5 / 1000)) = true ∧
    (schoolPartnershipBudget.ratio.sub schoolPartnershipBudget.percentUsed).le
      (JSNum.fin (5 / 1000)) = true ∧
    schoolPartnershipBudget.status = statusOf schoolPartnershipBudget.percentUsed ∧
    schoolPartnershipBudget.status = statusOf schoolPartnershipBudget.ratio :=
  ⟨by simp [sampleBudgets, getMockData, schoolPartnershipBudget],
    sample_budgets_derived_fields schoolPartnershipBudget
      (by simp [sampleBudgets, getMockData, schoolPartnershipBudget])⟩

/-! ## Objects: property access, assignment and spread -/

theorem Row.get_cons (k : String) (w : JSVal) (rest : Row) (key : String) :
    Row.get ((k, w) :: rest) key = if key = k then w else Row.get rest key := by
  by_cases h : key = k
  · subst h; simp [Row.get, List.lookup]
  · have hb : (key == k) = false := by simpa using h
    simp [Row.get, List.lookup, hb, h]

theorem Row.has_cons (k : String) (w : JSVal) (rest : Row) (key : String) :
    Row.has ((k, w) :: rest) key = (decide (key = k) || Row.has rest key) := by
  by_cases h : key = k
  · subst h; simp [Row.has, List.lookup]
  · have hb : (key == k) = false := by simpa using h
    simp [Row.has, List.lookup, hb, h]

theorem Row.get_of_has_false (o : Row) (key : String) (h : Row.has o key = false) :
    Row.get o key = JSVal.undefined := by
  induction o with
  | nil => rfl
  | cons p rest ih =>
    obtain ⟨k, w⟩ := p
    rw [Row.has_cons] at h
    simp at h
    rw [Row.get_cons, if_neg h.1, ih h.2]

theorem Row.has_iff_mem_keys (o : Row) (key : String) :
    Row.has o key = true ↔ key ∈ o.map Prod.fst := by
  induction o with
  | nil => simp [Row.has, List.lookup]
  | cons p rest ih =>
    obtain ⟨k, w⟩ := p
    rw [Row.has_cons]
    simp [ih]

theorem Row.get_set (o : Row) (k : String) (v : JSVal) (key : String) :
    Row.get (Row.set o k v) key = if key = k then v else Row.get o key := by
  induction o with
  | nil => simp [Row.set, Row.get_cons]
  | cons p rest ih =>
    obtain ⟨k', w⟩ := p
    by_cases hk : k = k'
    · subst hk
      simp only [Row.set, if_true, Row.get_cons]
      split <;> rfl
    · simp only [Row.set, if_neg hk, Row.get_cons, ih]
      by_cases h1 : key = k'
      · have : key ≠ k := fun h => hk (h ▸ h1)
        subst h1
        simp [this]
      · simp [h1]

theorem Row.has_set (o : Row) (k : String) (v : JSVal) (key : String) :
    Row.has (Row.set o k v) key = (decide (key = k) || Row.has o key) := by
  induction o with
  | nil => simp [Row.set, Row.has_cons]
  | cons p rest ih =>
    obtain ⟨k', w⟩ := p
    by_cases hk : k = k'
    · subst hk
      simp [Row.set, Row.has_cons]
    · simp only [Row.set, if_neg hk, Row.has_cons, ih]
      cases decide (key = k') <;> cases decide (key = k) <;> simp

/-- Assigning the properties of a well-formed object in order: its properties win. -/
theorem Row.get_foldl_set (l : Row) (hl : Row.wellFormed l) :
    ∀ (acc : Row) (key : String),
      Row.get (l.foldl (fun acc p => Row.set acc p.1 p.2) acc) key
        = if Row.has l key = true then Row.get l key else Row.get acc key := by
  induction l with
  | nil => intro acc key; simp [Row.has, List.lookup]
  | cons p rest ih =>
    obtain ⟨k, w⟩ := p
    intro acc key
    have hnd : (k ∉ rest.map Prod.fst) ∧ Row.wellFormed rest := by
      simpa [Row.wellFormed] using hl
    simp only [List.foldl_cons]
    rw [ih hnd.2, Row.has_cons, Row.get_cons, Row.get_set]
    by_cases hk : key = k
    · subst hk
      have : Row.has rest key = false := by
        cases hh : Row.has rest key with
        | false => rfl
        | true => exact absurd ((Row.has_iff_mem_keys rest key).1 hh) hnd.1
      simp [this]
    · simp [hk]

/-- The properties of `{...a, ...b}`: those of `b` win, the others are those of `a`. -/
theorem Row.get_spread (a b : Row) (ha : Row.wellFormed a) (hb : Row.wellFormed b)
    (key : String) :
    Row.get (Row.spread a b) key = if Row.has b key = true then Row.get b key else Row.get a key := by
  unfold Row.spread
  rw [List.foldl_append, Row.get_foldl_set b hb, Row.get_foldl_set a ha]
  by_cases h1 : Row.has b key = true
  · simp [h1]
  · simp only [h1, if_false]
    by_cases h2 : Row.has a key = true
    · simp [h2]
    · simp only [h2, if_false]
      rw [Row.get_of_has_false a key (by simpa using h2)]
      rfl

theorem findIndex_none (p : Row → Bool) (l : List Row) (h : ∀ e ∈ l, p e = false) :
    findIndex p l = none := by
  induction l with
  | nil => rfl
  | cons x rest ih =>
    simp only [findIndex, h x (by simp)]
    simp [ih (fun e he => h e (by simp [he]))]

theorem findIndex_first (p : Row → Bool) :
    ∀ (l : List Row) (i : Nat) (x : Row), l[i]? = some x → p x = true →
      (∀ j, j < i → ∀ e, l[j]? = some e → p e = false) → findIndex p l = some i := by
  intro l
  induction l with
  | nil => intro i x h; simp at h
  | cons y rest ih =>
    intro i x hx hp hfirst
    cases i with
    | zero =>
      simp at hx
      subst hx
      simp [findIndex, hp]
    | succ i =>
      have hy : p y = false := hfirst 0 (by omega) y (by simp)
      simp at hx
      have := ih i x hx hp (fun j hj e he => hfirst (j + 1) (by omega) e (by simpa using he))
      simp [findIndex, hy, this]

/-! ## addBudget -/

/-- The method `addBudget` evaluated on `twoBudgets` and `budgetB`. -/
theorem addBudget_twoBudgets :
    ExcelIntegration.addBudget (some twoBudgets) budgetB =
      Except.ok
        ({ Programs := none
           Budget_Tracking := some
             [[("program", JSVal.str "A"), ("totalBudget", JSVal.num (JSNum.fin 100))], mergedB]
           Transaction_Entry := none }, mergedB) := by
  simp [ExcelIntegration.addBudget, twoBudgets, budgetB, mergedB, orEmpty, findIndex, Row.get,
    List.lookup, JSVal.strictEq, Row.spread, Row.set]

/-- Claim C11: `addBudget` is an upsert keyed by program.  When no entry has the
program of `budget`, `budget` is appended as the last entry and returned.  When the
first entry with that program is at position `i`, that entry is replaced in place by
the merge of the old entry with `budget` (a property of `budget` wins, any other
property keeps its old value), the list keeps its length and its other entries, and
the merged entry is returned. -/
theorem addBudget_upsert (d : WorkbookData) (budget : Row) (hb : Row.wellFormed budget)
    (hd : ∀ e ∈ orEmpty d.Budget_Tracking, Row.wellFormed e) :
    ∃ d' ret, ExcelIntegration.addBudget (some d) budget = Except.ok (d', ret) ∧
      d'.Programs = d.Programs ∧ d'.Transaction_Entry = d.Transaction_Entry ∧
      ((∀ e ∈ orEmpty d.Budget_Tracking,
          (e.get "program").strictEq (budget.get "program") = false) →
        d'.Budget_Tracking = some (orEmpty d.Budget_Tracking ++ [budget]) ∧ ret = budget) ∧
      (∀ (i : Nat) (old : Row), (orEmpty d.Budget_Tracking)[i]? = some old →
        (old.get "program").strictEq (budget.get "program") = true →
        (∀ j, j < i → ∀ e : Row, (orEmpty d.Budget_Tracking)[j]? = some e →
          (e.get "program").strictEq (budget.get "program") = false) →
        ∃ budgets, d'.Budget_Tracking = some budgets ∧
          budgets.length = (orEmpty d.Budget_Tracking).length ∧
          budgets[i]? = some ret ∧
          (∀ j, j ≠ i → budgets[j]? = (orEmpty d.Budget_Tracking)[j]?) ∧
          ∀ key, ret.get key = if Row.has budget key = true then budget.get key
            else old.get key) := by
  cases hfi : findIndex (fun b => (b.get "program").strictEq (budget.get "program"))
      (orEmpty d.Budget_Tracking) with
  | none =>
    refine ⟨{ d with Budget_Tracking := some (orEmpty d.Budget_Tracking ++ [budget]) }, budget,
      by simp only [ExcelIntegration.addBudget, hfi], rfl, rfl, ?_, ?_⟩
    · intro _; exact ⟨rfl, rfl⟩
    · intro i old hold hsame hfirst
      rw [findIndex_first _ _ i old hold hsame hfirst] at hfi
      exact absurd hfi (by simp)
  | some k =>
    refine ⟨{ d with Budget_Tracking := some ((orEmpty d.Budget_Tracking).set k
        (Row.spread ((orEmpty d.Budget_Tracking).getD k []) budget)) },
      Row.spread ((orEmpty d.Budget_Tracking).getD k []) budget,
      by simp only [ExcelIntegration.addBudget, hfi], rfl, rfl, ?_, ?_⟩
    · intro hnone
      rw [findIndex_none _ _ hnone] at hfi
      exact absurd hfi (by simp)
    · intro i old hold hsame hfirst
      rw [findIndex_first _ _ i old hold hsame hfirst] at hfi
      have hki : k = i := (Option.some.inj hfi).symm
      subst hki
      have hlt : k < (orEmpty d.Budget_Tracking).length := by
        rcases Nat.lt_or_ge k (orEmpty d.Budget_Tracking).length with h | h
        · exact h
        · rw [List.getElem?_eq_none h] at hold; exact absurd hold (by simp)
      have hgetD : (orEmpty d.Budget_Tracking).getD k [] = old := by
        simp [List.getD, hold]
      refine ⟨_, rfl, by simp, ?_, ?_, ?_⟩
      · simp [List.getElem?_set, hlt]
      · intro j hj
        simp [List.getElem?_set, Ne.symm hj]
      · intro key
        rw [hgetD]
        exact Row.get_spread old budget (hd old (List.getElem?_mem hold)) hb key

/-- The upsert at `twoBudgets` and `budgetB`: the entry for program B at position 1
is replaced by the merge. -/
theorem addBudget_upsert_witness :
    Row.wellFormed budgetB ∧ (∀ e ∈ orEmpty twoBudgets.Budget_Tracking, Row.wellFormed e) ∧
    ∃ d' ret, ExcelIntegration.addBudget (some twoBudgets) budgetB = Except.ok (d', ret) ∧
      d'.Programs = twoBudgets.Programs ∧
      d'.Transaction_Entry = twoBudgets.Transaction_Entry ∧
      ((∀ e ∈ orEmpty twoBudgets.Budget_Tracking,
          (e.get "program").strictEq (budgetB.get "program") = false) →
        d'.Budget_Tracking = some (orEmpty twoBudgets.Budget_Tracking ++ [budgetB]) ∧
        ret = budgetB) ∧
      (∀ (i : Nat) (old : Row), (orEmpty twoBudgets.Budget_Tracking)[i]? = some old →
        (old.get "program").strictEq (budgetB.get "program") = true →
        (∀ j, j < i → ∀ e : Row, (orEmpty twoBudgets.Budget_Tracking)[j]? = some e →
          (e.get "program").strictEq (budgetB.get "program") = false) →
        ∃ budgets, d'.Budget_Tracking = some budgets ∧
          budgets.length = (orEmpty twoBudgets.Budget_Tracking).length ∧
          budgets[i]? = some ret ∧
          (∀ j, j ≠ i → budgets[j]? = (orEmpty twoBudgets.Budget_Tracking)[j]?) ∧
          ∀ key, ret.get key = if Row.has budgetB key = true then budgetB.get key
            else old.get key) :=
  ⟨by simp [Row.wellFormed, budgetB],
    by simp [Row.wellFormed, twoBudgets, orEmpty],
    addBudget_upsert twoBudgets budgetB (by simp [Row.wellFormed, budgetB])
      (by simp [Row.wellFormed, twoBudgets, orEmpty])⟩

/-! ## addTransaction -/

/-- The running maximum over transactions whose ids are missing or finite numbers. -/
theorem foldl_mathMax_ids (strToNum : String → JSNum) :
    ∀ (l : List Row),
      (∀ e ∈ l, (e.get "id").truthy = false ∨ ∃ q : ℚ, e.get "id" = JSVal.num (JSNum.fin q)) →
      ∀ a : ℚ, 0 ≤ a →
        ∃ m : ℚ,
          l.foldl (fun max t =>
              mathMax max (toNumber strToNum ((t.get "id").or (JSVal.num (JSNum.fin 0)))))
            (JSNum.fin a) = JSNum.fin m ∧
          a ≤ m ∧ (m = a ∨ ∃ e ∈ l, e.get "id" = JSVal.num (JSNum.fin m)) ∧
          ∀ e ∈ l, ∀ q : ℚ, e.get "id" = JSVal.num (JSNum.fin q) → q ≤ m := by
  intro l
  induction l with
  | nil => intro _ a _; exact ⟨a, rfl, le_refl a, Or.inl rfl, by simp⟩
  | cons e rest ih =>
    intro hl a ha
    have hrest : ∀ e' ∈ rest, (e'.get "id").truthy = false ∨
        ∃ q : ℚ, e'.get "id" = JSVal.num (JSNum.fin q) := fun e' he' => hl e' (by simp [he'])
    simp only [List.foldl_cons]
    by_cases ht : (e.get "id").truthy = true
    · -- a truthy id is a finite number other than zero
      rcases hl e (by simp) with hf | ⟨q, hq⟩
      · rw [hf] at ht; exact absurd ht (by simp)
      · have hstep : mathMax (JSNum.fin a)
            (toNumber strToNum ((e.get "id").or (JSVal.num (JSNum.fin 0))))
            = JSNum.fin (max a q) := by
          have hor : (e.get "id").or (JSVal.num (JSNum.fin 0)) = JSVal.num (JSNum.fin q) := by
            unfold JSVal.or
            rw [if_pos ht]
            exact hq
          rw [hor]
          simp only [toNumber, mathMax, JSNum.gt]
          by_cases hqa : q < a
          · simp [hqa, max_eq_left (le_of_lt hqa)]
          · simp [hqa, max_eq_right (not_lt.mp hqa)]
        rw [hstep]
        obtain ⟨m, hm, ham, hwit, hub⟩ := ih hrest (max a q) (le_trans ha (le_max_left a q))
        refine ⟨m, hm, le_trans (le_max_left a q) ham, ?_, ?_⟩
        · rcases hwit with hmeq | ⟨e', he', hid⟩
          · rcases le_total a q with h | h
            · right
              exact ⟨e, by simp, by rw [hq, hmeq, max_eq_right h]⟩
            · left
              rw [hmeq, max_eq_left h]
          · exact Or.inr ⟨e', by simp [he'], hid⟩
        · intro e' he' q' hq'
          rcases List.mem_cons.1 he' with h | h
          · subst h
            rw [hq] at hq'
            have : q = q' := by simpa using hq'
            subst this
            exact le_trans (le_max_right a q) ham
          · exact hub e' h q' hq'
    · have hf : (e.get "id").truthy = false := by simpa using ht
      have hstep : mathMax (JSNum.fin a)
          (toNumber strToNum ((e.get "id").or (JSVal.num (JSNum.fin 0)))) = JSNum.fin a := by
        have hor : (e.get "id").or (JSVal.num (JSNum.fin 0)) = JSVal.num (JSNum.fin 0) := by
          unfold JSVal.or
          rw [if_neg ht]
        rw [hor]
        simp only [toNumber, mathMax, JSNum.gt]
        rcases eq_or_lt_of_le ha with h | h
        · simp [← h]
        · simp [h]
      rw [hstep]
      obtain ⟨m, hm, ham, hwit, hub⟩ := ih hrest a ha
      refine ⟨m, hm, ham, ?_, ?_⟩
      · rcases hwit with hmeq | ⟨e', he', hid⟩
        · exact Or.inl hmeq
        · exact Or.inr ⟨e', by simp [he'], hid⟩
      · intro e' he' q' hq'
        rcases List.mem_cons.1 he' with h | h
        · subst h
          rw [hq'] at hf
          have : q' = 0 := by simpa [JSVal.truthy, JSNum.truthy] using hf
          rw [this]
          exact le_trans ha ham
        · exact hub e' h q' hq'

/-- The method `addTransaction` evaluated on `negativeIdData` and `newExpense`. -/
theorem addTransaction_negativeIdData :
    ExcelIntegration.addTransaction (fun _ => JSNum.nan) (some negativeIdData) newExpense =
      Except.ok
        ({ Programs := none
           Budget_Tracking := none
           Transaction_Entry := some
             [[("id", JSVal.num (JSNum.fin (-5)))],
              [("type", JSVal.str "Expense"), ("amount", JSVal.num (JSNum.fin (-40))),
               ("id", JSVal.num (JSNum.fin 1))]] },
         [("type", JSVal.str "Expense"), ("amount", JSVal.num (JSNum.fin (-40))),
          ("id", JSVal.num (JSNum.fin 1))]) := by
  simp [ExcelIntegration.addTransaction, negativeIdData, newExpense, orEmpty, maxId, Row.get,
    List.lookup, JSVal.truthy, JSVal.or, JSNum.truthy, toNumber, mathMax, JSNum.gt, JSNum.add,
    Row.set]

/-- Counterexample to claim C12 as stated: the only existing transaction has id -5, so
the largest existing id plus one is -4, yet the transaction added without id gets id 1. -/
theorem addTransaction_negative_id_counterexample :
    ∃ d' ret,
      ExcelIntegration.addTransaction (fun _ => JSNum.nan) (some negativeIdData) newExpense
        = Except.ok (d', ret) ∧
      (orEmpty negativeIdData.Transaction_Entry).map (fun t => t.get "id")
        = [JSVal.num (JSNum.fin (-5))] ∧
      newExpense.get "id" = JSVal.undefined ∧
      ret.get "id" = JSVal.num (JSNum.fin 1) ∧
      ret.get "id" ≠ JSVal.num (JSNum.fin (-5 + 1)) := by
  refine ⟨_, _, addTransaction_negativeIdData, ?_, ?_, ?_, ?_⟩
  · simp [negativeIdData, orEmpty, Row.get, List.lookup]
  · simp [newExpense, Row.get, List.lookup]
  · simp [Row.get, List.lookup]
  · simp [Row.get, List.lookup]

/-- Claim C12, amended: `addTransaction(t)` appends the stored transaction as the last
element, so the list grows by exactly one and every existing transaction stays where
it was.  A truthy id of `t` is kept and `t` is stored as given.  Otherwise the stored
transaction is `t` with id `maxId + 1`, where `maxId` is the running `Math.max` of
`id || 0` from 0.  When every existing id is missing or a finite number, `maxId` is
the largest of 0 and the existing ids and the new id is not below any existing id.
When every existing id is missing or an integer below 2^53 in absolute value, the
addition is exact: the new id is m + 1 for m the largest of 0 and the existing ids,
a value of the Number type, and strictly greater than every existing id. -/
theorem addTransaction_assigns_id (strToNum : String → JSNum) (d : WorkbookData) (t : Row) :
    ∃ d' ret, ExcelIntegration.addTransaction strToNum (some d) t = Except.ok (d', ret) ∧
      d'.Programs = d.Programs ∧ d'.Budget_Tracking = d.Budget_Tracking ∧
      d'.Transaction_Entry = some (orEmpty d.Transaction_Entry ++ [ret]) ∧
      (orEmpty d'.Transaction_Entry).length = (orEmpty d.Transaction_Entry).length + 1 ∧
      (∀ j, j < (orEmpty d.Transaction_Entry).length →
        (orEmpty d'.Transaction_Entry)[j]? = (orEmpty d.Transaction_Entry)[j]?) ∧
      (orEmpty d'.Transaction_Entry)[(orEmpty d.Transaction_Entry).length]? = some ret ∧
      ((t.get "id").truthy = true → ret = t) ∧
      ((t.get "id").truthy = false →
        ret.get "id"
          = JSVal.num ((maxId strToNum (orEmpty d.Transaction_Entry)).add (JSNum.fin 1)) ∧
        (∀ key, key ≠ "id" → ret.get key = t.get key) ∧
        ((∀ e ∈ orEmpty d.Transaction_Entry,
            (e.get "id").truthy = false ∨ ∃ q : ℚ, e.get "id" = JSVal.num (JSNum.fin q)) →
          ∃ m : ℚ, maxId strToNum (orEmpty d.Transaction_Entry) = JSNum.fin m ∧ 0 ≤ m ∧
            (m = 0 ∨ ∃ e ∈ orEmpty d.Transaction_Entry, e.get "id" = JSVal.num (JSNum.fin m)) ∧
            ∀ e ∈ orEmpty d.Transaction_Entry, ∀ q : ℚ,
              e.get "id" = JSVal.num (JSNum.fin q) →
                q ≤ m ∧
                (JSNum.fin q).le
                  ((maxId strToNum (orEmpty d.Transaction_Entry)).add (JSNum.fin 1)) = true) ∧
        ((∀ e ∈ orEmpty d.Transaction_Entry,
            (e.get "id").truthy = false ∨
              ∃ n : ℤ, |n| < 2 ^ 53 ∧ e.get "id" = JSVal.num (JSNum.fin n)) →
          ∃ m : ℤ, 0 ≤ m ∧ m < 2 ^ 53 ∧
            ret.get "id" = JSVal.num (JSNum.fin ((m : ℚ) + 1)) ∧
            isDouble ((m : ℚ) + 1) ∧
            (m = 0 ∨ ∃ e ∈ orEmpty d.Transaction_Entry, e.get "id" = JSVal.num (JSNum.fin m)) ∧
            ∀ e ∈ orEmpty d.Transaction_Entry, ∀ q : ℚ,
              e.get "id" = JSVal.num (JSNum.fin q) → q < (m : ℚ) + 1)) := by
  by_cases ht : (t.get "id").truthy = true
  · refine ⟨{ d with Transaction_Entry := some (orEmpty d.Transaction_Entry ++ [t]) }, t,
      by simp [ExcelIntegration.addTransaction, ht], rfl, rfl, rfl, by simp [orEmpty], ?_, ?_,
      fun _ => rfl, ?_⟩
    · intro j hj
      exact List.getElem?_append_left hj
    · simp [orEmpty]
    · intro hf; rw [hf] at ht; exact absurd ht (by simp)
  · refine ⟨{ d with Transaction_Entry := some (orEmpty d.Transaction_Entry ++
        [Row.set t "id" (JSVal.num ((maxId strToNum (orEmpty d.Transaction_Entry)).add
          (JSNum.fin 1)))]) },
      Row.set t "id" (JSVal.num ((maxId strToNum (orEmpty d.Transaction_Entry)).add
        (JSNum.fin 1))),
      by simp [ExcelIntegration.addTransaction, ht], rfl, rfl, rfl, by simp [orEmpty], ?_, ?_,
      fun h => absurd h ht, ?_⟩
    · intro j hj
      exact List.getElem?_append_left hj
    · simp [orEmpty]
    · intro _
      refine ⟨by rw [Row.get_set]; simp, ?_, ?_, ?_⟩
      · intro key hkey
        rw [Row.get_set, if_neg hkey]
      · intro hids
        obtain ⟨m, hm, h0, hwit, hub⟩ :=
          foldl_mathMax_ids strToNum (orEmpty d.Transaction_Entry) hids 0 (le_refl 0)
        have hmax : maxId strToNum (orEmpty d.Transaction_Entry) = JSNum.fin m := hm
        refine ⟨m, hmax, h0, hwit, ?_⟩
        intro e he q hq
        have hqm := hub e he q hq
        refine ⟨hqm, ?_⟩
        rw [hmax]
        simp only [JSNum.add, JSNum.le, decide_eq_true_eq]
        linarith
      · intro hsafe
        have hids : ∀ e ∈ orEmpty d.Transaction_Entry,
            (e.get "id").truthy = false ∨ ∃ q : ℚ, e.get "id" = JSVal.num (JSNum.fin q) := by
          intro e he
          rcases hsafe e he with hf | ⟨n, _, hn⟩
          · exact Or.inl hf
          · exact Or.inr ⟨n, hn⟩
        obtain ⟨m, hm, h0, hwit, hub⟩ :=
          foldl_mathMax_ids strToNum (orEmpty d.Transaction_Entry) hids 0 (le_refl 0)
        have hmax : maxId strToNum (orEmpty d.Transaction_Entry) = JSNum.fin m := hm
        have hint : ∃ k : ℤ, 0 ≤ k ∧ k < 2 ^ 53 ∧ m = (k : ℚ) ∧
            (k = 0 ∨ ∃ e ∈ orEmpty d.Transaction_Entry,
              e.get "id" = JSVal.num (JSNum.fin k)) := by
          rcases hwit with hm0 | ⟨e, he, hid⟩
          · exact ⟨0, le_refl 0, by norm_num, by simpa using hm0, Or.inl rfl⟩
          · rcases hsafe e he with hf | ⟨n, hn, hidn⟩
            · rw [hid] at hf
              have hm0 : m = 0 := by simpa [JSVal.truthy, JSNum.truthy] using hf
              exact ⟨0, le_refl 0, by norm_num, by simpa using hm0, Or.inl rfl⟩
            · rw [hid] at hidn
              have hmn : m = (n : ℚ) := by simpa using hidn
              have hn0 : (0 : ℤ) ≤ n := by
                have : (0 : ℚ) ≤ (n : ℚ) := by rw [← hmn]; exact h0
                exact_mod_cast this
              refine ⟨n, hn0, lt_of_le_of_lt (le_abs_self n) hn, hmn, Or.inr ⟨e, he, ?_⟩⟩
              rw [hid, hmn]
        obtain ⟨k, hk0, hk53, hmk, hkwit⟩ := hint
        refine ⟨k, hk0, hk53, ?_, ?_, hkwit, ?_⟩
        · rw [Row.get_set]
          simp only [if_true, hmax, JSNum.add, hmk]
        · by_cases hlt : k + 1 < 2 ^ 53
          · refine ⟨k + 1, 0, ?_, by norm_num, by norm_num, by push_cast; simp⟩
            rw [abs_of_nonneg (by linarith)]
            exact hlt
          · have hk : k = 2 ^ 53 - 1 := by omega
            refine ⟨2 ^ 52, 1, by norm_num, by norm_num, by norm_num, ?_⟩
            rw [hk]
            push_cast
            norm_num
        · intro e he q hq
          have := hub e he q hq
          rw [hmk] at this
          linarith

/-- The amended id rule on an instance with ids 3 and 7 and a transaction without id:
the existing ids are missing or integers below 2^53, so the new id is m + 1 for an
integer m and strictly greater than every existing id. -/
theorem addTransaction_assigns_id_witness :
    (newExpense.get "id").truthy = false ∧
    (∀ e ∈ orEmpty threeTransactions.Transaction_Entry,
      (e.get "id").truthy = false ∨
        ∃ n : ℤ, |n| < 2 ^ 53 ∧ e.get "id" = JSVal.num (JSNum.fin n)) ∧
    ∃ d' ret,
      ExcelIntegration.addTransaction (fun _ => JSNum.nan) (some threeTransactions) newExpense
        = Except.ok (d', ret) ∧
      d'.Transaction_Entry = some (orEmpty threeTransactions.Transaction_Entry ++ [ret]) ∧
      ∃ m : ℤ, 0 ≤ m ∧ m < 2 ^ 53 ∧
        ret.get "id" = JSVal.num (JSNum.fin ((m : ℚ) + 1)) ∧
        isDouble ((m : ℚ) + 1) ∧
        (m = 0 ∨ ∃ e ∈ orEmpty threeTransactions.Transaction_Entry,
          e.get "id" = JSVal.num (JSNum.fin m)) ∧
        ∀ e ∈ orEmpty threeTransactions.Transaction_Entry, ∀ q : ℚ,
          e.get "id" = JSVal.num (JSNum.fin q) → q < (m : ℚ) + 1 := by
  have hfalsy : (newExpense.get "id").truthy = false := by
    simp [newExpense, Row.get, List.lookup, JSVal.truthy]
  have hsafe : ∀ e ∈ orEmpty threeTransactions.Transaction_Entry,
      (e.get "id").truthy = false ∨
        ∃ n : ℤ, |n| < 2 ^ 53 ∧ e.get "id" = JSVal.num (JSNum.fin n) := by
    intro e he
    simp only [threeTransactions, orEmpty, List.mem_cons, List.mem_singleton,
      List.not_mem_nil, or_false] at he
    rcases he with rfl | rfl | rfl
    · exact Or.inr ⟨3, by norm_num, by simp [Row.get, List.lookup]⟩
    · exact Or.inl (by simp [Row.get, List.lookup, JSVal.truthy])
    · exact Or.inr ⟨7, by norm_num, by simp [Row.get, List.lookup]⟩
  obtain ⟨d', ret, hok, _, _, hentries, _, _, _, _, hnew⟩ :=
    addTransaction_assigns_id (fun _ => JSNum.nan) threeTransactions newExpense
  exact ⟨hfalsy, hsafe, d', ret, hok, hentries, (hnew hfalsy).2.2.2 hsafe⟩

/-- The new id on the instance with ids 3 and 7 is 8. -/
theorem addTransaction_threeTransactions :
    ExcelIntegration.addTransaction (fun _ => JSNum.nan) (some threeTransactions) newExpense
      = Except.ok
        ({ Programs := none
           Budget_Tracking := none
           Transaction_Entry := some
             [[("id", JSVal.num (JSNum.fin 3))], [("amount", JSVal.num (JSNum.fin 20))],
              [("id", JSVal.num (JSNum.fin 7))],
              [("type", JSVal.str "Expense"), ("amount", JSVal.num (JSNum.fin (-40))),
               ("id", JSVal.num (JSNum.fin 8))]] },
         [("type", JSVal.str "Expense"), ("amount", JSVal.num (JSNum.fin (-40))),
          ("id", JSVal.num (JSNum.fin 8))]) := by
  simp [ExcelIntegration.addTransaction, threeTransactions, newExpense, orEmpty, maxId, Row.get,
    List.lookup, JSVal.truthy, JSVal.or, JSNum.truthy, toNumber, mathMax, JSNum.gt, JSNum.add,
    Row.set]
  norm_num

/-! ## getCategories -/

theorem getCategories_categoryData :
    getCategories (some categoryData)
      = [JSVal.str "VCES", JSVal.str "GDC", JSVal.str "Commercial"] := by
  simp [getCategories, categoryData, arrayFromSet, Row.get, List.lookup, JSVal.truthy]

/-- Inserting the values that satisfy `p`, with the values seen so far (`pre`) and the
set built from them (`set`): membership, absence of duplicates and order. -/
theorem foldl_insert_filter (p : JSVal → Bool) :
    ∀ (l pre set : List JSVal),
      (∀ x, x ∈ set ↔ x ∈ pre ∧ p x = true) → set.Nodup →
      set.Pairwise (fun x y => List.indexOf x (pre ++ l) < List.indexOf y (pre ++ l)) →
      let out := (l.filter p).foldl (fun set v => if v ∈ set then set else set ++ [v]) set
      (∀ x, x ∈ out ↔ x ∈ pre ++ l ∧ p x = true) ∧ out.Nodup ∧
      out.Pairwise (fun x y => List.indexOf x (pre ++ l) < List.indexOf y (pre ++ l)) := by
  intro l
  induction l with
  | nil =>
    intro pre set hmem hnd hpw
    simp only [List.append_nil] at hpw ⊢
    exact ⟨by simpa using hmem, by simpa using hnd, by simpa using hpw⟩
  | cons v rest ih =>
    intro pre set hmem hnd hpw
    have hL : pre ++ v :: rest = (pre ++ [v]) ++ rest := List.append_cons pre v rest
    by_cases hp : p v = true
    · by_cases hv : v ∈ set
      · have hmem' : ∀ x, x ∈ set ↔ x ∈ pre ++ [v] ∧ p x = true := by
          intro x
          rw [hmem x]
          constructor
          · rintro ⟨h1, h2⟩; exact ⟨by simp [h1], h2⟩
          · rintro ⟨h1, h2⟩
            rcases List.mem_append.1 h1 with h | h
            · exact ⟨h, h2⟩
            · have : x = v := by simpa using h
              subst this
              exact (hmem x).1 hv
        have := ih (pre ++ [v]) set hmem' hnd (by rw [← hL]; exact hpw)
        simp only [List.filter_cons, hp, if_true, List.foldl_cons, hv]
        rw [hL]
        exact this
      · have hvpre : v ∉ pre := fun h => hv ((hmem v).2 ⟨h, hp⟩)
        have hmem' : ∀ x, x ∈ set ++ [v] ↔ x ∈ pre ++ [v] ∧ p x = true := by
          intro x
          simp only [List.mem_append, List.mem_singleton, hmem x]
          constructor
          · rintro (⟨h1, h2⟩ | h)
            · exact ⟨Or.inl h1, h2⟩
            · subst h; exact ⟨Or.inr rfl, hp⟩
          · rintro ⟨h1 | h1, h2⟩
            · exact Or.inl ⟨h1, h2⟩
            · exact Or.inr h1
        have hnd' : (set ++ [v]).Nodup := by
          rw [List.nodup_append]
          refine ⟨hnd, by simp, ?_⟩
          intro x hx hx'
          have : x = v := by simpa using hx'
          subst this
          exact hv hx
        have hpw' : (set ++ [v]).Pairwise
            (fun x y => List.indexOf x (pre ++ [v] ++ rest) < List.indexOf y (pre ++ [v] ++ rest)) := by
          rw [← hL, List.pairwise_append]
          refine ⟨hpw, by simp, ?_⟩
          intro x hx y hy
          have hyv : y = v := by simpa using hy
          subst hyv
          have hxpre : x ∈ pre := ((hmem x).1 hx).1
          rw [List.indexOf_append_of_mem hxpre, List.indexOf_append_of_not_mem hvpre]
          have := List.indexOf_lt_length.2 hxpre
          omega
        have := ih (pre ++ [v]) (set ++ [v]) hmem' hnd' hpw'
        simp only [List.filter_cons, hp, if_true, List.foldl_cons, hv, if_false]
        rw [hL]
        exact this
    · have hmem' : ∀ x, x ∈ set ↔ x ∈ pre ++ [v] ∧ p x = true := by
        intro x
        rw [hmem x]
        constructor
        · rintro ⟨h1, h2⟩; exact ⟨by simp [h1], h2⟩
        · rintro ⟨h1, h2⟩
          rcases List.mem_append.1 h1 with h | h
          · exact ⟨h, h2⟩
          · have : x = v := by simpa using h
            subst this
            exact absurd h2 hp
      have := ih (pre ++ [v]) set hmem' hnd (by rw [← hL]; exact hpw)
      simp only [List.filter_cons, hp]
      rw [hL]
      exact this

/-- Claim C13: `getCategories` returns the categories of the programs without
duplicates; a value is in the result exactly when it is truthy (not missing, not the
empty string) and is the category of some program; the values come in the order of
their first occurrence in `data.Programs`; and the result is empty when there is no
data or no Programs sheet. -/
theorem getCategories_unique (data : Option WorkbookData) :
    (getCategories data).Nodup ∧
    (data = none → getCategories data = []) ∧
    (∀ d, data = some d → d.Programs = none → getCategories data = []) ∧
    (∀ d programs, data = some d → d.Programs = some programs →
      (∀ v, v ∈ getCategories data ↔
        v.truthy = true ∧ ∃ p ∈ programs, Row.get p "category" = v) ∧
      (getCategories data).Pairwise (fun x y =>
        List.indexOf x (programs.map (fun program => Row.get program "category"))
          < List.indexOf y (programs.map (fun program => Row.get program "category")))) := by
  cases data with
  | none => simp [getCategories]
  | some d =>
    cases hp : d.Programs with
    | none =>
      refine ⟨by simp [getCategories, hp], by simp, by simp [getCategories, hp], ?_⟩
      intro d' programs' hd hprog
      have hd' : d' = d := (Option.some.inj hd).symm
      subst hd'
      rw [hp] at hprog
      exact absurd hprog (by simp)
    | some programs =>
      have key := foldl_insert_filter JSVal.truthy
        (programs.map (fun program => Row.get program "category")) [] []
        (by simp) (by simp) (by simp)
      simp only [List.nil_append] at key
      obtain ⟨hmem, hnd, hpw⟩ := key
      have hget : getCategories (some d) = arrayFromSet
          ((programs.map (fun program => Row.get program "category")).filter JSVal.truthy) := by
        simp [getCategories, hp]
      rw [hget]
      refine ⟨hnd, by simp, ?_, ?_⟩
      · intro d' hd hnone
        have hd' : d' = d := (Option.some.inj hd).symm
        subst hd'
        rw [hp] at hnone
        exact absurd hnone (by simp)
      intro d' programs' hd hprog
      have hd' : d' = d := (Option.some.inj hd).symm
      subst hd'
      rw [hp] at hprog
      have hpp : programs' = programs := (Option.some.inj hprog).symm
      subst hpp
      refine ⟨?_, hpw⟩
      intro v
      rw [show arrayFromSet ((programs'.map (fun program => Row.get program "category")).filter
          JSVal.truthy) = ((programs'.map (fun program => Row.get program "category")).filter
          JSVal.truthy).foldl (fun set v => if v ∈ set then set else set ++ [v]) [] from rfl,
        hmem v]
      constructor
      · rintro ⟨h1, h2⟩
        obtain ⟨p, hpm, hpv⟩ := List.mem_map.1 h1
        exact ⟨h2, p, hpm, hpv⟩
      · rintro ⟨h2, p, hpm, hpv⟩
        exact ⟨List.mem_map.2 ⟨p, hpm, hpv⟩, h2⟩

/-- The categories of `categoryData`: three distinct values, in the order VCES, GDC,
Commercial in which they first occur. -/
theorem getCategories_unique_witness :
    getCategories (some categoryData)
      = [JSVal.str "VCES", JSVal.str "GDC", JSVal.str "Commercial"] ∧
    (getCategories (some categoryData)).Nodup ∧
    ∀ v, v ∈ getCategories (some categoryData) ↔
      v.truthy = true ∧ ∃ p ∈ orEmpty categoryData.Programs, Row.get p "category" = v :=
  ⟨getCategories_categoryData, (getCategories_unique (some categoryData)).1,
    ((getCategories_unique (some categoryData)).2.2.2 categoryData
      (orEmpty categoryData.Programs) rfl rfl).1⟩

/-! ## githubService -/

theorem endsWith_iff (s suffix : String) :
    endsWith s suffix = true ↔ ∃ stem : String, s = stem ++ suffix := by
  unfold endsWith
  rw [List.isSuffixOf_iff_suffix]
  constructor
  · rintro ⟨l, hl⟩
    exact ⟨String.mk l, String.ext (by simpa [String.toList] using hl.symm)⟩
  · rintro ⟨stem, rfl⟩
    exact ⟨stem.toList, by simp [String.toList]⟩

theorem isExcelEntry_iff (file : GitHubEntry) :
    isExcelEntry file = true ↔
      file.type = "file" ∧
      ∃ ext ∈ [".xlsx", ".xls", ".xlsm", ".xlsb"], ∃ stem : String, file.name = stem ++ ext := by
  simp [isExcelEntry, endsWith_iff]
  intro _
  simp only [or_assoc]

theorem listExcelFiles_sampleListing :
    githubService.listExcelFiles (fun _ _ => Except.ok sampleListing) "kiosc" "finance" "" none
      = Except.ok
        [{ name := "budget.xlsx", path := "budget.xlsx", size := 1200, sha := "b2",
           downloadUrl := some "https://raw.example/budget.xlsx" },
         { name := "old.xls", path := "old.xls", size := 900, sha := "d4",
           downloadUrl := some "https://raw.example/old.xls" },
         { name := "macro.xlsm", path := "macro.xlsm", size := 70, sha := "g7",
           downloadUrl := some "https://raw.example/macro.xlsm" }] := by
  rfl

/-- Claim C14: when the API returns the directory listing `listing`, `listExcelFiles`
returns, in listing order, the entries of `listing` whose type is 'file' and whose
name ends with '.xlsx', '.xls', '.xlsm' or '.xlsb', and only those, each reduced to
its name, path, size, sha and download URL. -/
theorem listExcelFiles_excel_only
    (httpGet : String → List (String × String) → Except String (List GitHubEntry))
    (owner repo path : String) (token : Option String) (listing : List GitHubEntry)
    (h : httpGet (contentsUrl owner repo path) (authHeaders token) = Except.ok listing) :
    ∃ kept : List GitHubEntry,
      githubService.listExcelFiles httpGet owner repo path token
        = Except.ok (kept.map toExcelFileInfo) ∧
      kept = listing.filter isExcelEntry ∧
      kept.Sublist listing ∧
      (∀ e, e ∈ kept ↔ e ∈ listing ∧ e.type = "file" ∧
        ∃ ext ∈ [".xlsx", ".xls", ".xlsm", ".xlsb"], ∃ stem : String, e.name = stem ++ ext) ∧
      (∀ e, isExcelEntry e = true ↔ e.type = "file" ∧
        ∃ ext ∈ [".xlsx", ".xls", ".xlsm", ".xlsb"], ∃ stem : String, e.name = stem ++ ext) ∧
      (∀ e : GitHubEntry, (toExcelFileInfo e).name = e.name ∧ (toExcelFileInfo e).path = e.path ∧
        (toExcelFileInfo e).size = e.size ∧ (toExcelFileInfo e).sha = e.sha ∧
        (toExcelFileInfo e).downloadUrl = e.download_url) := by
  refine ⟨listing.filter isExcelEntry, by simp [githubService.listExcelFiles, h], rfl,
    List.filter_sublist listing, ?_, isExcelEntry_iff, fun e => ⟨rfl, rfl, rfl, rfl, rfl⟩⟩
  intro e
  rw [List.mem_filter, isExcelEntry_iff]

/-- The listing rule on `sampleListing`: of seven entries the three workbooks are
kept; the folder named archive.xlsx, the text file and REPORT.XLSX are not. -/
theorem listExcelFiles_excel_only_witness :
    (fun (_ : String) (_ : List (String × String)) =>
        (Except.ok sampleListing : Except String (List GitHubEntry)))
      (contentsUrl "kiosc" "finance" "") (authHeaders none) = Except.ok sampleListing ∧
    ∃ kept : List GitHubEntry,
      githubService.listExcelFiles (fun _ _ => Except.ok sampleListing) "kiosc" "finance" "" none
        = Except.ok (kept.map toExcelFileInfo) ∧
      kept = sampleListing.filter isExcelEntry ∧
      kept.Sublist sampleListing ∧
      (∀ e, e ∈ kept ↔ e ∈ sampleListing ∧ e.type = "file" ∧
        ∃ ext ∈ [".xlsx", ".xls", ".xlsm", ".xlsb"], ∃ stem : String, e.name = stem ++ ext) ∧
      (∀ e, isExcelEntry e = true ↔ e.type = "file" ∧
        ∃ ext ∈ [".xlsx", ".xls", ".xlsm", ".xlsb"], ∃ stem : String, e.name = stem ++ ext) ∧
      (∀ e : GitHubEntry, (toExcelFileInfo e).name = e.name ∧ (toExcelFileInfo e).path = e.path ∧
        (toExcelFileInfo e).size = e.size ∧ (toExcelFileInfo e).sha = e.sha ∧
        (toExcelFileInfo e).downloadUrl = e.download_url) :=
  ⟨rfl, listExcelFiles_excel_only (fun _ _ => Except.ok sampleListing) "kiosc" "finance" ""
    none sampleListing rfl⟩

/-- Claim C15: with a token that is missing, `null` or empty, `uploadExcelFile` fails
with 'GitHub token is required for uploading files' and sends no request; with a token
it sends one request, whose payload has a sha field exactly when the sha argument is
given (not `null` and not empty), and then with that value. -/
theorem uploadExcelFile_requires_token {Response : Type}
    (httpPut : PutRequest → Except String Response)
    (owner repo path content message : String) (sha token : Option String) :
    (token = none ∨ token = some "" →
      githubService.uploadExcelFile httpPut owner repo path content message sha token
        = (Except.error "GitHub token is required for uploading files", [])) ∧
    (truthyString token = false ↔ (token = none ∨ token = some "")) ∧
    (∀ t, token = some t → t ≠ "" →
      ∃ request : PutRequest,
        githubService.uploadExcelFile httpPut owner repo path content message sha token
          = (httpPut request, [request]) ∧
        request.url = contentsUrl owner repo path ∧
        request.headers = [("Authorization", "token " ++ t)] ∧
        request.payload.get "message" = JSVal.str message ∧
        request.payload.get "content" = JSVal.str content ∧
        request.payload.get "branch" = JSVal.str "main" ∧
        (Row.has request.payload "sha" = true ↔ truthyString sha = true) ∧
        (truthyString sha = true ↔ ∃ s, sha = some s ∧ s ≠ "") ∧
        (∀ s, sha = some s → s ≠ "" → request.payload.get "sha" = JSVal.str s)) := by
  refine ⟨?_, ?_, ?_⟩
  · rintro (h | h) <;> subst h <;> simp [githubService.uploadExcelFile]
  · cases token with
    | none => simp [truthyString]
    | some t => simp [truthyString]
  · intro t ht hne
    subst ht
    refine ⟨uploadRequest owner repo path content message sha t,
      by simp only [githubService.uploadExcelFile, if_neg hne], rfl, rfl, ?_⟩
    cases sha with
    | none => simp [uploadRequest, Row.get, Row.has, List.lookup, truthyString]
    | some s =>
      by_cases hs : s = ""
      · subst hs
        simp [uploadRequest, Row.get, Row.has, List.lookup, truthyString]
      · simp [uploadRequest, Row.get, Row.has, List.lookup, truthyString, hs, Row.set]

/-- The token rule on two calls: one without token, one with a token and a sha. -/
theorem uploadExcelFile_requires_token_witness :
    githubService.uploadExcelFile (fun _ => (Except.ok "created" : Except String String))
        "kiosc" "finance" "data.xlsx" "QUJD" "update" (some "abc123") none
      = (Except.error "GitHub token is required for uploading files", []) ∧
    ∃ request : PutRequest,
      githubService.uploadExcelFile (fun _ => (Except.ok "created" : Except String String))
          "kiosc" "finance" "data.xlsx" "QUJD" "update" (some "abc123") (some "ghp_1")
        = (Except.ok "created", [request]) ∧
      request.payload.get "sha" = JSVal.str "abc123" :=
  ⟨(uploadExcelFile_requires_token (fun _ => (Except.ok "created" : Except String String))
      "kiosc" "finance" "data.xlsx" "QUJD" "update" (some "abc123") none).1 (Or.inl rfl),
    by
      obtain ⟨request, h1, _, _, _, _, _, _, _, h2⟩ :=
        (uploadExcelFile_requires_token (fun _ => (Except.ok "created" : Except String String))
          "kiosc" "finance" "data.xlsx" "QUJD" "update" (some "abc123") (some "ghp_1")).2.2
          "ghp_1" rfl (by decide)
      exact ⟨request, h1, h2 "abc123" rfl (by decide)⟩⟩

/-! ## ProtectedRoute -/

theorem hasPermission_iff (auth : AuthState) (permission : String) :
    hasPermission auth permission = true ↔
      ∃ user permissions, auth.currentUser = some user ∧
        user.permissions = some permissions ∧ permission ∈ permissions := by
  unfold hasPermission
  cases auth.currentUser with
  | none => simp
  | some user =>
    cases hp : user.permissions with
    | none => simp [hp]
    | some permissions => simp [hp]

theorem hasRole_iff (auth : AuthState) (role : String) :
    hasRole auth role = true ↔ ∃ user, auth.currentUser = some user ∧ user.role = role := by
  unfold hasRole
  cases auth.currentUser with
  | none => simp
  | some user => simp

/-- Counterexample to claim C16 as stated: in the initial state of `AuthProvider` the
user is not authenticated, and `ProtectedRoute` shows the loading spinner, not the
redirect to /login. -/
theorem protectedRoute_loading_counterexample :
    initialAuth.isAuthenticated = false ∧
    ProtectedRoute initialAuth [] none Page.Dashboard
      = Guarded.spinner "Verifying authentication..." ∧
    ProtectedRoute initialAuth [] none Page.Dashboard ≠ Guarded.navigate "/login" := by
  decide

/-- Claim C16, amended: `ProtectedRoute` renders its children if and only if
authentication is not loading, the user is authenticated, the current user holds every
permission in `requiredPermissions`, and `requiredRole` is absent (`null` or empty) or
is the role of the current user; and once authentication is not loading, an
unauthenticated user is redirected to /login whatever permissions or role are
required. -/
theorem protectedRoute_renders_children_iff {α : Type} (auth : AuthState)
    (requiredPermissions : List String) (requiredRole : Option String) (children : α) :
    (ProtectedRoute auth requiredPermissions requiredRole children = Guarded.children children ↔
      auth.loading = false ∧ auth.isAuthenticated = true ∧
      (∀ permission ∈ requiredPermissions,
        ∃ user permissions, auth.currentUser = some user ∧
          user.permissions = some permissions ∧ permission ∈ permissions) ∧
      (requiredRole = none ∨ requiredRole = some "" ∨
        ∃ role user, requiredRole = some role ∧ auth.currentUser = some user ∧
          user.role = role)) ∧
    (auth.loading = false → auth.isAuthenticated = false →
      ProtectedRoute auth requiredPermissions requiredRole children
        = Guarded.navigate "/login") := by
  constructor
  · simp only [← hasPermission_iff]
    unfold ProtectedRoute
    cases hl : auth.loading
    · cases ha : auth.isAuthenticated
      · simp
      · by_cases hperm : ∀ permission ∈ requiredPermissions,
            hasPermission auth permission = true
        · have hall : requiredPermissions.all (fun permission => hasPermission auth permission)
              = true := by simpa [List.all_eq_true] using hperm
          cases requiredRole with
          | none =>
            simp [hall]
            exact hperm
          | some role =>
            by_cases hr : role = ""
            · simp [hall, hr]
              exact hperm
            · by_cases hh : hasRole auth role = true
              · have := (hasRole_iff auth role).1 hh
                simp [hall, hr, hh]
                exact ⟨hperm, this⟩
              · have hh' : hasRole auth role = false := by simpa using hh
                have hno : ¬ ∃ user, auth.currentUser = some user ∧ user.role = role :=
                  fun h => hh ((hasRole_iff auth role).2 h)
                simp [hall, hr, hh']
                intro _ user hu hrole
                exact hno ⟨user, hu, hrole⟩
        · have hall : requiredPermissions.all (fun permission => hasPermission auth permission)
              = false := by
            cases hx : requiredPermissions.all (fun permission => hasPermission auth permission)
            · rfl
            · exact absurd (by simpa [List.all_eq_true] using hx) hperm
          have hlen : requiredPermissions.length > 0 := by
            cases requiredPermissions with
            | nil => exact absurd (by simp) hperm
            | cons p ps => simp
          simp [hall, hlen, hperm]
    · simp
  · intro hl ha
    simp [ProtectedRoute, hl, ha]

/-- The rule of `ProtectedRoute` on the admin session and on the regular session, both
asking for the permission and the role `admin`. -/
theorem protectedRoute_renders_children_iff_witness :
    ProtectedRoute adminSession ["admin"] (some "admin") Page.AdminPanel
      = Guarded.children Page.AdminPanel ∧
    ProtectedRoute regularSession ["admin"] (some "admin") Page.AdminPanel
      ≠ Guarded.children Page.AdminPanel :=
  ⟨(protectedRoute_renders_children_iff adminSession ["admin"] (some "admin")
      Page.AdminPanel).1.2
      ⟨rfl, rfl, by simp [adminSession, adminUser],
        Or.inr (Or.inr ⟨"admin", adminUser, rfl, rfl, rfl⟩)⟩,
    fun h => by
      have := ((protectedRoute_renders_children_iff regularSession ["admin"] (some "admin")
        Page.AdminPanel).1.1 h).2.2.1 "admin" (by simp)
      simp [regularSession, regularUser] at this⟩

/-! ## login -/

/-- The mock user `admin` as `login` stores it in the state used below. -/
theorem login_admin_storage_failure :
    login "2024-06-01T09:00:00.000Z" false initialAuth none "admin" "admin123"
      = (false,
          { currentUser := some adminUser, isAuthenticated := true, loading := false,
            error := "An error occurred during login" },
          none) := by
  decide

theorem login_regular_user :
    login "2024-06-01T09:00:00.000Z" true initialAuth none "user" "user123"
      = (true, regularSession, some regularUser) := by
  decide

/-- Counterexample to claim C17 as stated: `admin` / `admin123` are the username and
password of an active mock user, but when `localStorage.setItem` throws, `login`
returns false, and on that failure the current user and the authenticated flag have
been changed. -/
theorem login_storage_failure_counterexample :
    (∃ u ∈ mockUsers, u.active = true ∧ u.username = "admin" ∧ u.password = some "admin123") ∧
    (login "2024-06-01T09:00:00.000Z" false initialAuth none "admin" "admin123").1 = false ∧
    (login "2024-06-01T09:00:00.000Z" false initialAuth none "admin" "admin123").2.1.currentUser
      ≠ initialAuth.currentUser ∧
    (login "2024-06-01T09:00:00.000Z" false initialAuth none "admin" "admin123").2.1.isAuthenticated
      ≠ initialAuth.isAuthenticated := by
  rw [login_admin_storage_failure]
  decide

/-- Claim C17, amended: `login(username, password)` returns true if and only if some
mock user is active and has exactly that username and that password, and the user
could be written to localStorage; on success the user stored as current user and
written to localStorage is that mock user without its password field; and when no
mock user matches, `login` returns false and leaves the current user, the
authenticated flag and localStorage unchanged. -/
theorem login_correct (now : String) (storageWritable : Bool) (auth : AuthState)
    (storedUser : Option User) (username password : String) :
    ((login now storageWritable auth storedUser username password).1 = true ↔
      (∃ u ∈ mockUsers, u.active = true ∧ u.username = username ∧ u.password = some password) ∧
      storageWritable = true) ∧
    ((login now storageWritable auth storedUser username password).1 = true →
      ∃ u ∈ mockUsers, u.active = true ∧ u.username = username ∧ u.password = some password ∧
        (login now storageWritable auth storedUser username password).2.1.currentUser
          = some { u with password := none, lastLogin := now } ∧
        (login now storageWritable auth storedUser username password).2.2
          = some { u with password := none, lastLogin := now } ∧
        (login now storageWritable auth storedUser username password).2.1.isAuthenticated
          = true) ∧
    ((¬ ∃ u ∈ mockUsers, u.active = true ∧ u.username = username ∧ u.password = some password) →
      (login now storageWritable auth storedUser username password).1 = false ∧
      (login now storageWritable auth storedUser username password).2.1.currentUser
        = auth.currentUser ∧
      (login now storageWritable auth storedUser username password).2.1.isAuthenticated
        = auth.isAuthenticated ∧
      (login now storageWritable auth storedUser username password).2.2 = storedUser) := by
  cases hfind : mockUsers.find?
      (fun u => decide (u.username = username) && decide (u.password = some password)
        && u.active) with
  | none =>
    have hno : ¬ ∃ u ∈ mockUsers, u.active = true ∧ u.username = username ∧
        u.password = some password := by
      rintro ⟨u, hu, ha, hn, hp⟩
      have := List.find?_eq_none.1 hfind u hu
      simp [ha, hn, hp] at this
    have hlogin : login now storageWritable auth storedUser username password
        = (false,
            { currentUser := auth.currentUser, isAuthenticated := auth.isAuthenticated,
              loading := false, error := "Invalid username or password" },
            storedUser) := by
      simp only [login, hfind]
    rw [hlogin]
    refine ⟨?_, ?_, ?_⟩
    · constructor
      · intro h; exact absurd h (by simp)
      · rintro ⟨h, _⟩; exact absurd h hno
    · intro h; exact absurd h (by simp)
    · intro _; exact ⟨rfl, rfl, rfl, rfl⟩
  | some user =>
    have hmem : user ∈ mockUsers := List.mem_of_find?_eq_some hfind
    have hp := List.find?_some hfind
    simp only [Bool.and_eq_true, decide_eq_true_eq] at hp
    obtain ⟨⟨hn, hpw⟩, ha⟩ := hp
    have hyes : ∃ u ∈ mockUsers, u.active = true ∧ u.username = username ∧
        u.password = some password := ⟨user, hmem, ha, hn, hpw⟩
    cases storageWritable with
    | true =>
      have hlogin : login now true auth storedUser username password
          = (true,
              { currentUser := some { user with password := none, lastLogin := now },
                isAuthenticated := true, loading := false, error := "" },
              some { user with password := none, lastLogin := now }) := by
        simp only [login, hfind, if_true]
      rw [hlogin]
      refine ⟨?_, ?_, ?_⟩
      · exact ⟨fun _ => ⟨hyes, rfl⟩, fun _ => rfl⟩
      · intro _; exact ⟨user, hmem, ha, hn, hpw, rfl, rfl, rfl⟩
      · intro h; exact absurd hyes h
    | false =>
      have hlogin : login now false auth storedUser username password
          = (false,
              { currentUser := some { user with password := none, lastLogin := now },
                isAuthenticated := true, loading := false,
                error := "An error occurred during login" },
              storedUser) := by
        simp only [login, hfind]
        rfl
      rw [hlogin]
      refine ⟨?_, ?_, ?_⟩
      · constructor
        · intro h; exact absurd h (by simp)
        · rintro ⟨_, h⟩; exact absurd h (by simp)
      · intro h; exact absurd h (by simp)
      · intro h; exact absurd hyes h

/-- The login rule at `user` / `user123`: the login succeeds and the stored user has
no password. -/
theorem login_correct_witness :
    (login "2024-06-01T09:00:00.000Z" true initialAuth none "user" "user123").1 = true ∧
    ∃ u ∈ mockUsers, u.active = true ∧ u.username = "user" ∧ u.password = some "user123" ∧
      (login "2024-06-01T09:00:00.000Z" true initialAuth none "user" "user123").2.1.currentUser
        = some { u with password := none, lastLogin := "2024-06-01T09:00:00.000Z" } ∧
      (login "2024-06-01T09:00:00.000Z" true initialAuth none "user" "user123").2.2
        = some { u with password := none, lastLogin := "2024-06-01T09:00:00.000Z" } ∧
      (login "2024-06-01T09:00:00.000Z" true initialAuth none "user" "user123").2.1.isAuthenticated
        = true :=
  ⟨by rw [login_regular_user],
    (login_correct "2024-06-01T09:00:00.000Z" true initialAuth none "user" "user123").2.1
      (by rw [login_regular_user])⟩

/-! ## The Admin Panel -/

/-- Evaluation for claim C18: `user` (permissions read and write) logs in; the
navigation menu has no Admin Panel entry, yet at the path /admin `AppRouter` renders
`AdminPanel` inside the layout, because the route is guarded by `PrivateRoute` only. -/
theorem admin_route_open_to_regular_user :
    login "2024-06-01T09:00:00.000Z" true initialAuth none "user" "user123"
      = (true, regularSession, some regularUser) ∧
    regularSession.isAuthenticated = true ∧
    hasPermission regularSession "admin" = false ∧
    (∀ item ∈ getMenuItems regularSession, item.text ≠ "Admin Panel" ∧ item.path ≠ "/admin") ∧
    AppRouter regularSession ["admin"]
      = AppView.guarded (Guarded.children
          { menu := getMenuItems regularSession, outlet := Outlet.page Page.AdminPanel }) ∧
    ProtectedRoute regularSession ["admin"] none Page.AdminPanel
      = Guarded.alert "You don't have the required permissions to access this page." := by
  refine ⟨login_regular_user, rfl, by decide, by decide, by decide, by decide⟩

/-! ## The calendar grid -/

theorem map_range_none (n : Nat) :
    (List.range n).map (fun _ => (none : Option Nat)) = List.replicate n none := by
  induction n with
  | zero => rfl
  | succ n ih => rw [List.range_succ, List.map_append, ih, List.replicate_succ']; rfl

theorem getDaysInMonth_range (year month : Int) :
    28 ≤ getDaysInMonth year month ∧ getDaysInMonth year month ≤ 31 := by
  unfold getDaysInMonth
  simp only []
  split
  · split <;> omega
  · split <;> omega

theorem getFirstDayOfMonth_range (year month : Int) : getFirstDayOfMonth year month ≤ 6 := by
  unfold getFirstDayOfMonth
  simp only []
  omega

/-- Claim C19: for a first weekday f in 0..6 and a month length d in 28..31 the
calendar grid is f empty cells, the day numbers 1..d in increasing order, and
42 - f - d empty cells, 42 cells in all, and f + d does not exceed 42; the two
helpers return values in these ranges, so the grid of every displayed month has 42
cells. -/
theorem calendarDays_grid (f d : Nat) (hf : f ≤ 6) (hd28 : 28 ≤ d) (hd31 : d ≤ 31) :
    calendarArray d f
      = List.replicate f none ++ (List.range' 1 d).map some ++ List.replicate (42 - f - d) none ∧
    (calendarArray d f).length = 42 ∧
    f + d ≤ 42 ∧
    (∀ i, i < f → (calendarArray d f)[i]? = some none) ∧
    (∀ k, k < d → (calendarArray d f)[f + k]? = some (some (k + 1))) ∧
    (∀ i, f + d ≤ i → i < 42 → (calendarArray d f)[i]? = some none) ∧
    (∀ year month : Int,
      getFirstDayOfMonth year month ≤ 6 ∧ 28 ≤ getDaysInMonth year month ∧
      getDaysInMonth year month ≤ 31 ∧ (calendarDays year month).length = 42) := by
  have hrem : ((42 : Int) - ((List.map (fun _ => (none : Option Nat)) (List.range f) ++
      List.map some (List.range' 1 d)).length : Int)).toNat = 42 - f - d := by
    simp
    omega
  have hgrid : calendarArray d f
      = List.replicate f none ++ (List.range' 1 d).map some
        ++ List.replicate (42 - f - d) none := by
    unfold calendarArray
    simp only []
    rw [hrem, map_range_none, map_range_none]
  have hlen : ∀ f' d', f' ≤ 6 → 28 ≤ d' → d' ≤ 31 → (calendarArray d' f').length = 42 := by
    intro f' d' h1 h2 h3
    unfold calendarArray
    simp
    omega
  refine ⟨hgrid, hlen f d hf hd28 hd31, by omega, ?_, ?_, ?_, ?_⟩
  · intro i hi
    rw [hgrid, List.append_assoc, List.getElem?_append_left (by simpa using hi)]
    simp [List.getElem?_replicate, hi]
  · intro k hk
    rw [hgrid, List.append_assoc, List.getElem?_append_right (by simp)]
    simp only [List.length_replicate, Nat.add_sub_cancel_left]
    rw [List.getElem?_append_left (by simpa using hk)]
    simp [List.getElem?_range', hk, Nat.add_comm]
  · intro i h1 h2
    rw [hgrid, List.getElem?_append_right (by simp; omega)]
    simp [List.getElem?_replicate]
    omega
  · intro year month
    have h1 := getFirstDayOfMonth_range year month
    have h2 := getDaysInMonth_range year month
    exact ⟨h1, h2.1, h2.2, hlen _ _ h1 h2.1 h2.2⟩

/-- The grid of a 31-day month that starts on a Saturday: 6 empty cells, the days 1 to
31 and 5 empty cells. -/
theorem calendarDays_grid_witness :
    (6 : Nat) ≤ 6 ∧ 28 ≤ (31 : Nat) ∧ (31 : Nat) ≤ 31 ∧
    calendarArray 31 6
      = List.replicate 6 none ++ (List.range' 1 31).map some ++ List.replicate (42 - 6 - 31) none ∧
    (calendarArray 31 6).length = 42 :=
  ⟨by decide, by decide, by decide,
    (calendarDays_grid 6 31 (by decide) (by decide) (by decide)).1,
    (calendarDays_grid 6 31 (by decide) (by decide) (by decide)).2.1⟩

/-! ## Month navigation -/

/-- Claim C20: from a month in 0..11, `handlePrevMonth` and `handleNextMonth` keep the
month in 0..11 and move the (year, month) pair by exactly one calendar month: December
goes to January of the next year, January to December of the previous year, and the
year is unchanged otherwise; each handler undoes the other. -/
theorem month_navigation (s : CalendarState) (h0 : 0 ≤ s.currentMonth)
    (h11 : s.currentMonth ≤ 11) :
    (0 ≤ (handlePrevMonth s).currentMonth ∧ (handlePrevMonth s).currentMonth ≤ 11) ∧
    (0 ≤ (handleNextMonth s).currentMonth ∧ (handleNextMonth s).currentMonth ≤ 11) ∧
    (handleNextMonth s).currentYear * 12 + (handleNextMonth s).currentMonth
      = s.currentYear * 12 + s.currentMonth + 1 ∧
    (handlePrevMonth s).currentYear * 12 + (handlePrevMonth s).currentMonth
      = s.currentYear * 12 + s.currentMonth - 1 ∧
    (s.currentMonth = 11 →
      handleNextMonth s = { currentMonth := 0, currentYear := s.currentYear + 1 }) ∧
    (s.currentMonth ≠ 11 →
      handleNextMonth s
        = { currentMonth := s.currentMonth + 1, currentYear := s.currentYear }) ∧
    (s.currentMonth = 0 →
      handlePrevMonth s = { currentMonth := 11, currentYear := s.currentYear - 1 }) ∧
    (s.currentMonth ≠ 0 →
      handlePrevMonth s
        = { currentMonth := s.currentMonth - 1, currentYear := s.currentYear }) ∧
    handlePrevMonth (handleNextMonth s) = s ∧
    handleNextMonth (handlePrevMonth s) = s := by
  have hnext11 : s.currentMonth = 11 →
      handleNextMonth s = { currentMonth := 0, currentYear := s.currentYear + 1 } := by
    intro h; simp [handleNextMonth, h]
  have hnext : s.currentMonth ≠ 11 →
      handleNextMonth s = { currentMonth := s.currentMonth + 1, currentYear := s.currentYear } := by
    intro h; simp [handleNextMonth, h]
  have hprev0 : s.currentMonth = 0 →
      handlePrevMonth s = { currentMonth := 11, currentYear := s.currentYear - 1 } := by
    intro h; simp [handlePrevMonth, h]
  have hprev : s.currentMonth ≠ 0 →
      handlePrevMonth s = { currentMonth := s.currentMonth - 1, currentYear := s.currentYear } := by
    intro h; simp [handlePrevMonth, h]
  refine ⟨?_, ?_, ?_, ?_, hnext11, hnext, hprev0, hprev, ?_, ?_⟩
  · by_cases h : s.currentMonth = 0
    · rw [hprev0 h]; simp
    · rw [hprev h]; simp; omega
  · by_cases h : s.currentMonth = 11
    · rw [hnext11 h]; simp
    · rw [hnext h]; simp; omega
  · by_cases h : s.currentMonth = 11
    · rw [hnext11 h]; simp; omega
    · rw [hnext h]; simp; omega
  · by_cases h : s.currentMonth = 0
    · rw [hprev0 h]; simp; omega
    · rw [hprev h]; simp; omega
  · by_cases h : s.currentMonth = 11
    · rw [hnext11 h]
      cases s
      simp_all [handlePrevMonth]
    · rw [hnext h]
      have : s.currentMonth + 1 ≠ 0 := by omega
      cases s
      simp_all [handlePrevMonth]
  · by_cases h : s.currentMonth = 0
    · rw [hprev0 h]
      cases s
      simp_all [handleNextMonth]
    · rw [hprev h]
      have : s.currentMonth - 1 ≠ 11 := by omega
      cases s
      simp_all [handleNextMonth]

/-- Month navigation across the year boundary, from December 2024 and from January
2025. -/
theorem month_navigation_witness :
    handleNextMonth { currentMonth := 11, currentYear := 2024 }
      = { currentMonth := 0, currentYear := 2025 } ∧
    handlePrevMonth { currentMonth := 0, currentYear := 2025 }
      = { currentMonth := 11, currentYear := 2024 } ∧
    handlePrevMonth (handleNextMonth { currentMonth := 11, currentYear := 2024 })
      = { currentMonth := 11, currentYear := 2024 } :=
  ⟨(month_navigation { currentMonth := 11, currentYear := 2024 } (by decide) (by decide)).2.2.2.2.1
      rfl,
    (month_navigation { currentMonth := 0, currentYear := 2025 } (by decide)
      (by decide)).2.2.2.2.2.2.1 rfl,
    (month_navigation { currentMonth := 11, currentYear := 2024 } (by decide)
      (by decide)).2.2.2.2.2.2.2.2.1⟩

/-! ## The week array -/

theorem map_range_succ {α : Type} (g : Nat → α) (n : Nat) :
    (List.range (n + 1)).map g = (List.range n).map g ++ [g n] := by
  rw [List.range_succ, List.map_append]
  rfl

theorem weekInvariant_init (year month : Int) (f d : Nat) (hf : f ≤ 6) :
    WeekInvariant year month f d 0
      ([], (List.range f).map (fun _ => (none : Option SimpleDate))) := by
  refine ⟨rfl, ?_, by simp, by simp; omega, by omega⟩
  simp only [List.length_map, List.length_range, List.length_nil, Nat.mul_zero, Nat.zero_add]
  apply List.map_congr_left
  intro j hj
  have hj' : j < f := List.mem_range.1 hj
  have hn : ¬ (f ≤ j ∧ j < f + d) := by omega
  simp only [weekCell, if_neg hn]

theorem weekInvariant_step (year month : Int) (f d k : Nat)
    (state : List (List (Option SimpleDate)) × List (Option SimpleDate))
    (h : WeekInvariant year month f d k state) (hk : k < d) :
    WeekInvariant year month f d (k + 1) (weekLoopStep year month state (k + 1)) := by
  obtain ⟨weeks, week⟩ := state
  obtain ⟨hweeks, hweek, hpos, hle, _⟩ := h
  simp only at hweeks hweek hpos hle
  have hcell : ∀ p, p = f + k →
      weekCell year month f d p = some (newDate year month (k + 1)) := by
    intro p hp
    subst hp
    have h1 : f ≤ f + k ∧ f + k < f + d := ⟨by omega, by omega⟩
    simp [weekCell, h1]
  by_cases hfull : week.length = 7
  · -- the week is full: it is row `weeks.length`
    have hrow : week = weekRow year month f d weeks.length := by
      rw [hweek, hfull]
      rfl
    have hstep : weekLoopStep year month (weeks, week) (k + 1)
        = (weeks ++ [week], [some (newDate year month (k + 1))]) := by
      simp [weekLoopStep, hfull]
    rw [hstep]
    refine ⟨?_, ?_, ?_, by simp, fun _ => by simp⟩
    · simp only [List.length_append, List.length_singleton]
      rw [map_range_succ, ← hweeks, ← hrow]
    · simp only [List.length_append, List.length_singleton]
      rw [map_range_succ]
      simp only [List.range_zero, List.map_nil, List.nil_append, Nat.add_zero]
      rw [hcell _ (by omega)]
    · simp only [List.length_append, List.length_singleton]
      omega
  · have hstep : weekLoopStep year month (weeks, week) (k + 1)
        = (weeks, week ++ [some (newDate year month (k + 1))]) := by
      simp [weekLoopStep, hfull]
    rw [hstep]
    refine ⟨hweeks, ?_, ?_, ?_, fun _ => by simp⟩
    · simp only [List.length_append, List.length_singleton]
      rw [map_range_succ, ← hweek, hcell _ (by omega)]
    · simp only [List.length_append, List.length_singleton]
      omega
    · simp only [List.length_append, List.length_singleton]
      omega

theorem weekInvariant_loop (year month : Int) (f d : Nat) :
    ∀ (n k : Nat) (state : List (List (Option SimpleDate)) × List (Option SimpleDate)),
      k + n ≤ d → WeekInvariant year month f d k state →
      WeekInvariant year month f d (k + n)
        ((List.range' (k + 1) n).foldl (weekLoopStep year month) state) := by
  intro n
  induction n with
  | zero => intro k state _ h; simpa using h
  | succ n ih =>
    intro k state hkn h
    rw [List.range'_succ, List.foldl_cons]
    have := ih (k + 1) _ (by omega) (weekInvariant_step year month f d k state h (by omega))
    rw [show k + (n + 1) = k + 1 + n by omega]
    exact this

theorem map_range_split {α : Type} (g : Nat → α) (n len : Nat) (h : len ≤ n) :
    (List.range n).map g
      = (List.range len).map g ++ (List.range (n - len)).map (fun j => g (len + j)) := by
  have hn : List.range n = List.range (len + (n - len)) := by
    congr 1
    omega
  rw [hn, List.range_add, List.map_append, List.map_map]
  rfl

/-- The array that `getWeekArray` builds, for first weekday `f` and month length `d`:
row after row of the grid, (f + d + 6) / 7 rows in all. -/
theorem weekArray_rows (year month : Int) (f d : Nat) (hf : f ≤ 6) (hd : 1 ≤ d) :
    ((List.range' 1 d).foldl (weekLoopStep year month)
        ([], (List.range f).map (fun _ => (none : Option SimpleDate)))).1 ++
      [((List.range' 1 d).foldl (weekLoopStep year month)
          ([], (List.range f).map (fun _ => (none : Option SimpleDate)))).2 ++
        (List.range (7 - ((List.range' 1 d).foldl (weekLoopStep year month)
          ([], (List.range f).map (fun _ => (none : Option SimpleDate)))).2.length)).map
          (fun _ => none)]
      = (List.range ((f + d + 6) / 7)).map (weekRow year month f d) := by
  have inv := weekInvariant_loop year month f d d 0 _ (by omega)
    (weekInvariant_init year month f d hf)
  simp only [Nat.zero_add] at inv
  generalize (List.range' 1 d).foldl (weekLoopStep year month)
    ([], (List.range f).map (fun _ => (none : Option SimpleDate))) = filled at inv
  obtain ⟨weeks, week⟩ := filled
  obtain ⟨hweeks, hweek, hpos, hle, hne⟩ := inv
  simp only at hweeks hweek hpos hle hne ⊢
  have hlen1 := hne hd
  have hpad : week ++ (List.range (7 - week.length)).map (fun _ => (none : Option SimpleDate))
      = weekRow year month f d weeks.length := by
    unfold weekRow
    rw [map_range_split _ 7 week.length hle, ← hweek]
    congr 1
    apply List.map_congr_left
    intro j hj
    have hn : ¬ (f ≤ 7 * weeks.length + (week.length + j) ∧
        7 * weeks.length + (week.length + j) < f + d) := by omega
    simp only [weekCell, if_neg hn]
  rw [hpad]
  have hcount : (f + d + 6) / 7 = weeks.length + 1 := by omega
  rw [hcount, map_range_succ, ← hweeks]

theorem getElem?_weekRows (year month : Int) (f d n i j : Nat) (hi : i < n) (hj : j < 7) :
    ∃ w, ((List.range n).map (weekRow year month f d))[i]? = some w ∧
      w.length = 7 ∧ w[j]? = some (weekCell year month f d (7 * i + j)) := by
  refine ⟨weekRow year month f d i, by simp [hi], by simp [weekRow], ?_⟩
  simp [weekRow, hj]

theorem getDay_newDate (year month : Int) (k : Nat) (hk : 1 ≤ k) :
    (newDate year month k).getDay = ((newDate year month 1).getDay + (k - 1)) % 7 := by
  simp only [SimpleDate.getDay, newDate, daysFromCivil]
  split <;> omega

theorem flatten_weekRows (year month : Int) (f d : Nat) :
    ∀ n, ((List.range n).map (weekRow year month f d)).flatten
      = (List.range (7 * n)).map (weekCell year month f d) := by
  intro n
  induction n with
  | zero => rfl
  | succ n ih =>
    rw [map_range_succ, List.flatten_append, ih,
      map_range_split (weekCell year month f d) (7 * (n + 1)) (7 * n) (by omega)]
    have h7 : 7 * (n + 1) - 7 * n = 7 := by omega
    rw [h7]
    simp [weekRow]

theorem map_weekCell_range (year month : Int) (f d total : Nat) (h : f + d ≤ total) :
    (List.range total).map (weekCell year month f d)
      = List.replicate f none ++ (List.range' 1 d).map (fun k => some (newDate year month k))
        ++ List.replicate (total - f - d) none := by
  rw [map_range_split (weekCell year month f d) total f (by omega),
    map_range_split (fun j => weekCell year month f d (f + j)) (total - f) d (by omega),
    ← List.append_assoc]
  congr 1
  · congr 1
    · rw [List.eq_replicate_iff]
      refine ⟨by simp, ?_⟩
      intro c hc
      obtain ⟨j, hj, rfl⟩ := List.mem_map.1 hc
      have hj' := List.mem_range.1 hj
      have hn : ¬ (f ≤ j ∧ j < f + d) := by omega
      simp only [weekCell, if_neg hn]
    · rw [List.range'_eq_map_range, List.map_map]
      apply List.map_congr_left
      intro j hj
      have hj' := List.mem_range.1 hj
      have hp : f ≤ f + j ∧ f + j < f + d := ⟨by omega, by omega⟩
      simp only [weekCell, if_pos hp, Function.comp]
      congr 2
      omega
  · rw [List.eq_replicate_iff]
    refine ⟨by simp, ?_⟩
    intro c hc
    obtain ⟨j, hj, rfl⟩ := List.mem_map.1 hc
    have hn : ¬ (f ≤ f + (d + j) ∧ f + (d + j) < f + d) := by omega
    simp only [weekCell, if_neg hn]

theorem newDate_day_injective (year month : Int) (k k' : Nat)
    (h : newDate year month k = newDate year month k') : k = k' := by
  have := congrArg SimpleDate.day h
  simpa [newDate] using this

/-- The array of `getWeekArray` is the grid for the first weekday and the length of the
month of `date`. -/
theorem getWeekArray_eq_rows (date : SimpleDate) :
    SimpleDateAdapter.getWeekArray date
      = (List.range (((newDate date.year date.month 1).getDay
            + SimpleDateAdapter.getDaysInMonth date + 6) / 7)).map
          (weekRow date.year date.month (newDate date.year date.month 1).getDay
            (SimpleDateAdapter.getDaysInMonth date)) := by
  have hf : (newDate date.year date.month 1).getDay ≤ 6 :=
    getFirstDayOfMonth_range date.year date.month
  have hd : 1 ≤ SimpleDateAdapter.getDaysInMonth date := by
    have := (getDaysInMonth_range date.year date.month).1
    unfold SimpleDateAdapter.getDaysInMonth
    omega
  exact weekArray_rows date.year date.month _ _ hf hd

/-- The week array in general: for `f` the weekday of `new Date(year, month, 1)`
(Sunday = 0) and `d` the number of days that `getDaysInMonth(date)` returns,
`getWeekArray(date)` has ceil((f + d) / 7) = (f + d + 6) / 7 weeks of exactly 7 cells
each; read row by row the cells are f nulls, the dates `new Date(year, month, k)` for
k = 1..d in increasing order, then nulls; no week is entirely empty; the date of day k
is at week (f + k - 1) / 7 in column (f + k - 1) % 7, which is its weekday, and nowhere
else; and outside the years 0..99 these dates are the days of the month of `date`. -/
theorem getWeekArray_weeks (date : SimpleDate) (f d : Nat)
    (hf : f = (newDate date.year date.month 1).getDay)
    (hd : d = SimpleDateAdapter.getDaysInMonth date) :
    f ≤ 6 ∧ 28 ≤ d ∧ d ≤ 31 ∧
    (∀ w ∈ SimpleDateAdapter.getWeekArray date, w.length = 7) ∧
    (SimpleDateAdapter.getWeekArray date).length = (f + d + 6) / 7 ∧
    f + d ≤ 7 * (SimpleDateAdapter.getWeekArray date).length ∧
    7 * (SimpleDateAdapter.getWeekArray date).length < f + d + 7 ∧
    (SimpleDateAdapter.getWeekArray date).flatten
      = List.replicate f none
        ++ (List.range' 1 d).map (fun k => some (newDate date.year date.month k))
        ++ List.replicate (7 * (SimpleDateAdapter.getWeekArray date).length - f - d) none ∧
    (∀ w ∈ SimpleDateAdapter.getWeekArray date, ∃ c ∈ w, c ≠ none) ∧
    (∀ k, 1 ≤ k → k ≤ d →
      ∃ w, (SimpleDateAdapter.getWeekArray date)[(f + k - 1) / 7]? = some w ∧
        w[(f + k - 1) % 7]? = some (some (newDate date.year date.month k)) ∧
        (newDate date.year date.month k).getDay = (f + k - 1) % 7) ∧
    (∀ (i j : Nat) (w : List (Option SimpleDate)) (cell : SimpleDate),
      (SimpleDateAdapter.getWeekArray date)[i]? = some w → w[j]? = some (some cell) →
      ∃ k, 1 ≤ k ∧ k ≤ d ∧ cell = newDate date.year date.month k ∧
        i = (f + k - 1) / 7 ∧ j = (f + k - 1) % 7) ∧
    ((date.year < 0 ∨ 99 < date.year) → 0 ≤ date.month → date.month ≤ 11 →
      ∀ k : Nat, newDate date.year date.month k
        = { year := date.year, month := date.month, day := k }) := by
  have hf6 : f ≤ 6 := by rw [hf]; exact getFirstDayOfMonth_range date.year date.month
  have hdr : 28 ≤ d ∧ d ≤ 31 := by
    rw [hd]; exact getDaysInMonth_range date.year date.month
  have hrows : SimpleDateAdapter.getWeekArray date
      = (List.range ((f + d + 6) / 7)).map (weekRow date.year date.month f d) := by
    rw [hf, hd]; exact getWeekArray_eq_rows date
  have hlen : (SimpleDateAdapter.getWeekArray date).length = (f + d + 6) / 7 := by
    rw [hrows]; simp
  refine ⟨hf6, hdr.1, hdr.2, ?_, hlen, by omega, by omega, ?_, ?_, ?_, ?_, ?_⟩
  · intro w hw
    rw [hrows] at hw
    obtain ⟨i, _, rfl⟩ := List.mem_map.1 hw
    simp [weekRow]
  · rw [hlen, hrows, flatten_weekRows]
    exact map_weekCell_range date.year date.month f d _ (by omega)
  · intro w hw
    rw [hrows] at hw
    obtain ⟨i, hi, rfl⟩ := List.mem_map.1 hw
    have hi' : i < (f + d + 6) / 7 := List.mem_range.1 hi
    by_cases h0 : i = 0
    · subst h0
      refine ⟨weekCell date.year date.month f d (7 * 0 + f), ?_, ?_⟩
      · exact List.mem_map.2 ⟨f, List.mem_range.2 (by omega), rfl⟩
      · have hp : f ≤ 7 * 0 + f ∧ 7 * 0 + f < f + d := ⟨by omega, by omega⟩
        simp only [weekCell, if_pos hp]
        exact fun h => by cases h
    · refine ⟨weekCell date.year date.month f d (7 * i + 0), ?_, ?_⟩
      · exact List.mem_map.2 ⟨0, List.mem_range.2 (by omega), rfl⟩
      · have hp : f ≤ 7 * i + 0 ∧ 7 * i + 0 < f + d := ⟨by omega, by omega⟩
        simp only [weekCell, if_pos hp]
        exact fun h => by cases h
  · intro k hk1 hkd
    obtain ⟨w, hw, _, hcell⟩ := getElem?_weekRows date.year date.month f d ((f + d + 6) / 7)
      ((f + k - 1) / 7) ((f + k - 1) % 7) (by omega) (by omega)
    refine ⟨w, by rw [hrows]; exact hw, ?_, ?_⟩
    · rw [hcell]
      have hp : f ≤ 7 * ((f + k - 1) / 7) + (f + k - 1) % 7 ∧
          7 * ((f + k - 1) / 7) + (f + k - 1) % 7 < f + d := ⟨by omega, by omega⟩
      simp only [weekCell, if_pos hp]
      congr 3
      omega
    · rw [getDay_newDate date.year date.month k hk1, ← hf]
      congr 1
      omega
  · intro i j w cell hw hcell
    rw [hrows] at hw
    have hi : i < (f + d + 6) / 7 := by
      rcases Nat.lt_or_ge i ((f + d + 6) / 7) with h | h
      · exact h
      · rw [List.getElem?_eq_none (by simpa using h)] at hw
        exact absurd hw (by simp)
    have hw' : w = weekRow date.year date.month f d i := by
      simpa [hi] using hw.symm
    subst hw'
    have hj : j < 7 := by
      rcases Nat.lt_or_ge j 7 with h | h
      · exact h
      · rw [List.getElem?_eq_none (by simpa [weekRow] using h)] at hcell
        exact absurd hcell (by simp)
    have hval : weekCell date.year date.month f d (7 * i + j) = some cell := by
      simpa [weekRow, hj] using hcell
    by_cases hp : f ≤ 7 * i + j ∧ 7 * i + j < f + d
    · simp only [weekCell, if_pos hp] at hval
      refine ⟨7 * i + j - f + 1, by omega, by omega, (Option.some.inj hval).symm, by omega,
        by omega⟩
    · simp only [weekCell, if_neg hp] at hval
      exact absurd hval (by simp)
  · intro hy hm0 hm11 k
    have hnot : ¬ (0 ≤ date.year ∧ date.year ≤ 99) := by omega
    simp only [newDate, normalizeMonth, if_neg hnot]
    congr 1 <;> omega

/-- The week array of August 2026 (first weekday 6, 31 days): six weeks. -/
theorem getWeekArray_august2026 :
    (6 : Nat) = (newDate august2026.year august2026.month 1).getDay ∧
    (31 : Nat) = SimpleDateAdapter.getDaysInMonth august2026 ∧
    (SimpleDateAdapter.getWeekArray august2026).length = 6 ∧
    (∀ w ∈ SimpleDateAdapter.getWeekArray august2026, w.length = 7) ∧
    (SimpleDateAdapter.getWeekArray august2026).flatten
      = List.replicate 6 none
        ++ (List.range' 1 31).map (fun k => some (newDate august2026.year august2026.month k))
        ++ List.replicate (7 * (SimpleDateAdapter.getWeekArray august2026).length - 6 - 31)
          none :=
  ⟨by decide, by decide,
    (getWeekArray_weeks august2026 6 31 (by decide) (by decide)).2.2.2.2.1,
    (getWeekArray_weeks august2026 6 31 (by decide) (by decide)).2.2.2.1,
    (getWeekArray_weeks august2026 6 31 (by decide) (by decide)).2.2.2.2.2.2.2.1⟩

/-- Claim C21, at a date in February of the year 50: the array that `getWeekArray`
returns has 3 leading nulls and then the 28 days of February 1950, although the 1st of
February of the year 50 is a Tuesday (2); no cell is a day of the month of the date. -/
theorem getWeekArray_two_digit_year :
    (SimpleDateAdapter.getWeekArray february50).length = 5 ∧
    (SimpleDateAdapter.getWeekArray february50).flatten
      = List.replicate 3 none
        ++ (List.range' 1 28).map
            (fun k => some ({ year := 1950, month := 1, day := k } : SimpleDate))
        ++ List.replicate 4 none ∧
    (∀ k : Nat, some ({ year := 50, month := 1, day := k } : SimpleDate)
        ∉ (SimpleDateAdapter.getWeekArray february50).flatten) ∧
    ({ year := february50.year, month := february50.month, day := 1 } : SimpleDate).getDay = 2 ∧
    (newDate february50.year february50.month 1).getDay = 3 ∧
    SimpleDateAdapter.getDaysInMonth february50 = 28 := by
  have h := getWeekArray_weeks february50 3 28 (by decide) (by decide)
  have hlen : (SimpleDateAdapter.getWeekArray february50).length = 5 := h.2.2.2.2.1
  have hflat := h.2.2.2.2.2.2.2.1
  rw [hlen] at hflat
  have hdate : ∀ k : Nat, newDate february50.year february50.month k
      = ({ year := 1950, month := 1, day := k } : SimpleDate) := fun _ => rfl
  simp only [hdate] at hflat
  refine ⟨hlen, hflat, ?_, by decide, by decide, by decide⟩
  intro k hk
  rw [hflat] at hk
  simp [List.mem_replicate] at hk

/-! ## The signed amount -/

/-- A property of the second operand of `{...a, ...b}` has the value it has in `b`. -/
theorem Row.get_spread_right (a b : Row) (hb : Row.wellFormed b) (key : String)
    (hkey : Row.has b key = true) : Row.get (Row.spread a b) key = Row.get b key := by
  unfold Row.spread
  rw [List.foldl_append, Row.get_foldl_set b hb, if_pos hkey]

/-- The amount that `handleSaveTransaction` passes on. -/
theorem handleSaveTransaction_amount (strToNum : String → JSNum) (now : Nat)
    (newTransaction : Row) :
    (handleSaveTransaction strToNum now newTransaction).get "amount"
      = JSVal.num
          (if (newTransaction.get "type").strictEq (JSVal.str "Expense") then
            (mathAbs (toNumber strToNum (newTransaction.get "amount"))).neg
          else mathAbs (toNumber strToNum (newTransaction.get "amount"))) := by
  unfold handleSaveTransaction
  rw [Row.get_spread_right _ _ (by simp [Row.wellFormed]) _ (by simp [Row.has, List.lookup])]
  simp [Row.get, List.lookup]

/-- The fields of the form that `handleSaveTransaction` does not set are passed on. -/
theorem handleSaveTransaction_other (strToNum : String → JSNum) (now : Nat)
    (newTransaction : Row) (hw : Row.wellFormed newTransaction) (key : String)
    (h1 : key ≠ "amount") (h2 : key ≠ "accountCategory") (h3 : key ≠ "status")
    (h4 : key ≠ "reference") :
    (handleSaveTransaction strToNum now newTransaction).get key = newTransaction.get key := by
  unfold handleSaveTransaction
  rw [Row.get_spread _ _ hw (by simp [Row.wellFormed])]
  have hn : ¬ (Row.has
      [("amount",
          JSVal.num
            (if (newTransaction.get "type").strictEq (JSVal.str "Expense") then
              (mathAbs (toNumber strToNum (newTransaction.get "amount"))).neg
            else mathAbs (toNumber strToNum (newTransaction.get "amount")))),
        ("accountCategory", JSVal.str "VCES"),
        ("status", JSVal.str "Completed"),
        ("reference", JSVal.str ("REF-" ++ sliceLastSix (toString now)))] key = true) := by
    rw [Row.has_cons, Row.has_cons, Row.has_cons, Row.has_cons]
    simp [h1, h2, h3, h4, Row.has]
  rw [if_neg hn]

theorem handleSaveTransaction_incomeForm :
    (handleSaveTransaction (fun _ => JSNum.nan) 1717200000123 incomeForm).get "amount"
      = JSVal.num (JSNum.fin 250) := by
  rw [handleSaveTransaction_amount]
  simp [incomeForm, Row.get, List.lookup, JSVal.strictEq, toNumber, mathAbs]

/-- The sign of `-Math.abs(a)` and of `Math.abs(a)`. -/
theorem mathAbs_sign (a : JSNum) :
    (mathAbs a).neg.gt (JSNum.fin 0) = false ∧ (JSNum.fin 0).gt (mathAbs a) = false := by
  cases a <;> simp [mathAbs, JSNum.neg, JSNum.gt]

/-- Claim C22: the transaction that `handleSaveTransaction` passes to `addTransaction`
has the amount `-|a|` when the type of the form is `'Expense'` and `|a|` for every other
type, `a` being the amount of the form; its type is the type of the form; `-|a|` is
never greater than 0 and `|a|` never less than 0; the entry that
`ExcelIntegration.addTransaction` stores keeps this amount and type; and the amount of
the form is a number once `handleFormChange` has set it. -/
theorem handleSaveTransaction_signed_amount (strToNum : String → JSNum) (now : Nat)
    (newTransaction : Row) (a : JSNum) (hw : Row.wellFormed newTransaction)
    (ha : newTransaction.get "amount" = JSVal.num a) :
    (newTransaction.get "type" = JSVal.str "Expense" →
      (handleSaveTransaction strToNum now newTransaction).get "amount"
        = JSVal.num (mathAbs a).neg) ∧
    (newTransaction.get "type" ≠ JSVal.str "Expense" →
      (handleSaveTransaction strToNum now newTransaction).get "amount"
        = JSVal.num (mathAbs a)) ∧
    (handleSaveTransaction strToNum now newTransaction).get "type"
      = newTransaction.get "type" ∧
    (mathAbs a).neg.gt (JSNum.fin 0) = false ∧
    (JSNum.fin 0).gt (mathAbs a) = false ∧
    (∀ q : ℚ, a = JSNum.fin q →
      mathAbs a = JSNum.fin |q| ∧ (mathAbs a).neg = JSNum.fin (-|q|)) ∧
    (∀ (data : WorkbookData) (result : WorkbookData × Row),
      ExcelIntegration.addTransaction strToNum (some data)
          (handleSaveTransaction strToNum now newTransaction) = Except.ok result →
        result.2.get "amount" = (handleSaveTransaction strToNum now newTransaction).get "amount" ∧
        result.2.get "type" = newTransaction.get "type" ∧
        (orEmpty data.Transaction_Entry ++ [result.2] = orEmpty result.1.Transaction_Entry)) ∧
    (∀ value : String, ∃ x : JSNum, x ≠ JSNum.nan ∧
      (handleFormChange newTransaction "amount" value).get "amount" = JSVal.num x) := by
  have htype := handleSaveTransaction_other strToNum now newTransaction hw "type"
    (by decide) (by decide) (by decide) (by decide)
  refine ⟨?_, ?_, htype, (mathAbs_sign a).1, (mathAbs_sign a).2, ?_, ?_, ?_⟩
  · intro ht
    rw [handleSaveTransaction_amount, ha, ht]
    simp [JSVal.strictEq, toNumber]
  · intro ht
    rw [handleSaveTransaction_amount, ha]
    simp [JSVal.strictEq, toNumber, ht]
  · intro q hq
    subst hq
    simp [mathAbs, JSNum.neg]
  · intro data result h
    simp only [ExcelIntegration.addTransaction] at h
    have h2 := (Except.ok.injEq _ _).mp h
    rw [← h2]
    refine ⟨?_, ?_, ?_⟩
    · dsimp only
      split
      · rfl
      · rw [Row.get_set]; simp
    · dsimp only
      split
      · exact htype
      · rw [Row.get_set]; simpa using htype
    · simp [orEmpty]
  · intro value
    refine ⟨(parseFloat (JSVal.str value)).orZero, JSNum.orZero_ne_nan _, ?_⟩
    unfold handleFormChange
    rw [Row.get_spread_right _ _ (by simp [Row.wellFormed]) _ (by simp [Row.has, List.lookup])]
    simp [Row.get, List.lookup]

theorem handleSaveTransaction_signed_amount_witness :
    Row.wellFormed expenseForm ∧
    expenseForm.get "amount" = JSVal.num (JSNum.fin 250) ∧
    expenseForm.get "type" = JSVal.str "Expense" ∧
    (handleSaveTransaction (fun _ => JSNum.nan) 1717200000123 expenseForm).get "amount"
      = JSVal.num (JSNum.fin (-250)) := by
  have hw : Row.wellFormed expenseForm := by simp [Row.wellFormed, expenseForm]
  have ha : expenseForm.get "amount" = JSVal.num (JSNum.fin 250) := by
    simp [expenseForm, Row.get, List.lookup]
  have ht : expenseForm.get "type" = JSVal.str "Expense" := by
    simp [expenseForm, Row.get, List.lookup]
  have h := (handleSaveTransaction_signed_amount (fun _ => JSNum.nan) 1717200000123
    expenseForm (JSNum.fin 250) hw ha).1 ht
  refine ⟨hw, ha, ht, ?_⟩
  rw [h]
  simp [mathAbs, JSNum.neg]

end KioscFinance
